import Mathlib

/-!
# TurboVision: capture / transport state machines

A shallow embedding of the control plane of the TurboVision sources
(`rtsp_server.cpp`, `video_source.cpp`, `rtsp_source.cpp`, `camera_source.cpp`,
`frame_data.cpp`, `hardware_manager.cpp`) together with theorems about the
frame queue of the server, the reconnect policy of the RTSP source, the
start / stop / pause / resume / seek contract of the capture engines, the
geometry of frame buffers and the hardware probe.

Conventions of the embedding:

* C++ `int` / `int64_t` values are `Int`; counters are incremented without
  wrap-around (signed overflow is undefined behaviour in the source). The size
  arithmetic of `FrameData` is reduced to 32 bits (`wrapInt32`).
* A nullable pointer is an `Option` (or a `Bool` when only null-ness matters).
* Calls into FFmpeg whose outcome the program cannot control (allocation,
  network open, encoder, decoder) take their outcome from an explicit
  environment argument.
* `float` fields (`currentFps`, `avgLatency`, `averageLatency`, `packetLoss`)
  are not part of the state.
* A worker thread is a sequence of atomic loop iterations; the mutex-protected
  sections of the source are never split.
-/

namespace TurboVision

/-! ## Frames -/

/-- Pixel formats are FFmpeg enum codes. -/
abbrev AVPixelFormat := Int

/-- The value of `AV_PIX_FMT_YUV420P` in FFmpeg's `pixfmt.h`. -/
def AV_PIX_FMT_YUV420P : AVPixelFormat := 0

/-- The value of `AV_NOPTS_VALUE`, the timestamp of a freshly allocated frame. -/
def AV_NOPTS_VALUE : Int := -9223372036854775808

/-- An `AVFrame`: geometry, format, presentation timestamp, whether it lives in
device memory (`hw_frames_ctx` non-null) and the pixel values of its planes.
Line padding is not modelled: plane `i` lists the pixels row by row. -/
structure AVFrame where
  width : Int
  height : Int
  format : AVPixelFormat
  pts : Int
  hw_frames_ctx : Bool
  data : List (List Int)
deriving DecidableEq, Repr

/-- The fields of `FrameData` (`frame_data.hpp`); `data` is `none` for a null
buffer pointer. -/
structure FrameData where
  data : Option (List Nat)
  width : Int
  height : Int
  format : AVPixelFormat
  timestamp : Int
  dataSize : Int
  planeOffsets : List Int
deriving DecidableEq, Repr

/-! ## RTSPServer (`rtsp_server.cpp`) -/

/-- The integer fields of `RTSPServer::ServerStats`. -/
structure ServerStats where
  connectedClients : Int
  currentBitrate : Int
  bytesTransferred : Int
  framesTransferred : Int
  uptime : Int
  droppedFrames : Int
deriving DecidableEq, Repr

/-- The value-initialised `ServerStats{}` that `resetStats` assigns. -/
def ServerStats.zero : ServerStats :=
  { connectedClients := 0, currentBitrate := 0, bytesTransferred := 0,
    framesTransferred := 0, uptime := 0, droppedFrames := 0 }

/-- The state of an `RTSPServer`: the configured frame size, the running flag,
whether `serverThread_` is joinable, the frame queue (front first), the stats
and the `pts` local of the transmission loop. -/
structure RTSPServer where
  width : Int
  height : Int
  isRunning : Bool
  serverThread : Bool
  frameQueue : List AVFrame
  stats : ServerStats
  pts : Int
deriving DecidableEq, Repr

/-- The constructor: not running, empty queue, stats reset. -/
def RTSPServer.new (width height : Int) : RTSPServer :=
  { width := width, height := height, isRunning := false, serverThread := false,
    frameQueue := [], stats := ServerStats.zero, pts := 0 }

/-- The function `resetStats`. -/
def RTSPServer.resetStats (s : RTSPServer) : RTSPServer :=
  { s with stats := ServerStats.zero }

/-- The function `clearFrameQueue`: pops until the queue is empty. -/
def RTSPServer.clearFrameQueue (s : RTSPServer) : RTSPServer :=
  { s with frameQueue := [] }

/-- The function `createVideoFrame`; `allocOk` is the joint outcome of
`av_frame_alloc`, `av_frame_get_buffer` and `av_frame_make_writable`. -/
def createVideoFrame (allocOk : Bool) (width height : Int) (pixFormat : AVPixelFormat) :
    Option AVFrame :=
  if allocOk then
    some { width := width, height := height, format := pixFormat, pts := AV_NOPTS_VALUE,
           hw_frames_ctx := false, data := [[], [], []] }
  else none

/-- One byte of the caller's BGR24 buffer at index `i`; an index outside the
buffer (undefined behaviour in the source) reads as 0. -/
def readByte (data : List Nat) (i : Int) : Int :=
  if i < 0 then 0 else ((data.getD i.toNat 0 % 256 : Nat) : Int)

/-- The cast `static_cast<uint8_t>`. -/
def toUInt8 (v : Int) : Int := v % 256

/-- Luma of one pixel: `(YR * r + YG * g + YB * b + 128) >> 8`. -/
def lumaOf (r g b : Int) : Int := toUInt8 ((77 * r + 150 * g + 29 * b + 128) >>> 8)

/-- Chroma U: `((UR * r + UG * g + UB * b + 128) >> 8) + 128`. -/
def chromaUOf (r g b : Int) : Int :=
  toUInt8 (((-43 * r + -84 * g + 127 * b + 128) >>> 8) + 128)

/-- Chroma V: `((VR * r + VG * g + VB * b + 128) >> 8) + 128`. -/
def chromaVOf (r g b : Int) : Int :=
  toUInt8 (((127 * r + -106 * g + -21 * b + 128) >>> 8) + 128)

/-- The Y value written at column `x` of row `y`. -/
def convertLuma (data : List Nat) (in_linesize : Int) (y x : Nat) : Int :=
  let p : Int := y * in_linesize + x * 3
  lumaOf (readByte data (p + 2)) (readByte data (p + 1)) (readByte data p)

/-- The sum over the 2x2 block of chroma sample `(x, y)` of byte `c` of each pixel. -/
def blockSum (data : List Nat) (in_linesize : Int) (y x : Nat) (c : Int) : Int :=
  ((List.range 2).flatMap fun dy => (List.range 2).map fun dx =>
    readByte data ((y * 2 + dy : Nat) * in_linesize + ((x * 2 + dx : Nat) : Int) * 3 + c)).sum

/-- The U and V values written for chroma sample `(x, y)`. -/
def convertChroma (data : List Nat) (in_linesize : Int) (y x : Nat) : Int × Int :=
  let r := blockSum data in_linesize y x 2 / 4
  let g := blockSum data in_linesize y x 1 / 4
  let b := blockSum data in_linesize y x 0 / 4
  (chromaUOf r g b, chromaVOf r g b)

/-- The function `convertFrame` on a non-null frame: `none` when it returns
false, the filled frame when it returns true. -/
def convertFrame (data : Option (List Nat)) (size : Int) (frame : AVFrame) : Option AVFrame :=
  match data with
  | none => none
  | some bytes =>
    if size ≤ 0 then none
    else
      let in_linesize := frame.width * 3
      let h := frame.height.toNat
      let w := frame.width.toNat
      let planeY := (List.range h).flatMap fun y =>
        (List.range w).map fun x => convertLuma bytes in_linesize y x
      let chroma := (List.range (h / 2)).flatMap fun y =>
        (List.range (w / 2)).map fun x => convertChroma bytes in_linesize y x
      some { frame with data := [planeY, chroma.map Prod.fst, chroma.map Prod.snd] }

/-- The loop `while (frameQueue_.size() > 30)` of `pushFrame`: pop the front
and count one dropped frame per pop. -/
def trimQueue : List AVFrame → Int → List AVFrame × Int
  | [], dropped => ([], dropped)
  | f :: rest, dropped =>
    if (f :: rest).length > 30 then trimQueue rest (dropped + 1) else (f :: rest, dropped)

/-- The function `pushFrame(const uint8_t*, int)`: the returned flag and the
new state. The encoder pixel format is the `AV_PIX_FMT_YUV420P` that
`setupEncoder` configures. -/
def RTSPServer.pushFrame (s : RTSPServer) (frameData : Option (List Nat)) (size : Int)
    (allocOk : Bool) : Bool × RTSPServer :=
  if !s.isRunning || frameData.isNone then (false, s)
  else
    match createVideoFrame allocOk s.width s.height AV_PIX_FMT_YUV420P with
    | none => (false, s)
    | some frame =>
      match convertFrame frameData size frame with
      | none => (false, s)
      | some converted =>
        let r := trimQueue (s.frameQueue ++ [converted]) s.stats.droppedFrames
        (true, { s with frameQueue := r.1, stats := { s.stats with droppedFrames := r.2 } })

/-- The function `pushFrame(const FramePtr&)`. -/
def RTSPServer.pushFramePtr (s : RTSPServer) (frame : Option FrameData) (allocOk : Bool) :
    Bool × RTSPServer :=
  match frame with
  | none => (false, s)
  | some f => s.pushFrame f.data f.dataSize allocOk

/-- What the encoder and the muxer do with one submitted frame: whether
`avcodec_send_frame` accepts it, and for every packet the encoder then yields
its size and whether `av_interleaved_write_frame` succeeds. -/
structure EncodeEnv where
  sendOk : Bool
  packets : List (Int × Bool)
deriving DecidableEq, Repr

/-- The packet loop of `encodeAndTransmit`: the `success` flag and the bytes
added to `bytesTransferred`. -/
def transmitPackets : List (Int × Bool) → Bool → Int → Bool × Int
  | [], success, bytes => (success, bytes)
  | (size, writeOk) :: rest, success, bytes =>
    if writeOk then transmitPackets rest true (bytes + size)
    else transmitPackets rest success bytes

/-- The function `encodeAndTransmit` on a non-null frame of a started server. -/
def RTSPServer.encodeAndTransmit (s : RTSPServer) (env : EncodeEnv) : Bool × RTSPServer :=
  if !env.sendOk then (false, s)
  else
    let r := transmitPackets env.packets false s.stats.bytesTransferred
    (r.1, { s with stats := { s.stats with bytesTransferred := r.2 } })

/-- The function `updateStats`; `now` is the clock reading in whole seconds that
the source stores in `uptime`. The division truncates as in C++ (a zero
divisor, undefined in the source, yields 0 here). -/
def RTSPServer.updateStats (s : RTSPServer) (now : Int) : RTSPServer :=
  { s with stats := { s.stats with
      uptime := now
      currentBitrate := Int.tdiv (s.stats.bytesTransferred * 8) now } }

/-- The environment of one iteration of `serverLoop`: the encoder outcome and,
when a second has passed since the last stats update, the clock reading. -/
structure LoopEnv where
  encode : EncodeEnv
  statsDue : Option Int
deriving DecidableEq, Repr

/-- One iteration of the `while (isRunning_)` loop of `serverLoop`: the new
state and the frame dequeued for transmission (with its `pts` assigned), if any. -/
def RTSPServer.serverLoopIter (s : RTSPServer) (env : LoopEnv) : RTSPServer × Option AVFrame :=
  if !s.isRunning then (s, none)
  else
    match s.frameQueue with
    | [] => (s, none)
    | frame :: rest =>
      let stamped := { frame with pts := s.pts }
      let s1 := { s with frameQueue := rest, pts := s.pts + 1 }
      let r := s1.encodeAndTransmit env.encode
      let s2 := if r.1 then
          { r.2 with stats := { r.2.stats with framesTransferred := r.2.stats.framesTransferred + 1 } }
        else r.2
      match env.statsDue with
      | some now => (s2.updateStats now, some stamped)
      | none => (s2, some stamped)

/-- The function `start`; `initOk` is the outcome of `initializeServer`. -/
def RTSPServer.start (s : RTSPServer) (initOk : Bool) : Bool × RTSPServer :=
  if s.isRunning then (false, s)
  else if !initOk then (false, s)
  else (true, { ({ s with isRunning := true }).resetStats with serverThread := true, pts := 0 })

/-- The function `stop`: clear the flag, join the worker, clear the queue. -/
def RTSPServer.stop (s : RTSPServer) : RTSPServer :=
  ({ s with isRunning := false, serverThread := false }).clearFrameQueue

/-- The operations that can be interleaved on a server: the three public calls
and one iteration of the transmission worker. -/
inductive ServerOp where
  | start (initOk : Bool)
  | pushFrame (frameData : Option (List Nat)) (size : Int) (allocOk : Bool)
  | loopIter (env : LoopEnv)
  | stop
deriving DecidableEq, Repr

/-- The effect of one operation on the server state. -/
def ServerOp.apply (s : RTSPServer) : ServerOp → RTSPServer
  | .start initOk => (s.start initOk).2
  | .pushFrame frameData size allocOk => (s.pushFrame frameData size allocOk).2
  | .loopIter env => (s.serverLoopIter env).1
  | .stop => s.stop

/-- The state after a sequence of operations. -/
def RTSPServer.run (s : RTSPServer) (ops : List ServerOp) : RTSPServer :=
  ops.foldl ServerOp.apply s

/-- One input of `pushFrame`: the buffer pointer, the size argument and the
outcome of the frame allocation. -/
structure PushInput where
  frameData : Option (List Nat)
  size : Int
  allocOk : Bool
deriving DecidableEq, Repr

/-- The frame that a `pushFrame` call with this input enqueues on a server of
the given frame size, `none` when allocation or conversion fails. -/
def PushInput.frame (width height : Int) (i : PushInput) : Option AVFrame :=
  (createVideoFrame i.allocOk width height AV_PIX_FMT_YUV420P).bind
    (convertFrame i.frameData i.size)

/-- A sequence of `pushFrame` calls: the final state and whether every call
returned true. -/
def RTSPServer.pushFrames : RTSPServer → List PushInput → Bool × RTSPServer
  | s, [] => (true, s)
  | s, i :: rest =>
    let r := s.pushFrame i.frameData i.size i.allocOk
    let t := RTSPServer.pushFrames r.2 rest
    (r.1 && t.1, t.2)

/-! ## VideoSource and its two variants (`video_source.cpp`, `rtsp_source.cpp`, `camera_source.cpp`) -/

/-- An opened input (`AVFormatContext`): for every stream, whether its codec
type is `AVMEDIA_TYPE_VIDEO`. -/
structure AVFormatContext where
  streams : List Bool
deriving DecidableEq, Repr

/-- The fields of `RTSPSource::RTSPConfig` that the capture loop consults. -/
structure RTSPConfig where
  reconnectOnError : Bool
  maxReconnectAttempts : Int
deriving DecidableEq, Repr

/-- The non-float fields of `RTSPSource::RTSPStatus`. -/
structure RTSPStatus where
  connected : Bool
  reconnectAttempts : Int
  bytesReceived : Int
  framesReceived : Int
deriving DecidableEq, Repr

/-- The field of `CameraSource::CameraConfig` that decides whether an input
format is looked up (non-Windows build). -/
structure CameraConfig where
  useV4L2 : Bool
deriving DecidableEq, Repr

/-- The state of a `std::thread` member: never started or already joined, running its
loop, or returned from its loop but not yet joined. -/
inductive ThreadState where
  | notStarted
  | looping
  | exited
deriving DecidableEq, Repr

/-- The method `std::thread::joinable`. -/
def ThreadState.joinable : ThreadState → Bool
  | .notStarted => false
  | .looping => true
  | .exited => true

/-- Which derived class an engine is; it selects the overrides of
`initializeSource`, `captureLoop` and `cleanupSource`. -/
inductive SourceKind where
  | camera
  | rtsp
deriving DecidableEq, Repr

/-- The state of a capture engine: the members of `VideoSource`, then those of
`CameraSource`, then those of `RTSPSource`. `codecContext` and `cameraOptions`
record whether the pointer is non-null, `frameCallback` whether a callback is
registered. -/
structure VideoSource where
  kind : SourceKind
  formatContext : Option AVFormatContext
  codecContext : Bool
  videoStreamIndex : Int
  isRunning : Bool
  isPaused : Bool
  captureThread : ThreadState
  frameQueue : List FrameData
  frameCallback : Bool
  cameraConfig : CameraConfig
  cameraOptions : Bool
  rtspConfig : RTSPConfig
  status : RTSPStatus
  reconnectAttempts : Int
deriving DecidableEq, Repr

/-- The outcomes of the FFmpeg calls made while opening a source: context
allocation, input-format lookup, `avformat_open_input`,
`avformat_find_stream_info`, the streams of the opened input and the decoder
set-up. -/
structure OpenEnv where
  allocOk : Bool
  inputFormatFound : Bool
  openOk : Bool
  streamInfoOk : Bool
  streams : List Bool
  decoderOk : Bool
deriving DecidableEq, Repr

/-- The index of the first video stream at or after position `i`. -/
def firstVideoStream : List Bool → Nat → Option Nat
  | [], _ => none
  | isVideo :: rest, i => if isVideo then some i else firstVideoStream rest (i + 1)

/-- The loop that looks for the video stream: `videoStreamIndex_` is assigned
the first video index and left alone when there is none. -/
def VideoSource.findVideoStream (s : VideoSource) (streams : List Bool) : VideoSource :=
  match firstVideoStream streams 0 with
  | some i => { s with videoStreamIndex := (i : Int) }
  | none => s

/-- The accessor `isRunning()`. -/
def VideoSource.isRunningQuery (s : VideoSource) : Bool := s.isRunning

/-- The accessor `isPaused()`. -/
def VideoSource.isPausedQuery (s : VideoSource) : Bool := s.isPaused

/-- The function `RTSPSource::disconnect`. -/
def VideoSource.disconnect (s : VideoSource) : VideoSource :=
  { s with codecContext := false, formatContext := none, videoStreamIndex := -1,
           status := { s.status with connected := false } }

/-- The function `RTSPSource::connect` (with `setupNetworking` and
`initializeDecoder` inlined): the returned flag and the new state. -/
def VideoSource.connect (s : VideoSource) (env : OpenEnv) : Bool × VideoSource :=
  if !env.allocOk then (false, { s with formatContext := none })
  else if !(env.openOk && env.streamInfoOk) then (false, { s with formatContext := none })
  else
    let s1 := ({ s with formatContext := some { streams := env.streams } }).findVideoStream
      env.streams
    if s1.videoStreamIndex < 0 then (false, s1.disconnect)
    else if !env.decoderOk then (false, ({ s1 with codecContext := false }).disconnect)
    else (true, { s1 with codecContext := true, status := { s1.status with connected := true } })

/-- The function `RTSPSource::reconnect`. -/
def VideoSource.reconnect (s : VideoSource) (env : OpenEnv) : Bool × VideoSource :=
  s.disconnect.connect env

/-- The function `CameraSource::setupCamera` (non-Windows build). -/
def VideoSource.setupCamera (s : VideoSource) (env : OpenEnv) : Bool × VideoSource :=
  if !(s.cameraConfig.useV4L2 && env.inputFormatFound) then (false, s)
  else
    let s1 := { s with cameraOptions := true }
    if !env.openOk then (false, s1)
    else (env.streamInfoOk, { s1 with formatContext := some { streams := env.streams } })

/-- The function `CameraSource::configureFormat`. -/
def VideoSource.configureFormat (s : VideoSource) : Bool :=
  if s.formatContext.isNone || decide (s.videoStreamIndex < 0) || !s.codecContext then false
  else true

/-- The function `CameraSource::initializeSource`. -/
def VideoSource.cameraInitializeSource (s : VideoSource) (env : OpenEnv) : Bool × VideoSource :=
  let s0 := { s with formatContext := if env.allocOk then some { streams := [] } else none }
  let r := s0.setupCamera env
  if !r.1 then (false, r.2)
  else
    let s1 := r.2.findVideoStream env.streams
    if s1.videoStreamIndex < 0 then (false, s1)
    else (s1.configureFormat, s1)

/-- The virtual `initializeSource`. -/
def VideoSource.initializeSource (s : VideoSource) (env : OpenEnv) : Bool × VideoSource :=
  match s.kind with
  | .camera => s.cameraInitializeSource env
  | .rtsp => s.connect env

/-- The virtual `cleanupSource`. -/
def VideoSource.cleanupSource (s : VideoSource) : VideoSource :=
  match s.kind with
  | .camera => { s with cameraOptions := false }
  | .rtsp => s.disconnect

/-- The function `VideoSource::clearFrameQueue`. -/
def VideoSource.clearFrameQueue (s : VideoSource) : VideoSource :=
  { s with frameQueue := [] }

/-- The function `VideoSource::start`: the returned flag and the new state; a
worker thread is spawned only on the path that returns true. -/
def VideoSource.start (s : VideoSource) (env : OpenEnv) : Bool × VideoSource :=
  if s.isRunning then (false, s)
  else
    let r := s.initializeSource env
    if !r.1 then (false, r.2)
    else (true, { r.2 with isRunning := true, isPaused := false, captureThread := .looping })

/-- The function `VideoSource::stop`: clear both flags, join the worker if it is
joinable, clear the queue, clean the source up. -/
def VideoSource.stop (s : VideoSource) : VideoSource :=
  let s1 := { s with isRunning := false, isPaused := false }
  let s2 := if s1.captureThread.joinable then { s1 with captureThread := .notStarted } else s1
  s2.clearFrameQueue.cleanupSource

/-- The function `VideoSource::pause`. -/
def VideoSource.pause (s : VideoSource) : Bool × VideoSource :=
  if !s.isRunning then (false, s) else (true, { s with isPaused := true })

/-- The function `VideoSource::resume`. -/
def VideoSource.resume (s : VideoSource) : Bool × VideoSource :=
  if !s.isRunning then (false, s) else (true, { s with isPaused := false })

/-- The function `VideoSource::setFrameCallback`; `registered` tells whether the
new callback is non-empty. -/
def VideoSource.setFrameCallback (s : VideoSource) (registered : Bool) : VideoSource :=
  { s with frameCallback := registered }

/-- How the receive loop of `processPacket` ends: the decoder needs more input,
reports end of stream, or fails. -/
inductive ReceiveEnd where
  | eagain
  | eof
  | error
deriving DecidableEq, Repr

/-- One frame yielded by `avcodec_receive_frame`, with the outcome of the
device-to-host transfer (consulted only for a device frame) and whether building
the `FrameData` for it succeeds (no exception). -/
structure ReceivedFrame where
  frame : AVFrame
  transferOk : Bool
  frameDataOk : Bool
deriving DecidableEq, Repr

/-- What the decoder does with one packet: whether `avcodec_send_packet` accepts
it, the frames it then yields, and how the receive loop ends. -/
structure DecodeEnv where
  sendOk : Bool
  frames : List ReceivedFrame
  final : ReceiveEnd
deriving DecidableEq, Repr

/-- The observable actions of a capture worker. -/
inductive Action where
  | sleepMs (ms : Nat)
  | readFrame
  | frameCallback (frame : AVFrame)
  | disconnect
  | reconnect (ok : Bool)
  | updateStatus
deriving DecidableEq, Repr

/-- The function `VideoSource::processFrame` on a non-null frame: the returned
flag and the callback invocation it makes, if any. -/
def VideoSource.processFrame (s : VideoSource) (frame : AVFrame) (frameDataOk : Bool) :
    Bool × List Action :=
  if !frameDataOk then (false, [])
  else (true, if s.frameCallback then [Action.frameCallback frame] else [])

/-- The `while (true)` receive loop of `processPacket`, started with the current
value of `success`. -/
def VideoSource.receiveLoop (s : VideoSource) :
    List ReceivedFrame → ReceiveEnd → Bool → Bool × List Action
  | [], .eagain, _ => (true, [])
  | [], .eof, success => (success, [])
  | [], .error, success => (success, [])
  | f :: rest, final, success =>
    if f.frame.hw_frames_ctx then
      if !f.transferOk then s.receiveLoop rest final success
      else
        let r := s.processFrame { f.frame with hw_frames_ctx := false } f.frameDataOk
        let t := s.receiveLoop rest final r.1
        (t.1, r.2 ++ t.2)
    else
      let r := s.processFrame f.frame f.frameDataOk
      let t := s.receiveLoop rest final r.1
      (t.1, r.2 ++ t.2)

/-- The function `VideoSource::processPacket`. -/
def VideoSource.processPacket (s : VideoSource) (env : DecodeEnv) : Bool × List Action :=
  if !s.codecContext then (false, [])
  else if !env.sendOk then (false, [])
  else s.receiveLoop env.frames env.final false

/-- The outcome of `av_read_frame`: a packet (its stream index, its size and what
the decoder does with it) or a failure (with the outcomes of the FFmpeg calls of
the reconnect that may follow). -/
inductive ReadResult where
  | packet (streamIndex : Int) (size : Int) (decode : DecodeEnv)
  | failure (reopen : OpenEnv)
deriving DecidableEq, Repr

/-- The environment of one iteration of a capture loop: the outcome of the read
and whether a second has passed since the last status update. -/
structure IterEnv where
  read : ReadResult
  statusDue : Bool
deriving DecidableEq, Repr

/-- The result of one iteration (or of a run) of a capture loop: the state, the
actions performed, and whether the loop goes on to a further iteration. -/
structure IterResult where
  state : VideoSource
  trace : List Action
  continues : Bool
deriving DecidableEq, Repr

/-- One evaluation of the loop condition and body of `RTSPSource::captureLoop`. -/
def VideoSource.rtspCaptureIter (s : VideoSource) (env : IterEnv) : IterResult :=
  if !s.isRunning then { state := s, trace := [], continues := false }
  else if s.isPaused then { state := s, trace := [Action.sleepMs 10], continues := true }
  else
    match env.read with
    | .packet streamIndex size decode =>
      let r : VideoSource × List Action :=
        if streamIndex = s.videoStreamIndex then
          let s1 := { s with
            reconnectAttempts := 0
            status := { s.status with
              bytesReceived := s.status.bytesReceived + size
              framesReceived := s.status.framesReceived + 1 } }
          (s1, (s1.processPacket decode).2)
        else (s, [])
      { state := r.1
        trace := [Action.readFrame] ++ r.2 ++ (if env.statusDue then [Action.updateStatus] else [])
        continues := true }
    | .failure reopen =>
      if s.rtspConfig.reconnectOnError
          && decide (s.reconnectAttempts < s.rtspConfig.maxReconnectAttempts) then
        let r := s.disconnect.reconnect reopen
        if r.1 then
          { state := { r.2 with reconnectAttempts := r.2.reconnectAttempts + 1 }
            trace := [Action.readFrame, Action.disconnect, Action.sleepMs 1000,
                      Action.reconnect true]
            continues := true }
        else
          { state := r.2
            trace := [Action.readFrame, Action.disconnect, Action.sleepMs 1000,
                      Action.reconnect false]
            continues := false }
      else { state := s, trace := [Action.readFrame], continues := false }

/-- One evaluation of the loop condition and body of `CameraSource::captureLoop`. -/
def VideoSource.cameraCaptureIter (s : VideoSource) (env : IterEnv) : IterResult :=
  if !s.isRunning then { state := s, trace := [], continues := false }
  else if s.isPaused then { state := s, trace := [Action.sleepMs 10], continues := true }
  else
    match env.read with
    | .packet streamIndex _ decode =>
      { state := s
        trace := [Action.readFrame] ++
          (if streamIndex = s.videoStreamIndex then (s.processPacket decode).2 else [])
        continues := true }
    | .failure _ =>
      { state := s, trace := [Action.readFrame, Action.sleepMs 100], continues := true }

/-- One iteration of the virtual `captureLoop`. -/
def VideoSource.captureIter (s : VideoSource) (env : IterEnv) : IterResult :=
  match s.kind with
  | .camera => s.cameraCaptureIter env
  | .rtsp => s.rtspCaptureIter env

/-- The worker running `captureLoop` against a finite sequence of environments,
one per iteration (the packet allocation before the loop is taken to succeed).
`continues = false` means that the loop was left and the thread function
returned; `continues = true` that the environments ran out while the loop was
still going. -/
def VideoSource.captureLoop : VideoSource → List IterEnv → IterResult
  | s, [] => { state := s, trace := [], continues := true }
  | s, env :: rest =>
    let r := s.captureIter env
    if r.continues then
      let t := VideoSource.captureLoop r.state rest
      { state := t.state, trace := r.trace ++ t.trace, continues := t.continues }
    else
      { state := { r.state with captureThread := .exited }, trace := r.trace, continues := false }

/-- The number of calls of `reconnect()` in a trace. -/
def reconnectCalls : List Action → Nat
  | [] => 0
  | Action.reconnect _ :: rest => reconnectCalls rest + 1
  | _ :: rest => reconnectCalls rest

/-- The number of invocations of the frame callback in a trace. -/
def callbackCalls : List Action → Nat
  | [] => 0
  | Action.frameCallback _ :: rest => callbackCalls rest + 1
  | _ :: rest => callbackCalls rest

/-- The number of `av_read_frame` calls in a trace. -/
def readCalls : List Action → Nat
  | [] => 0
  | Action.readFrame :: rest => readCalls rest + 1
  | _ :: rest => readCalls rest

/-- The constructor of `RTSPSource`; `framesReceived` is the value the
uninitialised `status_.framesReceived` happens to hold. -/
def VideoSource.newRTSP (rtspConfig : RTSPConfig) (framesReceived : Int) : VideoSource :=
  { kind := .rtsp, formatContext := none, codecContext := false, videoStreamIndex := -1,
    isRunning := false, isPaused := false, captureThread := .notStarted, frameQueue := [],
    frameCallback := false, cameraConfig := { useV4L2 := false }, cameraOptions := false,
    rtspConfig := rtspConfig,
    status := { connected := false, reconnectAttempts := 0, bytesReceived := 0,
                framesReceived := framesReceived },
    reconnectAttempts := 0 }

/-- The constructor of `CameraSource`. -/
def VideoSource.newCamera (cameraConfig : CameraConfig) : VideoSource :=
  { kind := .camera, formatContext := none, codecContext := false, videoStreamIndex := -1,
    isRunning := false, isPaused := false, captureThread := .notStarted, frameQueue := [],
    frameCallback := false, cameraConfig := cameraConfig, cameraOptions := false,
    rtspConfig := { reconnectOnError := false, maxReconnectAttempts := 0 },
    status := { connected := false, reconnectAttempts := 0, bytesReceived := 0,
                framesReceived := 0 },
    reconnectAttempts := 0 }

/-- An engine is idle: not running, not paused, no joinable worker. -/
def VideoSource.Idle (s : VideoSource) : Prop :=
  s.isRunning = false ∧ s.isPaused = false ∧ s.captureThread.joinable = false

/-- The connection of an engine is released: no opened input, no decoder, no
tracked stream, `connected` false. -/
def VideoSource.Released (s : VideoSource) : Prop :=
  s.formatContext = none ∧ s.codecContext = false ∧ s.videoStreamIndex = -1 ∧
    s.status.connected = false

/-- An RTSP engine inside its capture loop: running, not paused, reconnect
enabled with budget `max`, `attempts` on the reconnect counter, tracking
stream `v`. -/
def VideoSource.RtspLooping (s : VideoSource) (max attempts : Int) (v : Nat) : Prop :=
  s.kind = .rtsp ∧ s.isRunning = true ∧ s.isPaused = false ∧
    s.rtspConfig.reconnectOnError = true ∧ s.rtspConfig.maxReconnectAttempts = max ∧
    s.reconnectAttempts = attempts ∧ s.videoStreamIndex = (v : Int)

/-! ## Seeking (`VideoSource::seek`, inherited unchanged by `RTSPSource`) -/

/-- A rational number of FFmpeg (`AVRational`). -/
structure AVRational where
  num : Int
  den : Int
deriving DecidableEq, Repr

/-- The constant `AV_TIME_BASE_Q` of FFmpeg: microseconds. -/
def AV_TIME_BASE_Q : AVRational := { num := 1, den := 1000000 }

/-- The largest `int64_t`. -/
def INT64_MAX : Int := 9223372036854775807

/-- The smallest `int64_t`. -/
def INT64_MIN : Int := -9223372036854775808

/-- FFmpeg's `av_rescale_rnd(a, b, c, AV_ROUND_NEAR_INF)` (`libavutil/mathematics.c`):
`a * b / c` rounded to the nearest integer, halves away from zero. It returns
`INT64_MIN` when `c <= 0` or `b < 0` and when the result does not fit an
`int64_t`; a negative `a` is handled through its magnitude. -/
def av_rescale_near (a b c : Int) : Int :=
  if c ≤ 0 ∨ b < 0 then INT64_MIN
  else
    let magnitude := if a < 0 then -(max a (-INT64_MAX)) else a
    let q := (magnitude * b + c / 2) / c
    if q > INT64_MAX then INT64_MIN
    else if a < 0 then -q else q

/-- FFmpeg's `av_rescale_q(a, bq, cq)`: `a` rescaled from units of `bq` to units
of `cq`, that is `av_rescale_rnd(a, bq.num * cq.den, cq.num * bq.den,
AV_ROUND_NEAR_INF)`. -/
def av_rescale_q (a : Int) (bq cq : AVRational) : Int :=
  av_rescale_near a (bq.num * cq.den) (cq.num * bq.den)

/-- The FFmpeg calls and the queue clear that `seek` can make; `seekFrame`
carries the stream index and the target passed to `av_seek_frame` (the flag is
always `AVSEEK_FLAG_BACKWARD`). -/
inductive SeekAction where
  | seekFrame (streamIndex : Int) (target : Int)
  | flushBuffers
  | clearFrameQueue
deriving DecidableEq, Repr

/-- The outcome of a `seek` call: the returned flag, the new state and the
actions performed. -/
structure SeekResult where
  result : Bool
  state : VideoSource
  trace : List SeekAction
deriving DecidableEq, Repr

/-- The function `VideoSource::seek`; `timeBase` is the value of
`formatContext_->streams[videoStreamIndex_]->time_base`, which the demuxer sets,
and `seekOk` is the outcome of `av_seek_frame`. `RTSPSource` and `CameraSource`
do not override it. -/
def VideoSource.seek (s : VideoSource) (timestamp : Int) (timeBase : AVRational)
    (seekOk : Bool) : SeekResult :=
  if s.formatContext.isNone || decide (s.videoStreamIndex < 0) then
    { result := false, state := s, trace := [] }
  else
    let seekTarget := av_rescale_q timestamp AV_TIME_BASE_Q timeBase
    if !seekOk then
      { result := false, state := s
        trace := [SeekAction.seekFrame s.videoStreamIndex seekTarget] }
    else
      { result := true
        state := s.clearFrameQueue
        trace := [SeekAction.seekFrame s.videoStreamIndex seekTarget] ++
          (if s.codecContext then [SeekAction.flushBuffers] else []) ++
          [SeekAction.clearFrameQueue] }

/-! ## FrameData (`frame_data.cpp`, `frame_data.hpp`) -/

/-- The value of `AV_PIX_FMT_RGB24` in FFmpeg's `pixfmt.h`. -/
def AV_PIX_FMT_RGB24 : AVPixelFormat := 2

/-- The value of `AV_PIX_FMT_YUV444P` in FFmpeg's `pixfmt.h`. -/
def AV_PIX_FMT_YUV444P : AVPixelFormat := 5

/-- The value of `AV_PIX_FMT_NV12` in FFmpeg's `pixfmt.h`. -/
def AV_PIX_FMT_NV12 : AVPixelFormat := 23

/-- The largest C++ `int`. -/
def INT_MAX : Int := 2147483647

/-- The value of `AVERROR(EINVAL)`. -/
def AVERROR_EINVAL : Int := -22

/-- The result of 32-bit `int` arithmetic: the mathematical value reduced to
two's complement. -/
def wrapInt32 (v : Int) : Int := (v + 2147483648) % 4294967296 - 2147483648

/-- The rounded-up halving `AV_CEIL_RSHIFT(v, 1)` that FFmpeg applies to the
size of a 2x subsampled chroma plane. -/
def ceilHalf (v : Int) : Int := (v + 1) / 2

/-- FFmpeg's `av_image_check_size(w, h, 0, NULL)` (libavutil/imgutils.c, not part
of the repository): both sizes positive and `(8 w + 1024) (h + 128)` below
`INT_MAX`. -/
def av_image_check_size (w h : Int) : Bool :=
  decide (0 < w) && decide (0 < h) && decide (8 * w + 1024 < INT_MAX)
    && decide ((8 * w + 1024) * (h + 128) < INT_MAX)

/-- The byte sizes of the planes of a tightly packed image (alignment 1) in
FFmpeg's layout, for the three planar formats that `frame_data.cpp` names and for
packed RGB24; `none` for a format outside this table. -/
def imagePlaneSizes (format : AVPixelFormat) (w h : Int) : Option (List Int) :=
  if format = AV_PIX_FMT_YUV420P then
    some [w * h, ceilHalf w * ceilHalf h, ceilHalf w * ceilHalf h]
  else if format = AV_PIX_FMT_NV12 then some [w * h, 2 * ceilHalf w * ceilHalf h]
  else if format = AV_PIX_FMT_YUV444P then some [w * h, w * h, w * h]
  else if format = AV_PIX_FMT_RGB24 then some [3 * w * h]
  else none

/-- FFmpeg's `av_image_get_buffer_size(format, w, h, 1)` (libavutil/imgutils.c,
not part of the repository) on the formats of `imagePlaneSizes`: the sum of the
plane sizes, or `AVERROR(EINVAL)` when the size check fails; `none` for a format
outside the table. -/
def av_image_get_buffer_size (format : AVPixelFormat) (w h : Int) : Option Int :=
  match imagePlaneSizes format w h with
  | none => none
  | some sizes => if av_image_check_size w h then some sizes.sum else some AVERROR_EINVAL

/-- The function `FrameData::calculatePlaneOffsets`. -/
def FrameData.calculatePlaneOffsets (f : FrameData) : FrameData :=
  let o0 := f.planeOffsets.set 0 0
  if f.format = AV_PIX_FMT_NV12 then
    { f with planeOffsets := o0.set 1 (wrapInt32 (f.width * f.height)) }
  else if f.format = AV_PIX_FMT_YUV420P then
    let o1 := wrapInt32 (f.width * f.height)
    { f with planeOffsets :=
        (o0.set 1 o1).set 2 (wrapInt32 (o1 + Int.tdiv (wrapInt32 (f.width * f.height)) 4)) }
  else { f with planeOffsets := o0 }

/-- The constructor `FrameData(width, height, format)`; `bufferSize` is the value
that `av_image_get_buffer_size(format, width, height, 1)` returns and `allocOk`
tells whether the allocation succeeds. `none` stands for the exception that
`new uint8_t[dataSize_]` throws on a negative size or on exhaustion. The bytes of
the fresh buffer (indeterminate in the source) are zeros. -/
def FrameData.new (width height : Int) (format : AVPixelFormat) (bufferSize : Int)
    (allocOk : Bool) : Option FrameData :=
  if bufferSize < 0 || !allocOk then none
  else
    some (FrameData.calculatePlaneOffsets
      { data := some (List.replicate bufferSize.toNat 0), width := width, height := height,
        format := format, timestamp := 0, dataSize := bufferSize,
        planeOffsets := [-1, -1, -1, -1] })

/-- The accessor `getPlanOffset(plane)`, with `MAX_PLANES = 4`. -/
def FrameData.getPlanOffset (f : FrameData) (plane : Int) : Int :=
  if 0 ≤ plane ∧ plane < 4 ∧ 0 ≤ f.planeOffsets.getD plane.toNat 0 then
    f.planeOffsets.getD plane.toNat 0
  else 0

/-- The function `FrameData::calculateTotalSize`. -/
def FrameData.calculateTotalSize (f : FrameData) : Int :=
  if f.format = AV_PIX_FMT_NV12 ∨ f.format = AV_PIX_FMT_YUV420P then
    Int.tdiv (wrapInt32 (wrapInt32 (f.width * f.height) * 3)) 2
  else if f.format = AV_PIX_FMT_YUV444P then wrapInt32 (wrapInt32 (f.width * f.height) * 3)
  else wrapInt32 (wrapInt32 (f.width * f.height) * 4)

/-- The move constructor `FrameData(FrameData&& other)`: the new object and
`other` afterwards. `planeOffsets_` is not in the initialiser list, so the new
object gets the default member initialiser. -/
def FrameData.moveConstruct (other : FrameData) : FrameData × FrameData :=
  ({ data := other.data, width := other.width, height := other.height, format := other.format,
     timestamp := other.timestamp, dataSize := other.dataSize,
     planeOffsets := [-1, -1, -1, -1] },
   { other with data := none, dataSize := 0 })

/-- The move assignment `operator=(FrameData&& other)` between two distinct
objects: the assigned object and `other` afterwards. `planeOffsets_` is not
assigned. -/
def FrameData.moveAssign (this other : FrameData) : FrameData × FrameData :=
  ({ this with data := other.data, width := other.width, height := other.height,
               format := other.format, timestamp := other.timestamp,
               dataSize := other.dataSize },
   { other with data := none, dataSize := 0 })

/-- The byte ranges of the planes, `sizes[p]` bytes from `getPlanOffset(p)`, lie
inside the buffer. -/
def FrameData.PlanesInBounds (f : FrameData) (sizes : List Int) : Prop :=
  ∀ p : Nat, p < sizes.length →
    0 ≤ f.getPlanOffset p ∧ f.getPlanOffset p + sizes.getD p 0 ≤ f.dataSize

/-- The byte ranges of two distinct planes do not overlap. -/
def FrameData.PlanesDisjoint (f : FrameData) (sizes : List Int) : Prop :=
  ∀ p : Nat, p < sizes.length → ∀ q : Nat, q < sizes.length → p ≠ q →
    f.getPlanOffset p + sizes.getD p 0 ≤ f.getPlanOffset q ∨
    f.getPlanOffset q + sizes.getD q 0 ≤ f.getPlanOffset p

/-! ## HardwareManager (`hardware_manager.cpp`, `hardware_manager.hpp`) -/

/-- The enum `DeviceType` of `common.hpp`. -/
inductive DeviceType where
  | NVIDIA_CUDA
  | INTEL_QSV
  | AMD_AMF
  | AUTO
deriving DecidableEq, Repr

/-- The values of FFmpeg's `AVHWDeviceType` that the program mentions. -/
inductive AVHWDeviceType where
  | NONE
  | CUDA
  | QSV
  | DRM
deriving DecidableEq, Repr

/-- The struct `HWDeviceMapping`. -/
structure HWDeviceMapping where
  type : DeviceType
  ffmpegType : AVHWDeviceType
  name : String
  description : String
deriving DecidableEq, Repr

/-- The table `deviceMappings`. -/
def deviceMappings : List HWDeviceMapping :=
  [ { type := .NVIDIA_CUDA, ffmpegType := .CUDA, name := "NVIDIA CUDA",
      description := "NVIDIA GPU using CUDA" },
    { type := .INTEL_QSV, ffmpegType := .QSV, name := "Intel QuickSync",
      description := "Intel GPU using QuickSync" },
    { type := .AMD_AMF, ffmpegType := .DRM, name := "AMD AMF",
      description := "AMD GPU using AMF" } ]

/-- The machine the program runs on: the backends for which
`av_hwdevice_ctx_create` succeeds. -/
structure HwEnv where
  usable : List AVHWDeviceType
deriving DecidableEq, Repr

/-- The outcome of `av_hwdevice_ctx_create` for one backend. -/
def HwEnv.creates (env : HwEnv) (d : AVHWDeviceType) : Bool := decide (d ∈ env.usable)

/-- The members of `HardwareManager`: the device context (`none` for a null
`hwContext_`, otherwise the backend it was created for) and `hwType_`. -/
structure HardwareManager where
  hwContext : Option AVHWDeviceType
  hwType : AVHWDeviceType
deriving DecidableEq, Repr

/-- The function `convertDeviceType`. -/
def convertDeviceType (type : DeviceType) : AVHWDeviceType :=
  match deviceMappings.find? (fun m => decide (m.type = type)) with
  | some m => m.ffmpegType
  | none => .NONE

/-- The function `convertFFmpegType`. -/
def convertFFmpegType (type : AVHWDeviceType) : DeviceType :=
  match deviceMappings.find? (fun m => decide (m.ffmpegType = type)) with
  | some m => m.type
  | none => .AUTO

/-- The list `devices` that `initializeDevice` builds. -/
def probeList (type : DeviceType) : List AVHWDeviceType :=
  if type = .AUTO then deviceMappings.map (fun m => m.ffmpegType) else [convertDeviceType type]

/-- The result of `initializeDevice`: the returned flag, the manager and the
backends on which `av_hwdevice_ctx_create` was called, in call order. -/
structure ProbeResult where
  ok : Bool
  manager : HardwareManager
  attempted : List AVHWDeviceType
deriving DecidableEq, Repr

/-- The loop `for (auto deviceType : devices)` of `initializeDevice`; a failed
`av_hwdevice_ctx_create` leaves `hwContext_` null. -/
def HardwareManager.tryDevices (env : HwEnv) (m : HardwareManager) :
    List AVHWDeviceType → ProbeResult
  | [] => { ok := false, manager := m, attempted := [] }
  | d :: rest =>
    if env.creates d then
      { ok := true, manager := { hwContext := some d, hwType := d }, attempted := [d] }
    else
      let r := HardwareManager.tryDevices env { m with hwContext := none } rest
      { ok := r.ok, manager := r.manager, attempted := d :: r.attempted }

/-- The function `initializeDevice`. -/
def HardwareManager.initializeDevice (env : HwEnv) (m : HardwareManager) (type : DeviceType) :
    ProbeResult :=
  HardwareManager.tryDevices env m (probeList type)

/-- The constructor `HardwareManager(type)`: the constructed manager, or the
message of the `Exception` it throws. -/
def HardwareManager.new (env : HwEnv) (type : DeviceType) : Except String HardwareManager :=
  let r := HardwareManager.initializeDevice env { hwContext := none, hwType := .NONE } type
  if !r.ok then .error "Failed to initialize hardware device" else .ok r.manager

/-- The accessor `isHardwareAvailable()`. -/
def HardwareManager.isHardwareAvailable (m : HardwareManager) : Bool := m.hwContext.isSome

/-- The move constructor of `HardwareManager`: the new manager and the
moved-from one. -/
def HardwareManager.moveConstruct (other : HardwareManager) : HardwareManager × HardwareManager :=
  ({ hwContext := other.hwContext, hwType := other.hwType },
   { hwContext := none, hwType := .NONE })

/-- The free function `hasHardwareSupport()` of `turbovision.cpp`. -/
def hasHardwareSupport (env : HwEnv) : Bool :=
  match HardwareManager.new env .AUTO with
  | .ok hw => hw.isHardwareAvailable
  | .error _ => false

/-- The free function `isHardwareAvailable(type)` of `turbovision.cpp`. -/
def isHardwareAvailable (env : HwEnv) (type : DeviceType) : Bool :=
  match HardwareManager.new env type with
  | .ok hw => hw.isHardwareAvailable
  | .error _ => false

/-- The struct `HardwareManager::DeviceInfo`. -/
structure DeviceInfo where
  name : String
  description : String
  type : DeviceType
  available : Bool
  supportedFormats : List AVPixelFormat
deriving DecidableEq, Repr

/-- The function `getDeviceInfo`. `DeviceInfo info;` leaves `type` and
`available` without an initial value: `uninitType` and `uninitAvailable` are
what those two members happen to hold. `swFormats` is the `valid_sw_formats`
list of the constraints FFmpeg reports (`none` when it reports none). -/
def HardwareManager.getDeviceInfo (m : HardwareManager) (uninitType : DeviceType)
    (uninitAvailable : Bool) (swFormats : Option (List AVPixelFormat)) : DeviceInfo :=
  match deviceMappings.find? (fun mp => decide (mp.ffmpegType = m.hwType)) with
  | some mp =>
    { name := mp.name, description := mp.description, type := mp.type, available := true,
      supportedFormats := swFormats.getD [] }
  | none =>
    { name := "", description := "", type := uninitType, available := uninitAvailable,
      supportedFormats := [] }

/-! ## The flow of frames through the server -/

/-- The two operations that move frames on a running server: a `pushFrame`
call and one iteration of the transmission loop. -/
inductive FlowOp where
  | push (i : PushInput)
  | loopIter (env : LoopEnv)
deriving DecidableEq, Repr

/-- A record of what happened to the frames: the frames enqueued by the
`pushFrame` calls that returned true, in call order; the frames the loop
dequeued for transmission (with their `pts`), in order; and every frame that
left the front of the queue, in order, marked true when it was dequeued for
transmission and false when `pushFrame` evicted it. -/
structure ServerLog where
  pushed : List AVFrame
  dequeued : List AVFrame
  removed : List (AVFrame × Bool)
deriving DecidableEq, Repr

/-- The empty record. -/
def ServerLog.empty : ServerLog := { pushed := [], dequeued := [], removed := [] }

/-- One operation on the server, recorded: the state comes from `pushFrame` or
`serverLoopIter`, the dequeued frame from `serverLoopIter`; the frames that
leave are read off the queue before the operation. -/
def RTSPServer.flowStep (s : RTSPServer) (log : ServerLog) : FlowOp → RTSPServer × ServerLog
  | .push i =>
    let r := s.pushFrame i.frameData i.size i.allocOk
    if r.1 then
      match PushInput.frame s.width s.height i with
      | some f =>
        (r.2, { log with
          pushed := log.pushed ++ [f]
          removed := log.removed ++
            ((s.frameQueue ++ [f]).take ((s.frameQueue ++ [f]).length - 30)).map
              (fun x => (x, false)) })
      | none => (r.2, log)
    else (r.2, log)
  | .loopIter env =>
    let r := s.serverLoopIter env
    match r.2 with
    | some stamped =>
      (r.1, { log with
        dequeued := log.dequeued ++ [stamped]
        removed := log.removed ++ (s.frameQueue.take 1).map (fun x => (x, true)) })
    | none => (r.1, log)

/-- A sequence of operations on the server, recorded. -/
def RTSPServer.flow : RTSPServer → ServerLog → List FlowOp → RTSPServer × ServerLog
  | s, log, [] => (s, log)
  | s, log, op :: rest =>
    let r := s.flowStep log op
    RTSPServer.flow r.1 r.2 rest

/-- A frame with its timestamp put back to `AV_NOPTS_VALUE`. -/
def AVFrame.clearPts (f : AVFrame) : AVFrame := { f with pts := AV_NOPTS_VALUE }

/-- The frames of a record that were dequeued for transmission. -/
def ServerLog.transmitted (log : ServerLog) : List AVFrame :=
  (log.removed.filter (fun x => x.2)).map Prod.fst

/-- The frames of a record that `pushFrame` evicted. -/
def ServerLog.evicted (log : ServerLog) : List AVFrame :=
  (log.removed.filter (fun x => !x.2)).map Prod.fst

/-- The three accumulating counters of `b` are at least those of `a`. -/
def ServerStats.CountersLe (a b : ServerStats) : Prop :=
  a.framesTransferred ≤ b.framesTransferred ∧ a.bytesTransferred ≤ b.bytesTransferred ∧
    a.droppedFrames ≤ b.droppedFrames

/-! ## Delivery of decoded frames (`VideoSource::processFrame`) -/

/-- The `FrameData` that `processFrame` builds for a decoded frame and hands to
the callback: constructed from the frame's width, height and format, then
stamped with `setTimestamp(frame->pts)`. `bufferSize` is the value
`av_image_get_buffer_size` returns; the plane bytes that `memcpy` writes into
the buffer are not modelled. `Action.frameCallback frame` stands for the
invocation of the callback with this object. -/
def VideoSource.frameDataFor (frame : AVFrame) (bufferSize : Int) : Option FrameData :=
  (FrameData.new frame.width frame.height frame.format bufferSize true).map
    (fun d => { d with timestamp := frame.pts })

/-! ## Library initialisation (`turbovision.cpp`) -/

/-- The process-wide state of `turbovision.cpp`: whether `initFlag` has fired,
the flag `isInitialized`, whether FFmpeg's network layer is up, and how many
times `doInitialize` has run. -/
structure LibraryState where
  initFlag : Bool
  isInitialized : Bool
  networkUp : Bool
  initRuns : Nat
deriving DecidableEq, Repr

/-- The state at program start. -/
def LibraryState.fresh : LibraryState :=
  { initFlag := false, isInitialized := false, networkUp := false, initRuns := 0 }

/-- The function `doInitialize`. -/
def LibraryState.doInitialize (l : LibraryState) : LibraryState :=
  { l with isInitialized := true, networkUp := true, initRuns := l.initRuns + 1 }

/-- The function `initialize()`: `std::call_once(initFlag, doInitialize)`, then
return `isInitialized`. -/
def LibraryState.initializeCall (l : LibraryState) : Bool × LibraryState :=
  let l1 := if l.initFlag then l else { l.doInitialize with initFlag := true }
  (l1.isInitialized, l1)

/-- The function `shutdown()`. -/
def LibraryState.shutdown (l : LibraryState) : LibraryState :=
  if l.isInitialized then { l with networkUp := false, isInitialized := false } else l

/-- A call of one of the two functions. -/
inductive LibraryCall where
  | initializeCall
  | shutdown
deriving DecidableEq, Repr

/-- The state after a call. -/
def LibraryState.call (l : LibraryState) : LibraryCall → LibraryState
  | .initializeCall => l.initializeCall.2
  | .shutdown => l.shutdown

/-- The state after a sequence of calls. -/
def LibraryState.calls (l : LibraryState) (cs : List LibraryCall) : LibraryState :=
  cs.foldl LibraryState.call l

/-! ## stop() against the capture thread (`VideoSource::stop`, `captureLoop`, `processFrame`) -/

/-- The first two statements of `VideoSource::stop`: `isRunning_ = false;
isPaused_ = false;`. -/
def VideoSource.clearRunFlags (s : VideoSource) : VideoSource :=
  { s with isRunning := false, isPaused := false }

/-- Where the capture thread is inside `captureLoop`: at the test
`while (isRunning_)`, or inside the loop body, with the actions of the current
iteration that it has still to perform and whether the loop goes on after them.
A pending list that starts with `Action.frameCallback f` means that the callback
invocation for `f` (made by `processFrame`) is executing. Whether the thread
function has returned is the `captureThread` member of the engine. -/
inductive WorkerPc where
  | loopHead
  | inIteration (pending : List Action) (continues : Bool)
deriving DecidableEq, Repr

/-- Where a `stop()` call made by another thread is: not entered, past the two
flag assignments (at `captureThread_.join()`), or returned. -/
inductive StopPc where
  | notCalled
  | flagsCleared
  | done
deriving DecidableEq, Repr

/-- The two threads around one `stop()` call: the engine they share, the
position of the capture thread, the actions the capture thread has completed,
and the position of the `stop()` call. Memory is sequentially consistent. -/
structure StopSystem where
  source : VideoSource
  worker : WorkerPc
  performed : List Action
  stop : StopPc
deriving DecidableEq, Repr

/-- A scheduling step: the capture thread advances (`env` is what its next
iteration meets, consulted only at the loop test), or the thread inside `stop()`
advances. -/
inductive StopEvent where
  | workerStep (env : IterEnv)
  | stopStep
deriving DecidableEq, Repr

/-- The capture thread goes on with the rest of its iteration: to the next
pending action, or, when none is left, back to the loop test or, after a
`break`, out of `captureLoop` (the thread function returns). -/
def StopSystem.advance (s : StopSystem) (pending : List Action) (continues : Bool) :
    StopSystem :=
  match pending with
  | a :: rest => { s with worker := .inIteration (a :: rest) continues }
  | [] =>
    if continues then { s with worker := .loopHead }
    else { s with worker := .loopHead, source := { s.source with captureThread := .exited } }

/-- One scheduling step. At the loop test the capture thread evaluates
`captureIter` on the engine as it is then: the state changes of the iteration
take effect and its actions become pending; inside an iteration it completes the
first pending action. It moves only while its thread function has not returned.
`stop()` first clears the two flags; then `join()` lets it pass only when the
thread is not running its loop any more, and the rest of `stop()` follows (the
whole of `VideoSource.stop` applied to the engine, whose flags are already
cleared). A thread that cannot advance stays where it is. -/
def StopSystem.step (s : StopSystem) : StopEvent → StopSystem
  | .workerStep env =>
    if s.source.captureThread = .looping then
      match s.worker with
      | .loopHead =>
        let r := s.source.captureIter env
        ({ s with source := r.state }).advance r.trace r.continues
      | .inIteration [] continues => s.advance [] continues
      | .inIteration (a :: rest) continues =>
        ({ s with performed := s.performed ++ [a] }).advance rest continues
    else s
  | .stopStep =>
    match s.stop with
    | .notCalled => { s with source := s.source.clearRunFlags, stop := .flagsCleared }
    | .flagsCleared =>
      if s.source.captureThread = .looping then s
      else { s with source := s.source.stop, stop := .done }
    | .done => s

/-- The system after a schedule. -/
def StopSystem.run (s : StopSystem) (events : List StopEvent) : StopSystem :=
  events.foldl StopSystem.step s

/-- The system right after a successful `start()`: the capture thread is at its
first loop test, nothing has been performed, `stop()` has not been entered. -/
def StopSystem.started (source : VideoSource) : StopSystem :=
  { source := source, worker := .loopHead, performed := [], stop := .notCalled }

/-- What holds at every moment after `stop()` was entered in state `m` while the
capture thread had the actions `todo` of its iteration pending: the thread is
still inside that iteration, or back at the loop test, or it has returned, or
`stop()` has returned; `performed` grows by `todo` and by nothing else. -/
def StopSystem.Stopping (m : StopSystem) (todo : List Action) (continues : Bool)
    (x : StopSystem) : Prop :=
  (x.stop = .flagsCleared ∧ x.source = m.source.clearRunFlags ∧
    ∃ pre post, todo = pre ++ post ∧ post ≠ [] ∧ x.worker = .inIteration post continues ∧
      x.performed = m.performed ++ pre) ∨
  (x.stop = .flagsCleared ∧ x.source = m.source.clearRunFlags ∧ x.worker = .loopHead ∧
    x.performed = m.performed ++ todo) ∨
  (x.stop = .flagsCleared ∧
    x.source = { m.source.clearRunFlags with captureThread := .exited } ∧
    x.worker = .loopHead ∧ x.performed = m.performed ++ todo) ∨
  (x.stop = .done ∧ x.source = VideoSource.stop { m.source with captureThread := .exited } ∧
    x.worker = .loopHead ∧ x.performed = m.performed ++ todo)

/-! ## SourceFactory (`source_factory.cpp`, non-Windows build) -/

/-- The call `std::string::find(sub)`: the first position at which `sub` occurs,
`none` for `npos`. -/
def stringFind (sub : List Char) : List Char → Option Nat
  | [] => if sub.isEmpty then some 0 else none
  | c :: rest =>
    if sub.isPrefixOf (c :: rest) then some 0 else (stringFind sub rest).map (fun i => i + 1)

/-- The test `std::regex_match(path, std::regex("^[0-9]+$"))`: one or more
decimal digits and nothing else. -/
def matchesDigits (path : List Char) : Bool := !path.isEmpty && path.all Char.isDigit

/-- The function `SourceFactory::isCameraPath`. -/
def isCameraPath (path : String) : Bool :=
  (stringFind "/dev/video".data path.data).isSome || matchesDigits path.data

/-- The function `SourceFactory::isRTSPUrl`. -/
def isRTSPUrl (path : String) : Bool :=
  decide (stringFind "rtsp://".data path.data = some 0)

/-! ## Input reads and timing of the server -/

/-- The indices of the input bytes that `convertFrame` reads for a frame of the
given size: three bytes per pixel in the luma loops, then three bytes for each
of the four pixels of every 2x2 block in the chroma loops. -/
def convertFrameReads (width height : Int) : List Int :=
  let in_linesize := width * 3
  ((List.range height.toNat).flatMap fun y =>
    (List.range width.toNat).flatMap fun x =>
      [(y : Int) * in_linesize + (x : Int) * 3,
       (y : Int) * in_linesize + (x : Int) * 3 + 1,
       (y : Int) * in_linesize + (x : Int) * 3 + 2]) ++
  ((List.range (height.toNat / 2)).flatMap fun y =>
    (List.range (width.toNat / 2)).flatMap fun x =>
      (List.range 2).flatMap fun dy =>
        (List.range 2).flatMap fun dx =>
          [((y * 2 + dy : Nat) : Int) * in_linesize + ((x * 2 + dx : Nat) : Int) * 3,
           ((y * 2 + dy : Nat) : Int) * in_linesize + ((x * 2 + dx : Nat) : Int) * 3 + 1,
           ((y * 2 + dy : Nat) : Int) * in_linesize + ((x * 2 + dx : Nat) : Int) * 3 + 2])

/-- The call of `updateStats` that the transmission loop makes `elapsed` whole
seconds after a start that happened at clock reading `startClock` (seconds since
the epoch of `steady_clock`): the clock then reads `startClock + elapsed`. -/
def RTSPServer.updateStatsAfter (s : RTSPServer) (startClock elapsed : Int) : RTSPServer :=
  s.updateStats (startClock + elapsed)

/-- The bytes that the packet loop of `encodeAndTransmit` writes: the sizes of
the packets whose write succeeds. -/
def writtenSizes (packets : List (Int × Bool)) : List Int :=
  (packets.filter (fun p => p.2)).map Prod.fst

/-! ## Concrete inputs -/

/-- A running 2x2 server with an empty queue. -/
def exServer : RTSPServer :=
  { RTSPServer.new 2 2 with isRunning := true, serverThread := true }

/-- Thirty-five distinct 2x2 BGR24 buffers, all accepted. -/
def exPushes : List PushInput :=
  (List.range 35).map fun n =>
    { frameData := some (List.replicate 12 (7 * n)), size := 12, allocOk := true }

/-- A successful `start` followed by thirty accepted pushes: the operations that
fill the queue of a fresh server. -/
def exFillOps : List ServerOp :=
  ServerOp.start true ::
    (List.range 30).map fun n => ServerOp.pushFrame (some (List.replicate 12 (7 * n))) 12 true

/-- One more 2x2 BGR24 buffer, accepted. -/
def exPushInput : PushInput :=
  { frameData := some (List.replicate 12 9), size := 12, allocOk := true }

/-- The frame that `exPushInput` is converted to. -/
def exPushedFrame : AVFrame := (PushInput.frame 2 2 exPushInput).get rfl

/-- An input with an audio stream 0 and a video stream 1 that opens and decodes. -/
def exOpenOk : OpenEnv :=
  { allocOk := true, inputFormatFound := true, openOk := true, streamInfoOk := true,
    streams := [false, true], decoderOk := true }

/-- An input that cannot be opened. -/
def exOpenFail : OpenEnv := { exOpenOk with openOk := false }

/-- An RTSP source with `reconnectOnError = true`, `maxReconnectAttempts = 3`
and a registered callback, before `start`. -/
def exRtsp : VideoSource :=
  (VideoSource.newRTSP { reconnectOnError := true, maxReconnectAttempts := 3 } 0).setFrameCallback
    true

/-- The same source after a successful `start`. -/
def exRtspRunning : VideoSource := (exRtsp.start exOpenOk).2

/-- An RTSP source with `reconnectOnError = false` after a successful `start`. -/
def exRtspNoReconnect : VideoSource :=
  ((VideoSource.newRTSP { reconnectOnError := false, maxReconnectAttempts := 3 } 0).start
    exOpenOk).2

/-- A camera source whose device opens (V4L2). -/
def exCamera : VideoSource := VideoSource.newCamera { useV4L2 := true }

/-- A decoded 2x2 host-memory frame with timestamp 40. -/
def exFrame : AVFrame :=
  { width := 2, height := 2, format := AV_PIX_FMT_YUV420P, pts := 40, hw_frames_ctx := false,
    data := [[1, 2, 3, 4], [5], [6]] }

/-- A decoder that accepts the packet and yields `exFrame`, then needs more input. -/
def exDecode : DecodeEnv :=
  { sendOk := true, frames := [{ frame := exFrame, transferOk := true, frameDataOk := true }],
    final := .eagain }

/-- A read that fails and whose reconnect fails. -/
def exReadFailNoReconnect : IterEnv := { read := .failure exOpenFail, statusDue := false }

/-- A read that fails and whose reconnect succeeds. -/
def exReadFailReconnect : IterEnv := { read := .failure exOpenOk, statusDue := false }

/-- A successful read of a packet of the video stream (index 1). -/
def exReadVideo : IterEnv := { read := .packet 1 1000 exDecode, statusDue := false }

/-- A 2x2 YUV420P frame buffer (6 bytes). -/
def exYuv420 : FrameData := (FrameData.new 2 2 AV_PIX_FMT_YUV420P 6 true).get rfl

/-- A 3x3 YUV420P frame buffer (17 bytes in FFmpeg's layout). -/
def exYuv420Odd : FrameData := (FrameData.new 3 3 AV_PIX_FMT_YUV420P 17 true).get rfl

/-- A 2x2 YUV444P frame buffer (12 bytes). -/
def exYuv444 : FrameData := (FrameData.new 2 2 AV_PIX_FMT_YUV444P 12 true).get rfl

/-- A 4x4 NV12 frame buffer (24 bytes). -/
def exNv12 : FrameData := (FrameData.new 4 4 AV_PIX_FMT_NV12 24 true).get rfl

/-- A machine without any usable hardware backend. -/
def exNoHardware : HwEnv := { usable := [] }

/-- A machine on which QSV and DRM can be created, CUDA cannot. -/
def exQsvDrm : HwEnv := { usable := [.DRM, .QSV] }

/-- A manager holding a CUDA context. -/
def exCudaManager : HardwareManager := { hwContext := some .CUDA, hwType := .CUDA }

/-- An encoder that accepts the frame and yields two packets, the second of
which cannot be written. -/
def exEncode : EncodeEnv := { sendOk := true, packets := [(1200, true), (300, false)] }

/-- An encoder that rejects the frame. -/
def exEncodeFail : EncodeEnv := { sendOk := false, packets := [] }

/-- The started 2x2 server: `exServer`'s construction followed by a
successful `start`. -/
def exStarted : RTSPServer := ((RTSPServer.new 2 2).start true).2

/-- Thirty-two accepted pushes with a loop iteration after the first and after
the last, the first with a failing encoder. -/
def exFlow : List FlowOp :=
  [FlowOp.push { frameData := some (List.replicate 12 200), size := 12, allocOk := true },
   FlowOp.loopIter { encode := exEncodeFail, statsDue := none }] ++
  ((List.range 32).map fun n =>
    FlowOp.push { frameData := some (List.replicate 12 (7 * n)), size := 12, allocOk := true }) ++
  [FlowOp.loopIter { encode := exEncode, statsDue := some 5 }]

/-- A decoder that accepts the packet and yields two host-memory frames (with
timestamps 40 and 41), then needs more input. -/
def exDecodeTwo : DecodeEnv :=
  { sendOk := true
    frames := [{ frame := exFrame, transferOk := true, frameDataOk := true },
               { frame := { exFrame with pts := 41 }, transferOk := true, frameDataOk := true }]
    final := .eagain }

/-- A decoder that accepts the packet and needs more input at once. -/
def exDecodeAgain : DecodeEnv := { sendOk := true, frames := [], final := .eagain }

/-- The two threads at the moment a callback is executing: the started RTSP
source has read a packet of the video stream, completed the read, and is inside
the callback for `exFrame`. -/
def exInCallback : StopSystem :=
  (StopSystem.started exRtspRunning).run [.workerStep exReadVideo, .workerStep exReadVideo]

/-- What happens after `stop()` was entered: it tries to join and has to wait,
the capture thread completes the callback and goes back to the loop test,
`stop()` still waits, the capture thread leaves the loop, `stop()` joins, clears
the queue, cleans up and returns. -/
def exStopSchedule : List StopEvent :=
  [.stopStep, .workerStep exReadVideo, .stopStep, .workerStep exReadVideo, .stopStep]

/-- An encoder that accepts the frame and buffers it: no packet comes out. -/
def exEncodeBuffered : EncodeEnv := { sendOk := true, packets := [] }

/-- An encoder whose first packet cannot be written and whose second and third
can. -/
def exEncodeWriteFail : EncodeEnv :=
  { sendOk := true, packets := [(500, false), (700, true), (900, true)] }

/-- A blank 2x2 frame as `createVideoFrame` returns it. -/
def exBlankFrame : AVFrame :=
  { width := 2, height := 2, format := AV_PIX_FMT_YUV420P, pts := AV_NOPTS_VALUE,
    hw_frames_ctx := false, data := [[], [], []] }

end TurboVision

/-! ## Theorems: the frame queue of the server -/

namespace TurboVision

/-- The trimming loop drops exactly the entries in excess of 30, oldest first. -/
theorem trimQueue_spec (q : List AVFrame) (d : Int) :
    trimQueue q d = (q.drop (q.length - 30), d + ((q.length - 30 : Nat) : Int)) := by
  induction q generalizing d with
  | nil => simp [trimQueue]
  | cons f rest ih =>
    unfold trimQueue
    by_cases h : (f :: rest).length > 30
    · rw [if_pos h, ih]
      simp only [List.length_cons] at h ⊢
      have e : rest.length + 1 - 30 = (rest.length - 30) + 1 := by omega
      rw [e, List.drop_succ_cons]
      congr 1
      push_cast
      ring
    · rw [if_neg h]
      simp only [List.length_cons] at h ⊢
      have e : rest.length + 1 - 30 = 0 := by omega
      rw [e]
      simp

/-- A call of `pushFrame` that returns true ran on a running server, enqueued the
converted frame and trimmed the queue; nothing else changed. -/
theorem pushFrame_true (s : RTSPServer) (i : PushInput)
    (h : (s.pushFrame i.frameData i.size i.allocOk).1 = true) :
    ∃ f, PushInput.frame s.width s.height i = some f ∧ s.isRunning = true ∧
      (s.pushFrame i.frameData i.size i.allocOk).2 =
        { s with
          frameQueue := (s.frameQueue ++ [f]).drop ((s.frameQueue ++ [f]).length - 30)
          stats := { s.stats with
            droppedFrames :=
              s.stats.droppedFrames + (((s.frameQueue ++ [f]).length - 30 : Nat) : Int) } } := by
  unfold RTSPServer.pushFrame at h ⊢
  unfold PushInput.frame
  by_cases hg : (!s.isRunning || i.frameData.isNone) = true
  · rw [if_pos hg] at h
    simp at h
  · rw [if_neg hg] at h ⊢
    have hrun : s.isRunning = true := by
      cases hr : s.isRunning <;> simp [hr] at hg ⊢
    cases hc : createVideoFrame i.allocOk s.width s.height AV_PIX_FMT_YUV420P with
    | none => simp [hc] at h
    | some frame =>
      cases hv : convertFrame i.frameData i.size frame with
      | none => simp [hc, hv] at h
      | some converted =>
        refine ⟨converted, ?_, hrun, ?_⟩
        · simp [hv]
        · simp only [hv, trimQueue_spec]

/-- A call of `pushFrame` that returns false leaves the server as it was. -/
theorem pushFrame_false (s : RTSPServer) (frameData : Option (List Nat)) (size : Int)
    (allocOk : Bool) (h : (s.pushFrame frameData size allocOk).1 = false) :
    (s.pushFrame frameData size allocOk).2 = s := by
  unfold RTSPServer.pushFrame at h ⊢
  by_cases hg : (!s.isRunning || frameData.isNone) = true
  · rw [if_pos hg]
  · rw [if_neg hg] at h ⊢
    cases hc : createVideoFrame allocOk s.width s.height AV_PIX_FMT_YUV420P with
    | none => rfl
    | some frame =>
      cases hv : convertFrame frameData size frame with
      | none => simp [hv]
      | some converted => simp [hc, hv] at h

/-- A sequence of `pushFrame` calls that all return true appends the converted
frames in call order and keeps the newest 30 entries, counting every entry it
drops. -/
theorem pushFrames_spec (inputs : List PushInput) :
    ∀ s : RTSPServer, s.frameQueue.length ≤ 30 → (s.pushFrames inputs).1 = true →
      ∃ fs : List AVFrame,
        inputs.map (PushInput.frame s.width s.height) = fs.map some ∧
        (s.pushFrames inputs).2.frameQueue =
          (s.frameQueue ++ fs).drop (s.frameQueue.length + fs.length - 30) ∧
        (s.pushFrames inputs).2.stats.droppedFrames =
          s.stats.droppedFrames + ((s.frameQueue.length + fs.length - 30 : Nat) : Int) := by
  induction inputs with
  | nil =>
    intro s hb _
    refine ⟨[], rfl, ?_, ?_⟩
    · have e : s.frameQueue.length + ([] : List AVFrame).length - 30 = 0 := by
        simp only [List.length_nil]; omega
      rw [e]
      simp [RTSPServer.pushFrames]
    · have e : s.frameQueue.length + ([] : List AVFrame).length - 30 = 0 := by
        simp only [List.length_nil]; omega
      rw [e]
      simp [RTSPServer.pushFrames]
  | cons i rest ih =>
    intro s hb h
    simp only [RTSPServer.pushFrames, Bool.and_eq_true] at h ⊢
    obtain ⟨f, hf, _, hs⟩ := pushFrame_true s i h.1
    have hlen1 : (s.frameQueue ++ [f]).length = s.frameQueue.length + 1 := by simp
    have hw : (s.pushFrame i.frameData i.size i.allocOk).2.width = s.width := by rw [hs]
    have hh : (s.pushFrame i.frameData i.size i.allocOk).2.height = s.height := by rw [hs]
    have hq1 : (s.pushFrame i.frameData i.size i.allocOk).2.frameQueue =
        (s.frameQueue ++ [f]).drop (s.frameQueue.length + 1 - 30) := by rw [hs, hlen1]
    have hd1 : (s.pushFrame i.frameData i.size i.allocOk).2.stats.droppedFrames =
        s.stats.droppedFrames + ((s.frameQueue.length + 1 - 30 : Nat) : Int) := by rw [hs, hlen1]
    have hb1 : (s.pushFrame i.frameData i.size i.allocOk).2.frameQueue.length ≤ 30 := by
      rw [hq1]
      simp only [List.length_drop, hlen1]
      omega
    obtain ⟨fs, hfs, hq, hd⟩ := ih _ hb1 h.2
    rw [hw, hh] at hfs
    rw [hq1] at hq
    rw [hq1, hd1] at hd
    refine ⟨f :: fs, ?_, ?_, ?_⟩
    · simp [hf, hfs]
    · rw [hq, ← List.drop_append_of_le_length (by rw [hlen1]; omega), List.drop_drop]
      simp only [List.length_drop, hlen1, List.append_assoc, List.singleton_append,
        List.length_cons]
      congr 1
      omega
    · rw [hd]
      simp only [List.length_drop, hlen1, List.length_cons]
      omega

/-- C1: on a running server with an empty queue and `droppedFrames = 0`, 30+k
`pushFrame` calls that all return true (k > 0, no dequeue in between) leave
`droppedFrames = k` and a queue of exactly 30 frames, which are the frames of the
last 30 calls in call order. -/
theorem pushFrame_overflow_keeps_newest (s : RTSPServer) (inputs : List PushInput) (k : Nat)
    (hk : 0 < k) (hrun : s.isRunning = true) (hq : s.frameQueue = [])
    (hd : s.stats.droppedFrames = 0) (hlen : inputs.length = 30 + k)
    (hok : (s.pushFrames inputs).1 = true) :
    (s.pushFrames inputs).2.stats.droppedFrames = (k : Int) ∧
    (s.pushFrames inputs).2.frameQueue.length = 30 ∧
    (inputs.drop k).map (PushInput.frame s.width s.height) =
      (s.pushFrames inputs).2.frameQueue.map some := by
  have _ := hrun
  obtain ⟨fs, hfs, hqueue, hdrop⟩ := pushFrames_spec inputs s (by simp [hq]) hok
  have hl : fs.length = 30 + k := by
    have := congrArg List.length hfs
    simpa [hlen] using this.symm
  rw [hq] at hqueue
  simp only [List.nil_append, List.length_nil, Nat.zero_add] at hqueue
  rw [hq] at hdrop
  simp only [List.length_nil, Nat.zero_add] at hdrop
  have e : fs.length - 30 = k := by omega
  rw [e] at hqueue hdrop
  refine ⟨?_, ?_, ?_⟩
  · rw [hdrop, hd]; simp
  · rw [hqueue, List.length_drop]; omega
  · rw [hqueue, List.map_drop, hfs, List.map_drop]

/-- An iteration of the transmission loop removes the front of the queue when
the server is running and leaves the queue alone otherwise. -/
theorem serverLoopIter_frameQueue (s : RTSPServer) (env : LoopEnv) :
    (s.serverLoopIter env).1.frameQueue = if s.isRunning then s.frameQueue.tail else s.frameQueue := by
  unfold RTSPServer.serverLoopIter
  cases hr : s.isRunning with
  | false => simp
  | true =>
    cases hq : s.frameQueue with
    | nil => simp [hq]
    | cons frame rest =>
      simp only [Bool.not_true, Bool.false_eq_true, if_false, if_true, List.tail_cons]
      cases env.statsDue <;> simp only [RTSPServer.updateStats] <;>
        split <;> simp [RTSPServer.encodeAndTransmit] <;> split <;> rfl

/-- An iteration of the transmission loop keeps the configured frame size. -/
theorem serverLoopIter_size (s : RTSPServer) (env : LoopEnv) :
    (s.serverLoopIter env).1.width = s.width ∧ (s.serverLoopIter env).1.height = s.height := by
  unfold RTSPServer.serverLoopIter
  cases hr : s.isRunning with
  | false => simp
  | true =>
    cases hq : s.frameQueue with
    | nil => simp [hq]
    | cons frame rest =>
      simp only [Bool.not_true, Bool.false_eq_true, if_false, if_true]
      cases env.statsDue <;> simp only [RTSPServer.updateStats] <;>
        split <;> simp [RTSPServer.encodeAndTransmit] <;> split <;> exact ⟨rfl, rfl⟩

/-- No single operation lets the queue grow beyond 30 entries. -/
theorem ServerOp.apply_queue_le (s : RTSPServer) (op : ServerOp) (h : s.frameQueue.length ≤ 30) :
    (ServerOp.apply s op).frameQueue.length ≤ 30 := by
  cases op with
  | start initOk =>
    simp only [ServerOp.apply, RTSPServer.start, RTSPServer.resetStats]
    split
    · exact h
    · split
      · exact h
      · exact h
  | pushFrame frameData size allocOk =>
    simp only [ServerOp.apply]
    cases hr : (s.pushFrame frameData size allocOk).1 with
    | false => rw [pushFrame_false s frameData size allocOk hr]; exact h
    | true =>
      obtain ⟨f, _, _, hs⟩ := pushFrame_true s ⟨frameData, size, allocOk⟩ hr
      simp only at hs
      rw [hs]
      simp only [List.length_drop, List.length_append, List.length_cons, List.length_nil]
      omega
  | loopIter env =>
    simp only [ServerOp.apply, serverLoopIter_frameQueue]
    split
    · simp only [List.length_tail]; omega
    · exact h
  | stop => simp [ServerOp.apply, RTSPServer.stop, RTSPServer.clearFrameQueue]

/-- The queue bound is kept along every sequence of operations. -/
theorem run_queue_le (ops : List ServerOp) :
    ∀ s : RTSPServer, s.frameQueue.length ≤ 30 → (s.run ops).frameQueue.length ≤ 30 := by
  induction ops with
  | nil => intro s h; exact h
  | cons op rest ih =>
    intro s h
    exact ih _ (ServerOp.apply_queue_le s op h)

/-- No operation changes the configured frame size. -/
theorem run_size (ops : List ServerOp) :
    ∀ s : RTSPServer, (s.run ops).width = s.width ∧ (s.run ops).height = s.height := by
  induction ops with
  | nil => intro s; exact ⟨rfl, rfl⟩
  | cons op rest ih =>
    intro s
    have h1 := ih (ServerOp.apply s op)
    have h2 : (ServerOp.apply s op).width = s.width ∧ (ServerOp.apply s op).height = s.height := by
      cases op with
      | start initOk =>
        simp only [ServerOp.apply, RTSPServer.start, RTSPServer.resetStats]
        split
        · exact ⟨rfl, rfl⟩
        · split <;> exact ⟨rfl, rfl⟩
      | pushFrame frameData size allocOk =>
        simp only [ServerOp.apply]
        cases hr : (s.pushFrame frameData size allocOk).1 with
        | false => rw [pushFrame_false s frameData size allocOk hr]; exact ⟨rfl, rfl⟩
        | true =>
          obtain ⟨f, _, _, hs⟩ := pushFrame_true s ⟨frameData, size, allocOk⟩ hr
          simp only at hs
          rw [hs]
          exact ⟨rfl, rfl⟩
      | loopIter env =>
        simp only [ServerOp.apply]
        exact serverLoopIter_size s env
      | stop => exact ⟨rfl, rfl⟩
    exact ⟨h1.1.trans h2.1, h1.2.trans h2.2⟩

/-- An iteration of the transmission loop does not write `isRunning_`. -/
theorem serverLoopIter_isRunning (s : RTSPServer) (env : LoopEnv) :
    (s.serverLoopIter env).1.isRunning = s.isRunning := by
  unfold RTSPServer.serverLoopIter
  cases hr : s.isRunning with
  | false => simp [hr]
  | true =>
    cases hq : s.frameQueue with
    | nil => simp [hq, hr]
    | cons frame rest =>
      simp only [Bool.not_true, Bool.false_eq_true, if_false, if_true]
      cases env.statsDue <;> simp only [RTSPServer.updateStats] <;>
        split <;> simp [RTSPServer.encodeAndTransmit] <;> split <;> rfl

/-- A server that is not running has an empty queue, and every operation keeps
it so. -/
theorem ServerOp.apply_stopped_empty (s : RTSPServer) (op : ServerOp)
    (h : s.isRunning = false → s.frameQueue = []) :
    (ServerOp.apply s op).isRunning = false → (ServerOp.apply s op).frameQueue = [] := by
  cases op with
  | start initOk =>
    simp only [ServerOp.apply, RTSPServer.start, RTSPServer.resetStats]
    by_cases h1 : s.isRunning = true
    · rw [if_pos h1]; exact h
    · rw [if_neg h1]
      by_cases h2 : (!initOk) = true
      · rw [if_pos h2]; exact h
      · rw [if_neg h2]
        intro hc
        exact absurd hc (by simp)
  | pushFrame frameData size allocOk =>
    simp only [ServerOp.apply]
    cases hr : (s.pushFrame frameData size allocOk).1 with
    | false => rw [pushFrame_false s frameData size allocOk hr]; exact h
    | true =>
      obtain ⟨f, _, hrun, hs⟩ := pushFrame_true s ⟨frameData, size, allocOk⟩ hr
      simp only at hs
      rw [hs]
      intro hc
      exact absurd (hrun.symm.trans hc) (by decide)
  | loopIter env =>
    simp only [ServerOp.apply]
    rw [serverLoopIter_isRunning, serverLoopIter_frameQueue]
    intro hc
    rw [hc]
    exact h hc
  | stop =>
    intro _
    rfl

/-- In every state reached by a sequence of operations from a state in which a
stopped server has an empty queue, a stopped server has an empty queue. -/
theorem run_stopped_empty (ops : List ServerOp) :
    ∀ s : RTSPServer, (s.isRunning = false → s.frameQueue = []) →
      ((s.run ops).isRunning = false → (s.run ops).frameQueue = []) := by
  induction ops with
  | nil => intro s h; exact h
  | cons op rest ih =>
    intro s h
    exact ih _ (ServerOp.apply_stopped_empty s op h)

/-- A running server accepts every push whose buffer can be allocated and
converted. -/
theorem pushFrame_accepts (s : RTSPServer) (i : PushInput) (f : AVFrame)
    (hrun : s.isRunning = true) (hf : PushInput.frame s.width s.height i = some f) :
    (s.pushFrame i.frameData i.size i.allocOk).1 = true := by
  unfold PushInput.frame at hf
  unfold RTSPServer.pushFrame
  cases hd : i.frameData with
  | none =>
    rw [hd] at hf
    cases hc : createVideoFrame i.allocOk s.width s.height AV_PIX_FMT_YUV420P with
    | none => rw [hc] at hf; exact absurd hf (by simp)
    | some fr => rw [hc] at hf; exact absurd hf (by simp [convertFrame])
  | some bytes =>
    rw [hd] at hf
    cases hc : createVideoFrame i.allocOk s.width s.height AV_PIX_FMT_YUV420P with
    | none => rw [hc] at hf; exact absurd hf (by simp)
    | some fr =>
      rw [hc] at hf
      simp only [Option.some_bind] at hf
      simp [hrun, hf]

/-- A push whose buffer cannot be allocated or converted is rejected without
any change. -/
theorem pushFrame_rejects (s : RTSPServer) (i : PushInput)
    (hf : PushInput.frame s.width s.height i = none) :
    s.pushFrame i.frameData i.size i.allocOk = (false, s) := by
  cases hr : (s.pushFrame i.frameData i.size i.allocOk).1 with
  | false => exact Prod.ext hr (pushFrame_false s i.frameData i.size i.allocOk hr)
  | true =>
    obtain ⟨f, hf2, _⟩ := pushFrame_true s i hr
    rw [hf] at hf2
    exact absurd hf2 (by simp)

/-- A push made on a running server whose queue holds 30 entries, with a buffer
that can be allocated and converted to the frame `f`: it returns true, the
queue becomes its tail followed by `f`, `droppedFrames` grows by exactly 1 and
nothing else changes. -/
theorem pushFrame_on_full_queue (s : RTSPServer) (i : PushInput) (f : AVFrame)
    (hrun : s.isRunning = true) (hlen : s.frameQueue.length = 30)
    (hf : PushInput.frame s.width s.height i = some f) :
    s.pushFrame i.frameData i.size i.allocOk =
      (true, { s with
        frameQueue := s.frameQueue.tail ++ [f]
        stats := { s.stats with droppedFrames := s.stats.droppedFrames + 1 } }) ∧
    (s.frameQueue.tail ++ [f]).length = 30 := by
  have hne : s.frameQueue ≠ [] := by
    intro e; rw [e] at hlen; simp at hlen
  obtain ⟨a, q, hq⟩ := List.exists_cons_of_ne_nil hne
  have hql : q.length = 29 := by rw [hq] at hlen; simpa using hlen
  have hr := pushFrame_accepts s i f hrun hf
  obtain ⟨g, hg, _, hst⟩ := pushFrame_true s i hr
  rw [hf] at hg
  have hfg : g = f := (Option.some.inj hg).symm
  subst hfg
  constructor
  · refine Prod.ext hr ?_
    rw [hst, hq]
    simp [hql]
  · rw [hq]
    simp [hql]

/-- C2: in every state reached from a freshly constructed server by any sequence
of `start`, `pushFrame`, transmission-loop iterations and `stop`, the queue holds
at most 30 frames. A server found there with 30 queued entries is running, and
a `pushFrame` call made on it, when its buffer can be allocated and converted
to the frame `f`, returns true, removes exactly the oldest entry (the queue
becomes its tail followed by `f`, again 30 long), raises `droppedFrames` by
exactly 1 and changes nothing else; when the buffer cannot be allocated or
converted the call returns false and changes nothing. The eviction is what
`pushFrame` does on every running server with 30 queued entries, reached or
not. -/
theorem queue_bound_invariant (width height : Int) (ops : List ServerOp) :
    ((RTSPServer.new width height).run ops).frameQueue.length ≤ 30 ∧
    (∀ i : PushInput, ((RTSPServer.new width height).run ops).frameQueue.length = 30 →
      ((RTSPServer.new width height).run ops).isRunning = true ∧
      (∀ f, PushInput.frame width height i = some f →
        ((RTSPServer.new width height).run ops).pushFrame i.frameData i.size i.allocOk =
          (true, { (RTSPServer.new width height).run ops with
            frameQueue := ((RTSPServer.new width height).run ops).frameQueue.tail ++ [f]
            stats := { ((RTSPServer.new width height).run ops).stats with
              droppedFrames :=
                ((RTSPServer.new width height).run ops).stats.droppedFrames + 1 } }) ∧
        (((RTSPServer.new width height).run ops).frameQueue.tail ++ [f]).length = 30) ∧
      (PushInput.frame width height i = none →
        ((RTSPServer.new width height).run ops).pushFrame i.frameData i.size i.allocOk =
          (false, (RTSPServer.new width height).run ops))) ∧
    (∀ (s : RTSPServer) (i : PushInput) (f : AVFrame), s.isRunning = true →
      s.frameQueue.length = 30 → PushInput.frame s.width s.height i = some f →
      s.pushFrame i.frameData i.size i.allocOk =
        (true, { s with
          frameQueue := s.frameQueue.tail ++ [f]
          stats := { s.stats with droppedFrames := s.stats.droppedFrames + 1 } })) := by
  refine ⟨run_queue_le ops _ (by simp [RTSPServer.new]), ?_,
    fun s i f hrun hlen hf => (pushFrame_on_full_queue s i f hrun hlen hf).1⟩
  intro i hlen
  have hstopped := run_stopped_empty ops (RTSPServer.new width height)
    (fun _ => by simp [RTSPServer.new])
  have hw := run_size ops (RTSPServer.new width height)
  generalize (RTSPServer.new width height).run ops = s at hlen hstopped hw ⊢
  have hw1 : s.width = width := hw.1
  have hw2 : s.height = height := hw.2
  have hne : s.frameQueue ≠ [] := by
    intro e; rw [e] at hlen; simp at hlen
  have hrun : s.isRunning = true := by
    cases hr : s.isRunning with
    | false => exact absurd (hstopped hr) hne
    | true => rfl
  refine ⟨hrun, ?_, ?_⟩
  · intro f hf
    rw [← hw1, ← hw2] at hf
    exact pushFrame_on_full_queue s i f hrun hlen hf
  · intro hf
    rw [← hw1, ← hw2] at hf
    exact pushFrame_rejects s i hf

set_option maxRecDepth 20000

/-- Witness for C2: after a successful `start` and thirty accepted pushes the
queue of the fresh 2x2 server holds 30 frames; one more accepted push removes
the oldest entry and sets `droppedFrames` to 1, and a push with a null buffer
is rejected without any change. -/
theorem queue_bound_invariant_witness :
    ((RTSPServer.new 2 2).run exFillOps).frameQueue.length = 30 ∧
      ((RTSPServer.new 2 2).run exFillOps).pushFrame exPushInput.frameData exPushInput.size
          exPushInput.allocOk =
        (true, { (RTSPServer.new 2 2).run exFillOps with
          frameQueue := ((RTSPServer.new 2 2).run exFillOps).frameQueue.tail ++ [exPushedFrame]
          stats := { ((RTSPServer.new 2 2).run exFillOps).stats with
            droppedFrames := ((RTSPServer.new 2 2).run exFillOps).stats.droppedFrames + 1 } }) ∧
      ((RTSPServer.new 2 2).run exFillOps).stats.droppedFrames + 1 = 1 ∧
      ((RTSPServer.new 2 2).run exFillOps).pushFrame none 12 true =
        (false, (RTSPServer.new 2 2).run exFillOps) :=
  ⟨by decide,
   (((queue_bound_invariant 2 2 exFillOps).2.1 exPushInput (by decide)).2.1 exPushedFrame
      (by decide)).1,
   by decide,
   ((queue_bound_invariant 2 2 exFillOps).2.1 { frameData := none, size := 12, allocOk := true }
      (by decide)).2.2 (by decide)⟩

/-- C1 at the scenario of the specification: 35 accepted pushes into the empty
running server give `droppedFrames = 5` and a queue of the last 30 frames. -/
theorem pushFrame_overflow_keeps_newest_witness :
    (exServer.pushFrames exPushes).2.stats.droppedFrames = ((5 : Nat) : Int) ∧
    (exServer.pushFrames exPushes).2.frameQueue.length = 30 ∧
    (exPushes.drop 5).map (PushInput.frame exServer.width exServer.height) =
      (exServer.pushFrames exPushes).2.frameQueue.map some :=
  pushFrame_overflow_keeps_newest exServer exPushes 5 (by decide) rfl rfl rfl (by decide)
    (by decide)

end TurboVision

/-! ## Theorems: the reconnect policy of the RTSP capture loop -/

namespace TurboVision

/-- A failed read whose reconnect fails ends the worker of an RTSP engine at
once, whatever is left of the budget: exactly one reconnect call is made. -/
theorem captureLoop_failed_reconnect (s : VideoSource) (max attempts : Int) (v : Nat)
    (o : OpenEnv) (due : Bool) (rest : List IterEnv) (hs : s.RtspLooping max attempts v)
    (hlt : attempts < max) (hfail : (s.disconnect.reconnect o).1 = false) :
    (s.captureLoop ({ read := .failure o, statusDue := due } :: rest)).continues = false ∧
    reconnectCalls (s.captureLoop ({ read := .failure o, statusDue := due } :: rest)).trace
      = 1 := by
  obtain ⟨hk, hr, hp, hc, hm, ha, _⟩ := hs
  have hlt2 : s.reconnectAttempts < s.rtspConfig.maxReconnectAttempts := by rw [ha, hm]; exact hlt
  have hit : s.rtspCaptureIter { read := .failure o, statusDue := due } =
      { state := (s.disconnect.reconnect o).2
        trace := [Action.readFrame, Action.disconnect, Action.sleepMs 1000,
                  Action.reconnect false]
        continues := false } := by
    unfold VideoSource.rtspCaptureIter
    simp [hr, hp, hc, hlt2, hfail]
  simp [VideoSource.captureLoop, VideoSource.captureIter, hk, hit, reconnectCalls]

/-- C3 (the code at the claim's input): an RTSP source with
`reconnectOnError = true` and `maxReconnectAttempts = 3`, started successfully,
whose reads fail and whose every reconnect fails, leaves its capture loop after
exactly one call of `reconnect()`, not three. -/
theorem rtsp_all_reconnects_fail_one_attempt :
    exRtspRunning.rtspConfig = { reconnectOnError := true, maxReconnectAttempts := 3 } ∧
    (exRtspRunning.captureLoop (List.replicate 5 exReadFailNoReconnect)).continues = false ∧
    reconnectCalls (exRtspRunning.captureLoop (List.replicate 5 exReadFailNoReconnect)).trace
      = 1 ∧
    reconnectCalls (exRtspRunning.captureLoop (List.replicate 5 exReadFailNoReconnect)).trace
      ≠ 3 := by
  decide

/-- The function `connect` does not write `isRunning_`. -/
theorem connect_isRunning (s : VideoSource) (o : OpenEnv) :
    (s.connect o).2.isRunning = s.isRunning := by
  unfold VideoSource.connect VideoSource.findVideoStream VideoSource.disconnect
  cases firstVideoStream o.streams 0 <;> simp only <;> split_ifs <;> rfl

/-- No iteration of a capture loop writes `isRunning_`. -/
theorem captureIter_isRunning (s : VideoSource) (env : IterEnv) :
    (s.captureIter env).state.isRunning = s.isRunning := by
  have hrec : ∀ o, (s.disconnect.reconnect o).2.isRunning = s.isRunning := by
    intro o
    unfold VideoSource.reconnect
    rw [connect_isRunning]
    rfl
  unfold VideoSource.captureIter
  cases s.kind with
  | camera =>
    simp only
    unfold VideoSource.cameraCaptureIter
    by_cases h1 : (!s.isRunning) = true
    · rw [if_pos h1]
    · rw [if_neg h1]
      by_cases h2 : s.isPaused = true
      · rw [if_pos h2]
      · rw [if_neg h2]
        cases env.read <;> rfl
  | rtsp =>
    simp only
    unfold VideoSource.rtspCaptureIter
    by_cases h1 : (!s.isRunning) = true
    · rw [if_pos h1]
    · rw [if_neg h1]
      by_cases h2 : s.isPaused = true
      · rw [if_pos h2]
      · rw [if_neg h2]
        cases env.read with
        | packet streamIndex size decode =>
          simp only
          by_cases h3 : streamIndex = s.videoStreamIndex
          · rw [if_pos h3]
          · rw [if_neg h3]
        | failure reopen =>
          simp only
          by_cases h3 : (s.rtspConfig.reconnectOnError
              && decide (s.reconnectAttempts < s.rtspConfig.maxReconnectAttempts)) = true
          · rw [if_pos h3]
            by_cases h4 : (s.disconnect.reconnect reopen).1 = true
            · rw [if_pos h4]
              exact hrec reopen
            · rw [if_neg h4]
              exact hrec reopen
          · rw [if_neg h3]

/-- The worker never writes `isRunning_`: when its loop is left, the flag is what
it was when the loop was entered. -/
theorem captureLoop_isRunning (envs : List IterEnv) :
    ∀ s : VideoSource, (s.captureLoop envs).state.isRunning = s.isRunning := by
  induction envs with
  | nil => intro s; rfl
  | cons e rest ih =>
    intro s
    unfold VideoSource.captureLoop
    by_cases hc : (s.captureIter e).continues = true
    · simp only [hc, if_true]
      rw [ih, captureIter_isRunning]
    · simp only [hc, if_false]
      exact captureIter_isRunning s e

/-- C5 (the code at the claim's input): after a successful `start`, the capture
loop of an RTSP source ends on its own, once with the budget of 3 used up and once
with reconnect disabled; in both cases the worker has returned and `isRunning()`
still answers true, no `stop()` having been called. -/
theorem rtsp_loop_exit_keeps_isRunning :
    (exRtsp.start exOpenOk).1 = true ∧
    (exRtspRunning.captureLoop (List.replicate 4 exReadFailReconnect)).continues = false ∧
    (exRtspRunning.captureLoop (List.replicate 4 exReadFailReconnect)).state.captureThread
      = ThreadState.exited ∧
    (exRtspRunning.captureLoop (List.replicate 4 exReadFailReconnect)).state.isRunningQuery
      = true ∧
    (exRtspNoReconnect.captureLoop [exReadVideo, exReadFailReconnect]).continues = false ∧
    (exRtspNoReconnect.captureLoop [exReadVideo, exReadFailReconnect]).state.isRunningQuery
      = true := by
  decide

end TurboVision

/-! ## Theorems: start, stop, pause and resume of a capture engine -/

namespace TurboVision

/-- C6: `start()` on an engine that is already running returns false and leaves
the whole engine state as it was: `initializeSource` is not run, no worker is
spawned, and flags, connection and queue are untouched. -/
theorem start_when_running (s : VideoSource) (env : OpenEnv) (h : s.isRunning = true) :
    s.start env = (false, s) := by
  unfold VideoSource.start
  rw [if_pos h]

/-- C6 at a concrete engine: a second `start` of the started RTSP source. -/
theorem start_when_running_witness :
    exRtspRunning.isRunning = true ∧ exRtspRunning.start exOpenOk = (false, exRtspRunning) :=
  ⟨by decide, start_when_running exRtspRunning exOpenOk (by decide)⟩

/-- Opening a source (either variant) writes neither flag and does not touch the
worker thread. -/
theorem initializeSource_control (s : VideoSource) (env : OpenEnv) :
    (s.initializeSource env).2.isRunning = s.isRunning ∧
    (s.initializeSource env).2.isPaused = s.isPaused ∧
    (s.initializeSource env).2.captureThread = s.captureThread := by
  unfold VideoSource.initializeSource
  cases s.kind with
  | camera =>
    simp only
    unfold VideoSource.cameraInitializeSource VideoSource.setupCamera VideoSource.findVideoStream
    cases firstVideoStream env.streams 0 <;> simp only <;> split_ifs <;> exact ⟨rfl, rfl, rfl⟩
  | rtsp =>
    simp only
    unfold VideoSource.connect VideoSource.findVideoStream VideoSource.disconnect
    cases firstVideoStream env.streams 0 <;> simp only <;> split_ifs <;> exact ⟨rfl, rfl, rfl⟩

/-- C7: when an idle engine is started and its source fails to open
(`initializeSource` returns false), `start()` returns false, `isRunning()` and
`isPaused()` still answer false, and the capture thread is not joinable: no
worker was created. -/
theorem start_failure_stays_idle (s : VideoSource) (env : OpenEnv) (hidle : s.Idle)
    (hfail : (s.initializeSource env).1 = false) :
    (s.start env).1 = false ∧ (s.start env).2.isRunningQuery = false ∧
    (s.start env).2.isPausedQuery = false ∧ (s.start env).2.captureThread.joinable = false ∧
    (s.start env).2.Idle := by
  obtain ⟨h1, h2, h3⟩ := hidle
  obtain ⟨c1, c2, c3⟩ := initializeSource_control s env
  have hst : s.start env = (false, (s.initializeSource env).2) := by
    unfold VideoSource.start
    simp [h1, hfail]
  rw [hst]
  refine ⟨rfl, c1.trans h1, c2.trans h2, ?_, c1.trans h1, c2.trans h2, ?_⟩
  · show (s.initializeSource env).2.captureThread.joinable = false
    rw [c3]; exact h3
  · show (s.initializeSource env).2.captureThread.joinable = false
    rw [c3]; exact h3

/-- C7 at a concrete engine: the RTSP source against an input that cannot be
opened. -/
theorem start_failure_stays_idle_witness :
    (exRtsp.start exOpenFail).1 = false ∧ (exRtsp.start exOpenFail).2.isRunningQuery = false ∧
    (exRtsp.start exOpenFail).2.isPausedQuery = false ∧
    (exRtsp.start exOpenFail).2.captureThread.joinable = false ∧
    (exRtsp.start exOpenFail).2.Idle :=
  start_failure_stays_idle exRtsp exOpenFail (by unfold VideoSource.Idle; decide) (by decide)

/-- What `stop()` guarantees for both variants: both flags false, no joinable
worker, an empty queue, idempotence; and for an RTSP engine a released
connection. -/
theorem stop_returns_to_idle (s : VideoSource) :
    s.stop.Idle ∧ s.stop.frameQueue = [] ∧ s.stop.stop = s.stop ∧
    (s.kind = .rtsp → s.stop.Released) := by
  unfold VideoSource.stop VideoSource.cleanupSource VideoSource.clearFrameQueue
    VideoSource.disconnect VideoSource.Idle VideoSource.Released
  cases s.kind <;> cases s.captureThread <;> simp [ThreadState.joinable]

/-- C8 (the code at a failing input): a camera engine whose device was opened
(by a `start()` that then failed in `configureFormat`) still holds its opened
input after `stop()`: the connection is not released, although the flags are
false, the queue is empty and a second `stop()` changes nothing. -/
theorem camera_stop_keeps_input_open :
    (exCamera.start exOpenOk).2.formatContext = some { streams := [false, true] } ∧
    (exCamera.start exOpenOk).2.stop.formatContext = some { streams := [false, true] } ∧
    ¬ (exCamera.start exOpenOk).2.stop.Released ∧
    (exCamera.start exOpenOk).2.stop.isRunning = false ∧
    (exCamera.start exOpenOk).2.stop.isPaused = false ∧
    (exCamera.start exOpenOk).2.stop.frameQueue = [] ∧
    (exCamera.start exOpenOk).2.stop.stop = (exCamera.start exOpenOk).2.stop := by
  unfold VideoSource.Released
  decide

/-- C9 as stated fails: on an engine that is running and already paused, `pause`
followed by `resume` returns true twice and ends unpaused, which is not the state
before the pause. -/
theorem pause_resume_on_paused_engine :
    (exRtspRunning.pause).2.isRunning = true ∧ (exRtspRunning.pause).2.isPaused = true ∧
    ((exRtspRunning.pause).2.pause).1 = true ∧
    (((exRtspRunning.pause).2.pause).2.resume).1 = true ∧
    (((exRtspRunning.pause).2.pause).2.resume).2 ≠ (exRtspRunning.pause).2 := by
  decide

/-- C9 (amended): when the engine is not running, `pause()` and `resume()` return
false and leave the state unchanged; when it is running, `pause()` returns true
and sets only the paused flag to true, `resume()` returns true and sets only the
paused flag to false; and `pause` followed by `resume` restores the state before
the pause whenever the engine was not already paused. -/
theorem pause_resume_contract (s : VideoSource) :
    (s.isRunning = false → s.pause = (false, s) ∧ s.resume = (false, s)) ∧
    (s.isRunning = true →
      s.pause = (true, { s with isPaused := true }) ∧
      s.resume = (true, { s with isPaused := false }) ∧
      (s.pause.2.resume).1 = true ∧
      (s.isPaused = false → (s.pause.2.resume).2 = s)) := by
  refine ⟨fun h => ?_, fun h => ?_⟩
  · simp [VideoSource.pause, VideoSource.resume, h]
  · refine ⟨by simp [VideoSource.pause, h], by simp [VideoSource.resume, h],
      by simp [VideoSource.pause, VideoSource.resume, h], fun hp => ?_⟩
    simp only [VideoSource.pause, VideoSource.resume, h, Bool.not_true, Bool.false_eq_true,
      if_false]
    cases s
    simp only at hp h
    simp [hp, h]

/-- C10: an iteration of the capture loop (camera or RTSP) that begins with
`isRunning_` and `isPaused_` both true only sleeps 10 ms and goes on: the state
(connection, reconnect counter, received counters) is unchanged, there is no read,
no callback invocation, no disconnect and no reconnect. The same holds for any
number of consecutive iterations while the flags stay as they are. -/
theorem paused_iteration_only_sleeps (s : VideoSource) (env : IterEnv) (envs : List IterEnv)
    (hr : s.isRunning = true) (hp : s.isPaused = true) :
    s.rtspCaptureIter env = { state := s, trace := [Action.sleepMs 10], continues := true } ∧
    s.cameraCaptureIter env = { state := s, trace := [Action.sleepMs 10], continues := true } ∧
    s.captureIter env = { state := s, trace := [Action.sleepMs 10], continues := true } ∧
    readCalls (s.captureIter env).trace = 0 ∧ callbackCalls (s.captureIter env).trace = 0 ∧
    reconnectCalls (s.captureIter env).trace = 0 ∧
    Action.disconnect ∉ (s.captureIter env).trace ∧
    (s.captureLoop envs).state = s ∧ (s.captureLoop envs).continues = true ∧
    (s.captureLoop envs).trace = List.replicate envs.length (Action.sleepMs 10) := by
  have h1 : s.rtspCaptureIter env =
      { state := s, trace := [Action.sleepMs 10], continues := true } := by
    simp [VideoSource.rtspCaptureIter, hr, hp]
  have h2 : s.cameraCaptureIter env =
      { state := s, trace := [Action.sleepMs 10], continues := true } := by
    simp [VideoSource.cameraCaptureIter, hr, hp]
  have h3 : ∀ e, s.captureIter e =
      { state := s, trace := [Action.sleepMs 10], continues := true } := by
    intro e
    unfold VideoSource.captureIter
    cases s.kind
    · simp [VideoSource.cameraCaptureIter, hr, hp]
    · simp [VideoSource.rtspCaptureIter, hr, hp]
  have h4 : (s.captureLoop envs).state = s ∧ (s.captureLoop envs).continues = true ∧
      (s.captureLoop envs).trace = List.replicate envs.length (Action.sleepMs 10) := by
    induction envs with
    | nil => exact ⟨rfl, rfl, rfl⟩
    | cons e rest ih =>
      unfold VideoSource.captureLoop
      simp only [h3 e, if_true]
      exact ⟨ih.1, ih.2.1, by rw [ih.2.2]; rfl⟩
  refine ⟨h1, h2, h3 env, ?_, ?_, ?_, ?_, h4⟩
  · rw [h3 env]; rfl
  · rw [h3 env]; rfl
  · rw [h3 env]; rfl
  · rw [h3 env]; simp

/-- C10 at a concrete engine: the started RTSP source, paused, offered a video
packet (and then four more): nothing is read and nothing is delivered. -/
theorem paused_iteration_only_sleeps_witness :
    (exRtspRunning.pause).2.captureIter exReadVideo =
      { state := (exRtspRunning.pause).2, trace := [Action.sleepMs 10], continues := true } ∧
    callbackCalls ((exRtspRunning.pause).2.captureIter exReadVideo).trace = 0 ∧
    ((exRtspRunning.pause).2.captureLoop (List.replicate 4 exReadVideo)).state
      = (exRtspRunning.pause).2 :=
  have h := paused_iteration_only_sleeps (exRtspRunning.pause).2 exReadVideo
    (List.replicate 4 exReadVideo) (by decide) (by decide)
  ⟨h.2.2.1, h.2.2.2.2.1, h.2.2.2.2.2.2.2.1⟩

end TurboVision

/-! ## Theorems: seek -/

namespace TurboVision

/-- The rescaling of a non-negative timestamp in microseconds to a time base
`num/den` with `num > 0` and `den >= 0`, when the result fits. -/
theorem av_rescale_q_microseconds (timestamp : Int) (timeBase : AVRational)
    (ht : 0 ≤ timestamp) (hnum : 0 < timeBase.num) (hden : 0 ≤ timeBase.den)
    (hfit : (timestamp * timeBase.den + timeBase.num * 1000000 / 2) / (timeBase.num * 1000000)
      ≤ INT64_MAX) :
    av_rescale_q timestamp AV_TIME_BASE_Q timeBase =
      (timestamp * timeBase.den + timeBase.num * 1000000 / 2) / (timeBase.num * 1000000) := by
  unfold av_rescale_q av_rescale_near AV_TIME_BASE_Q
  have hc : ¬ (timeBase.num * 1000000 ≤ 0 ∨ timeBase.den < 0) := by
    intro h
    rcases h with h | h <;> omega
  simp only [one_mul, if_neg hc, if_neg (not_lt.mpr ht)]
  rw [if_neg (not_lt.mpr hfit)]

/-- C11 as stated fails: on the started (connected) RTSP source, whose video
stream has index 1 and, say, the time base 1/90000, `seek(5000000)` calls
`av_seek_frame` with the target 450000; when that succeeds it flushes the
decoder, clears the queue and returns true, and when it fails a seek was
attempted all the same. -/
theorem rtsp_seek_on_connected_source :
    exRtspRunning.kind = SourceKind.rtsp ∧
    (exRtspRunning.seek 5000000 { num := 1, den := 90000 } true).result = true ∧
    (exRtspRunning.seek 5000000 { num := 1, den := 90000 } true).trace =
      [SeekAction.seekFrame 1 450000, SeekAction.flushBuffers, SeekAction.clearFrameQueue] ∧
    (exRtspRunning.seek 5000000 { num := 1, den := 90000 } false).result = false ∧
    (exRtspRunning.seek 5000000 { num := 1, den := 90000 } false).trace =
      [SeekAction.seekFrame 1 450000] := by
  decide

/-- C11 (amended): `seek` on an RTSP source (the inherited `VideoSource::seek`)
is rejected without any action only while no input is open (`formatContext_`
null or `videoStreamIndex_ < 0`). On a connected source it calls
`av_seek_frame` on the tracked stream with the timestamp rescaled from
microseconds to the time base of that stream: when the call fails it returns
false with no decoder flush, no queue clear and the state unchanged; when it
succeeds it flushes the decoder (if there is one), clears the queue and returns
true. -/
theorem seek_contract (s : VideoSource) (timestamp : Int) (timeBase : AVRational)
    (seekOk : Bool) :
    ((s.formatContext = none ∨ s.videoStreamIndex < 0) →
      s.seek timestamp timeBase seekOk = { result := false, state := s, trace := [] }) ∧
    (s.formatContext ≠ none → 0 ≤ s.videoStreamIndex → seekOk = false →
      s.seek timestamp timeBase seekOk =
        { result := false, state := s
          trace := [SeekAction.seekFrame s.videoStreamIndex
            (av_rescale_q timestamp AV_TIME_BASE_Q timeBase)] }) ∧
    (s.formatContext ≠ none → 0 ≤ s.videoStreamIndex → seekOk = true →
      (s.seek timestamp timeBase seekOk).result = true ∧
      (s.seek timestamp timeBase seekOk).state = s.clearFrameQueue ∧
      (s.seek timestamp timeBase seekOk).trace =
        [SeekAction.seekFrame s.videoStreamIndex
            (av_rescale_q timestamp AV_TIME_BASE_Q timeBase)] ++
          (if s.codecContext then [SeekAction.flushBuffers] else []) ++
          [SeekAction.clearFrameQueue]) := by
  refine ⟨fun h => ?_, fun h1 h2 h3 => ?_, fun h1 h2 h3 => ?_⟩
  · unfold VideoSource.seek
    rcases h with h | h
    · simp [h]
    · simp [h]
  · have hn : ¬ s.videoStreamIndex < 0 := by omega
    have hf : s.formatContext.isNone = false := by
      cases hc : s.formatContext with
      | none => exact absurd hc h1
      | some _ => rfl
    unfold VideoSource.seek
    simp [hf, hn, h3]
  · have hn : ¬ s.videoStreamIndex < 0 := by omega
    have hf : s.formatContext.isNone = false := by
      cases hc : s.formatContext with
      | none => exact absurd hc h1
      | some _ => rfl
    unfold VideoSource.seek
    simp [hf, hn, h3]

/-- C11 (amended) at concrete sources: the RTSP source before `start` rejects
the seek without any action; the started one, on a failing `av_seek_frame` with
the time base 1/90000, returns false after a seek to 450000 on stream 1. -/
theorem seek_contract_witness :
    exRtsp.seek 5000000 { num := 1, den := 90000 } true =
        { result := false, state := exRtsp, trace := [] } ∧
      exRtspRunning.seek 5000000 { num := 1, den := 90000 } false =
        { result := false, state := exRtspRunning, trace := [SeekAction.seekFrame 1 450000] } :=
  ⟨(seek_contract exRtsp 5000000 { num := 1, den := 90000 } true).1 (Or.inl (by decide)),
   ((seek_contract exRtspRunning 5000000 { num := 1, den := 90000 } false).2.1 (by decide)
      (by decide) rfl).trans (by decide)⟩

end TurboVision

/-! ## Theorems: frame buffers -/

namespace TurboVision

/-- A value in the range of `int` is its own 32-bit result. -/
theorem wrapInt32_of_range (v : Int) (h1 : -2147483648 ≤ v) (h2 : v < 2147483648) :
    wrapInt32 v = v := by
  unfold wrapInt32
  omega

/-- What FFmpeg's size check gives: positive sizes and a pixel count whose
eightfold is below `INT_MAX`. -/
theorem av_image_check_size_bounds (w h : Int) (hc : av_image_check_size w h = true) :
    0 < w ∧ 0 < h ∧ 0 < w * h ∧ 8 * (w * h) < 2147483647 := by
  unfold av_image_check_size INT_MAX at hc
  simp only [Bool.and_eq_true, decide_eq_true_eq] at hc
  obtain ⟨⟨⟨hw, hh⟩, _⟩, hb⟩ := hc
  refine ⟨hw, hh, Int.mul_pos hw hh, ?_⟩
  nlinarith [Int.mul_pos hw hh]

/-- The members of a constructed frame buffer. -/
theorem FrameData.new_fields (w h : Int) (format : AVPixelFormat) (size : Int) (allocOk : Bool)
    (f : FrameData) (hf : FrameData.new w h format size allocOk = some f) :
    f.width = w ∧ f.height = h ∧ f.format = format ∧ f.dataSize = size ∧ f.timestamp = 0 ∧
    0 ≤ size ∧
    f = FrameData.calculatePlaneOffsets
      { data := some (List.replicate size.toNat 0), width := w, height := h, format := format,
        timestamp := 0, dataSize := size, planeOffsets := [-1, -1, -1, -1] } := by
  unfold FrameData.new at hf
  by_cases hc : (decide (size < 0) || !allocOk) = true
  · rw [if_pos hc] at hf
    exact absurd hf (by simp)
  · rw [if_neg hc] at hf
    have hs : 0 ≤ size := by
      simp only [Bool.or_eq_true, decide_eq_true_eq, not_or] at hc
      omega
    have e := (Option.some.inj hf).symm
    subst e
    unfold FrameData.calculatePlaneOffsets
    refine ⟨?_, ?_, ?_, ?_, ?_, hs, rfl⟩ <;> (simp only; split_ifs <;> rfl)

/-- A non-negative size that FFmpeg returns for a format of the table is the sum
of the plane sizes, and the size check has passed. -/
theorem av_image_get_buffer_size_ok (format : AVPixelFormat) (w h size : Int) (sizes : List Int)
    (hs : av_image_get_buffer_size format w h = some size) (h0 : 0 ≤ size)
    (hp : imagePlaneSizes format w h = some sizes) :
    av_image_check_size w h = true ∧ size = sizes.sum := by
  unfold av_image_get_buffer_size at hs
  rw [hp] at hs
  simp only at hs
  by_cases hc : av_image_check_size w h = true
  · rw [if_pos hc] at hs
    exact ⟨hc, (Option.some.inj hs).symm⟩
  · rw [if_neg hc] at hs
    have := Option.some.inj hs
    unfold AVERROR_EINVAL at this
    omega

/-- The byte count of a 4:2:0 image with even sizes, as `calculateTotalSize`
computes it in `int` arithmetic. -/
theorem totalSize_420_even (a b : Int) (hpos : 0 < (2 * a) * (2 * b))
    (hb : 8 * ((2 * a) * (2 * b)) < 2147483647) :
    Int.tdiv (wrapInt32 (wrapInt32 ((2 * a) * (2 * b)) * 3)) 2 =
      (2 * a) * (2 * b) + 2 * (a * b) := by
  have e : (2 * a) * (2 * b) = 4 * (a * b) := by ring
  rw [e] at hpos hb ⊢
  generalize a * b = P at hpos hb ⊢
  rw [wrapInt32_of_range (4 * P) (by omega) (by omega),
    wrapInt32_of_range (4 * P * 3) (by omega) (by omega),
    Int.tdiv_eq_ediv (by omega) (by omega)]
  omega

/-- C12 as stated fails: for the valid 3x3 YUV420P frame FFmpeg's buffer size,
and so `dataSize()`, is 17, while `calculateTotalSize()` is 13; and for a 2x2
RGB24 frame `dataSize()` is 12 while `calculateTotalSize()` assumes 16. -/
theorem dataSize_differs_from_calculateTotalSize :
    av_image_get_buffer_size AV_PIX_FMT_YUV420P 3 3 = some 17 ∧
    (FrameData.new 3 3 AV_PIX_FMT_YUV420P 17 true).map (fun f => f.dataSize) = some 17 ∧
    (FrameData.new 3 3 AV_PIX_FMT_YUV420P 17 true).map (fun f => f.calculateTotalSize)
      = some 13 ∧
    av_image_get_buffer_size AV_PIX_FMT_RGB24 2 2 = some 12 ∧
    (FrameData.new 2 2 AV_PIX_FMT_RGB24 12 true).map (fun f => f.dataSize) = some 12 ∧
    (FrameData.new 2 2 AV_PIX_FMT_RGB24 12 true).map (fun f => f.calculateTotalSize)
      = some 16 := by
  decide

/-- C12 (amended): for a frame buffer constructed with the size FFmpeg returns,
`dataSize()` equals `calculateTotalSize()` when the format is NV12 or YUV420P
and width and height are even, and when the format is YUV444P. -/
theorem dataSize_eq_calculateTotalSize (w h : Int) (format : AVPixelFormat) (size : Int)
    (allocOk : Bool) (f : FrameData)
    (hsize : av_image_get_buffer_size format w h = some size)
    (hf : FrameData.new w h format size allocOk = some f)
    (hfmt : ((format = AV_PIX_FMT_NV12 ∨ format = AV_PIX_FMT_YUV420P) ∧ w % 2 = 0 ∧ h % 2 = 0)
      ∨ format = AV_PIX_FMT_YUV444P) :
    f.dataSize = f.calculateTotalSize := by
  obtain ⟨fw, fh, ff, fd, _, h0, _⟩ := FrameData.new_fields w h format size allocOk f hf
  unfold FrameData.calculateTotalSize
  rw [fw, fh, ff, fd]
  rcases hfmt with ⟨hfm, hwe, hhe⟩ | hfm
  · obtain ⟨a, rfl⟩ : ∃ a, w = 2 * a := ⟨w / 2, by omega⟩
    obtain ⟨b, rfl⟩ : ∃ b, h = 2 * b := ⟨h / 2, by omega⟩
    have hca : ceilHalf (2 * a) = a := by unfold ceilHalf; omega
    have hcb : ceilHalf (2 * b) = b := by unfold ceilHalf; omega
    rw [if_pos hfm]
    rcases hfm with hfm | hfm
    · obtain ⟨hc, hsum⟩ := av_image_get_buffer_size_ok format (2 * a) (2 * b) size
        [(2 * a) * (2 * b), 2 * ceilHalf (2 * a) * ceilHalf (2 * b)] hsize h0
        (by rw [hfm]; rfl)
      obtain ⟨_, _, hpos, hb⟩ := av_image_check_size_bounds _ _ hc
      rw [totalSize_420_even a b hpos hb, hsum, hca, hcb]
      simp only [List.sum_cons, List.sum_nil]
      ring
    · obtain ⟨hc, hsum⟩ := av_image_get_buffer_size_ok format (2 * a) (2 * b) size
        [(2 * a) * (2 * b), ceilHalf (2 * a) * ceilHalf (2 * b),
          ceilHalf (2 * a) * ceilHalf (2 * b)] hsize h0
        (by rw [hfm]; rfl)
      obtain ⟨_, _, hpos, hb⟩ := av_image_check_size_bounds _ _ hc
      rw [totalSize_420_even a b hpos hb, hsum, hca, hcb]
      simp only [List.sum_cons, List.sum_nil]
      ring
  · obtain ⟨hc, hsum⟩ := av_image_get_buffer_size_ok format w h size [w * h, w * h, w * h]
      hsize h0 (by rw [hfm]; rfl)
    obtain ⟨_, _, hpos, hb⟩ := av_image_check_size_bounds _ _ hc
    have hn : ¬ (format = AV_PIX_FMT_NV12 ∨ format = AV_PIX_FMT_YUV420P) := by
      rw [hfm]; decide
    rw [if_neg hn, if_pos hfm, hsum]
    generalize w * h = P at hpos hb ⊢
    rw [wrapInt32_of_range P (by omega) (by omega),
      wrapInt32_of_range (P * 3) (by omega) (by omega)]
    simp only [List.sum_cons, List.sum_nil]
    omega

/-- C12 (amended) at a concrete frame: 4x4 NV12, 24 bytes. -/
theorem dataSize_eq_calculateTotalSize_witness :
    exNv12.dataSize = exNv12.calculateTotalSize :=
  dataSize_eq_calculateTotalSize 4 4 AV_PIX_FMT_NV12 24 true exNv12 (by decide) (by decide)
    (Or.inl ⟨Or.inl rfl, by decide, by decide⟩)

/-- The plane offsets of a constructed NV12 or even-sized YUV420P frame buffer
are in bounds and the planes do not overlap. -/
theorem plane_ranges_nv12_yuv420p (w h : Int) (format : AVPixelFormat) (size : Int)
    (allocOk : Bool) (f : FrameData) (sizes : List Int)
    (hsize : av_image_get_buffer_size format w h = some size)
    (hf : FrameData.new w h format size allocOk = some f)
    (hp : imagePlaneSizes format w h = some sizes)
    (hfmt : format = AV_PIX_FMT_NV12 ∨
      (format = AV_PIX_FMT_YUV420P ∧ w % 2 = 0 ∧ h % 2 = 0)) :
    f.PlanesInBounds sizes ∧ f.PlanesDisjoint sizes := by
  obtain ⟨_, _, _, fd, _, h0, fe⟩ := FrameData.new_fields w h format size allocOk f hf
  obtain ⟨hc, hsum⟩ := av_image_get_buffer_size_ok format w h size sizes hsize h0 hp
  obtain ⟨hw, hh, hpos, hb⟩ := av_image_check_size_bounds _ _ hc
  have hcw : 0 ≤ ceilHalf w := by unfold ceilHalf; omega
  have hch : 0 ≤ ceilHalf h := by unfold ceilHalf; omega
  have hcc : 0 ≤ ceilHalf w * ceilHalf h := Int.mul_nonneg hcw hch
  rcases hfmt with hfm | ⟨hfm, hwe, hhe⟩
  · have hsz : sizes = [w * h, 2 * ceilHalf w * ceilHalf h] := by
      rw [hfm] at hp
      exact (Option.some.inj hp).symm
    have hoff : f.planeOffsets = [0, w * h, -1, -1] := by
      rw [fe]
      unfold FrameData.calculatePlaneOffsets
      simp only [hfm, if_true]
      rw [wrapInt32_of_range (w * h) (by omega) (by omega)]
      rfl
    have hds : f.dataSize = w * h + 2 * ceilHalf w * ceilHalf h := by
      rw [fd, hsum, hsz]; simp
    have e2 : 2 * ceilHalf w * ceilHalf h = 2 * (ceilHalf w * ceilHalf h) := by ring
    have g0 : f.getPlanOffset ((0 : Nat) : Int) = 0 := by
      unfold FrameData.getPlanOffset; rw [hoff]; simp
    have g1 : f.getPlanOffset ((1 : Nat) : Int) = w * h := by
      unfold FrameData.getPlanOffset; rw [hoff]
      simp only [Nat.cast_one, Int.toNat_one, List.getD_cons_succ, List.getD_cons_zero]
      rw [if_pos ⟨by omega, by omega, by omega⟩]
    subst hsz
    constructor
    · intro p hpl
      simp only [List.length_cons, List.length_nil] at hpl
      interval_cases p
      · rw [g0, hds]; simp only [List.getD_cons_zero]; omega
      · rw [g1, hds]; simp only [List.getD_cons_succ, List.getD_cons_zero]; omega
    · intro p hpl q hql hne
      simp only [List.length_cons, List.length_nil] at hpl hql
      interval_cases p <;> interval_cases q
      · exact absurd rfl hne
      · left; rw [g0, g1]; simp only [List.getD_cons_zero]; omega
      · right; rw [g0, g1]; simp only [List.getD_cons_zero]; omega
      · exact absurd rfl hne
  · obtain ⟨a, rfl⟩ : ∃ a, w = 2 * a := ⟨w / 2, by omega⟩
    obtain ⟨b, rfl⟩ : ∃ b, h = 2 * b := ⟨h / 2, by omega⟩
    have hca : ceilHalf (2 * a) = a := by unfold ceilHalf; omega
    have hcb : ceilHalf (2 * b) = b := by unfold ceilHalf; omega
    have e : (2 * a) * (2 * b) = 4 * (a * b) := by ring
    have hsz : sizes = [4 * (a * b), a * b, a * b] := by
      rw [hfm] at hp
      have := (Option.some.inj hp).symm
      rw [this]
      show [(2 * a) * (2 * b), ceilHalf (2 * a) * ceilHalf (2 * b),
        ceilHalf (2 * a) * ceilHalf (2 * b)] = _
      rw [hca, hcb, e]
    rw [e] at hpos hb
    have hoff : f.planeOffsets = [0, 4 * (a * b), 5 * (a * b), -1] := by
      rw [fe]
      unfold FrameData.calculatePlaneOffsets
      have hn : ¬ (AV_PIX_FMT_YUV420P = AV_PIX_FMT_NV12) := by decide
      simp only [hfm, hn, if_true, if_false, e]
      generalize a * b = P at hpos hb ⊢
      rw [wrapInt32_of_range (4 * P) (by omega) (by omega),
        Int.tdiv_eq_ediv (by omega) (by omega)]
      have e5 : 4 * P + 4 * P / 4 = 5 * P := by omega
      rw [e5, wrapInt32_of_range (5 * P) (by omega) (by omega)]
      rfl
    have hds : f.dataSize = 6 * (a * b) := by
      rw [fd, hsum, hsz]; simp only [List.sum_cons, List.sum_nil]; ring
    generalize a * b = P at hpos hb hsz hoff hds
    have g0 : f.getPlanOffset ((0 : Nat) : Int) = 0 := by
      unfold FrameData.getPlanOffset; rw [hoff]; simp
    have g1 : f.getPlanOffset ((1 : Nat) : Int) = 4 * P := by
      unfold FrameData.getPlanOffset; rw [hoff]
      simp only [Nat.cast_one, Int.toNat_one, List.getD_cons_succ, List.getD_cons_zero]
      rw [if_pos ⟨by omega, by omega, by omega⟩]
    have g2 : f.getPlanOffset ((2 : Nat) : Int) = 5 * P := by
      unfold FrameData.getPlanOffset; rw [hoff]
      have t : ((2 : Nat) : Int).toNat = 2 := rfl
      simp only [t, List.getD_cons_succ, List.getD_cons_zero]
      rw [if_pos ⟨by omega, by omega, by omega⟩]
    subst hsz
    constructor
    · intro p hpl
      simp only [List.length_cons, List.length_nil] at hpl
      interval_cases p
      · rw [g0, hds]; simp only [List.getD_cons_zero]; omega
      · rw [g1, hds]; simp only [List.getD_cons_succ, List.getD_cons_zero]; omega
      · rw [g2, hds]; simp only [List.getD_cons_succ, List.getD_cons_zero]; omega
    · intro p hpl q hql hne
      simp only [List.length_cons, List.length_nil] at hpl hql
      interval_cases p <;> interval_cases q
      · exact absurd rfl hne
      · left; rw [g0, g1]; simp only [List.getD_cons_zero]; omega
      · left; rw [g0, g2]; simp only [List.getD_cons_zero]; omega
      · right; rw [g0, g1]; simp only [List.getD_cons_zero]; omega
      · exact absurd rfl hne
      · left; rw [g1, g2]; simp only [List.getD_cons_succ, List.getD_cons_zero]; omega
      · right; rw [g0, g2]; simp only [List.getD_cons_zero]; omega
      · right; rw [g1, g2]; simp only [List.getD_cons_succ, List.getD_cons_zero]; omega
      · exact absurd rfl hne

/-- C13 (the code at failing inputs): `calculatePlaneOffsets` has no case for
YUV444P, so for the valid 2x2 YUV444P frame `getPlanOffset` answers 0 for all
three planes and the three 4-byte planes overlap. For the valid 3x3 YUV420P frame
the V plane is put at 9 + 9/4 = 11, inside the 4 bytes of the U plane that starts
at 9. -/
theorem plane_offsets_overlap :
    av_image_get_buffer_size AV_PIX_FMT_YUV444P 2 2 = some 12 ∧
    FrameData.new 2 2 AV_PIX_FMT_YUV444P 12 true = some exYuv444 ∧
    imagePlaneSizes AV_PIX_FMT_YUV444P 2 2 = some [4, 4, 4] ∧
    exYuv444.getPlanOffset 0 = 0 ∧ exYuv444.getPlanOffset 1 = 0 ∧
    exYuv444.getPlanOffset 2 = 0 ∧ ¬ exYuv444.PlanesDisjoint [4, 4, 4] ∧
    av_image_get_buffer_size AV_PIX_FMT_YUV420P 3 3 = some 17 ∧
    FrameData.new 3 3 AV_PIX_FMT_YUV420P 17 true = some exYuv420Odd ∧
    imagePlaneSizes AV_PIX_FMT_YUV420P 3 3 = some [9, 4, 4] ∧
    exYuv420Odd.getPlanOffset 1 = 9 ∧ exYuv420Odd.getPlanOffset 2 = 11 ∧
    ¬ exYuv420Odd.PlanesDisjoint [9, 4, 4] := by
  unfold FrameData.PlanesDisjoint
  decide

/-- The members that the move operations transfer. -/
theorem move_keeps_scalar_members (f this : FrameData) :
    f.moveConstruct.1.width = f.width ∧ f.moveConstruct.1.height = f.height ∧
    f.moveConstruct.1.format = f.format ∧ f.moveConstruct.1.timestamp = f.timestamp ∧
    f.moveConstruct.1.dataSize = f.dataSize ∧ f.moveConstruct.1.data = f.data ∧
    (this.moveAssign f).1.width = f.width ∧ (this.moveAssign f).1.height = f.height ∧
    (this.moveAssign f).1.format = f.format ∧ (this.moveAssign f).1.timestamp = f.timestamp ∧
    (this.moveAssign f).1.dataSize = f.dataSize ∧ (this.moveAssign f).1.data = f.data :=
  ⟨rfl, rfl, rfl, rfl, rfl, rfl, rfl, rfl, rfl, rfl, rfl, rfl⟩

/-- C14 (the code at a failing input): the 2x2 YUV420P frame reports plane
offsets 4 and 5 for planes 1 and 2; the object move-constructed from it reports 0
for both (its `planeOffsets_` holds the default -1), and the 4x4 NV12 object that
is move-assigned from it keeps its own offsets (16 for plane 1, 0 for plane 2).
Width, height, format, timestamp and `dataSize` are transferred. -/
theorem move_loses_plane_offsets :
    exYuv420.getPlanOffset 1 = 4 ∧ exYuv420.getPlanOffset 2 = 5 ∧
    exYuv420.moveConstruct.1.getPlanOffset 1 = 0 ∧
    exYuv420.moveConstruct.1.getPlanOffset 2 = 0 ∧
    exYuv420.moveConstruct.1.planeOffsets = [-1, -1, -1, -1] ∧
    (exNv12.moveAssign exYuv420).1.getPlanOffset 1 = 16 ∧
    (exNv12.moveAssign exYuv420).1.getPlanOffset 2 = 0 ∧
    exYuv420.moveConstruct.1.dataSize = exYuv420.dataSize ∧
    (exNv12.moveAssign exYuv420).1.dataSize = exYuv420.dataSize := by
  decide

end TurboVision

/-! ## Theorems: probing for hardware -/

namespace TurboVision

/-- When none of the listed backends can be created, all of them are tried in
order and the probe fails with a null context. -/
theorem tryDevices_none (env : HwEnv) (l : List AVHWDeviceType) :
    ∀ m : HardwareManager, (∀ d ∈ l, env.creates d = false) →
      (HardwareManager.tryDevices env m l).ok = false ∧
      (HardwareManager.tryDevices env m l).attempted = l := by
  induction l with
  | nil => intro m _; exact ⟨rfl, rfl⟩
  | cons d rest ih =>
    intro m h
    have hd : env.creates d = false := h d (List.mem_cons_self d rest)
    have hr := ih { m with hwContext := none } (fun x hx => h x (List.mem_cons_of_mem d hx))
    unfold HardwareManager.tryDevices
    simp only [hd, Bool.false_eq_true, if_false]
    exact ⟨hr.1, by rw [hr.2]⟩

/-- The probe stops at the first backend that can be created: the backends
before it were tried and failed, the ones after it are not tried. -/
theorem tryDevices_first (env : HwEnv) (pre : List AVHWDeviceType) (d : AVHWDeviceType)
    (post : List AVHWDeviceType) :
    ∀ m : HardwareManager, (∀ x ∈ pre, env.creates x = false) → env.creates d = true →
      HardwareManager.tryDevices env m (pre ++ d :: post) =
        { ok := true, manager := { hwContext := some d, hwType := d },
          attempted := pre ++ [d] } := by
  induction pre with
  | nil =>
    intro m _ hd
    simp [HardwareManager.tryDevices, hd]
  | cons x rest ih =>
    intro m h hd
    have hx : env.creates x = false := h x (List.mem_cons_self x rest)
    have hr := ih { m with hwContext := none } (fun y hy => h y (List.mem_cons_of_mem x hy)) hd
    rw [List.cons_append, HardwareManager.tryDevices]
    simp only [hx, Bool.false_eq_true, if_false]
    rw [hr]
    rfl

/-- A probe that succeeds holds a context. -/
theorem tryDevices_ok (env : HwEnv) (l : List AVHWDeviceType) :
    ∀ m : HardwareManager, (HardwareManager.tryDevices env m l).ok = true →
      (HardwareManager.tryDevices env m l).manager.hwContext.isSome = true := by
  induction l with
  | nil => intro m h; simp [HardwareManager.tryDevices] at h
  | cons d rest ih =>
    intro m h
    unfold HardwareManager.tryDevices at h ⊢
    by_cases hd : env.creates d = true
    · simp [hd]
    · simp only [hd, if_false] at h ⊢
      exact ih _ h

/-- C15 as stated fails: on a machine without a usable backend the constructor
of `HardwareManager` throws for every requested `DeviceType`; no manager in
software mode is produced. -/
theorem hardware_manager_throws_without_hardware :
    HardwareManager.new exNoHardware DeviceType.AUTO
      = Except.error "Failed to initialize hardware device" ∧
    HardwareManager.new exNoHardware DeviceType.NVIDIA_CUDA
      = Except.error "Failed to initialize hardware device" ∧
    HardwareManager.new exNoHardware DeviceType.INTEL_QSV
      = Except.error "Failed to initialize hardware device" ∧
    HardwareManager.new exNoHardware DeviceType.AMD_AMF
      = Except.error "Failed to initialize hardware device" :=
  ⟨rfl, rfl, rfl, rfl⟩

/-- C15 (amended): when no attempted backend initialises, constructing the
`HardwareManager` throws `Exception("Failed to initialize hardware device")`;
the probing functions `isHardwareAvailable(type)` and `hasHardwareSupport()`
catch it and answer false without raising. A manager that was constructed
always has `isHardwareAvailable() = true`. -/
theorem probe_without_hardware (env : HwEnv) (type : DeviceType)
    (hnone : ∀ d ∈ probeList type, env.creates d = false) :
    HardwareManager.new env type = Except.error "Failed to initialize hardware device" ∧
    isHardwareAvailable env type = false ∧
    (type = DeviceType.AUTO → hasHardwareSupport env = false) ∧
    (∀ (e : HwEnv) (t : DeviceType) (m : HardwareManager),
      HardwareManager.new e t = Except.ok m → m.isHardwareAvailable = true) := by
  have h1 := tryDevices_none env (probeList type) { hwContext := none, hwType := .NONE } hnone
  have hnew : HardwareManager.new env type
      = Except.error "Failed to initialize hardware device" := by
    unfold HardwareManager.new HardwareManager.initializeDevice
    simp [h1.1]
  refine ⟨hnew, ?_, ?_, ?_⟩
  · unfold isHardwareAvailable
    rw [hnew]
  · intro ht
    unfold hasHardwareSupport
    rw [← ht, hnew]
  · intro e t m hm
    unfold HardwareManager.new HardwareManager.initializeDevice at hm
    by_cases hok : (HardwareManager.tryDevices e { hwContext := none, hwType := .NONE }
        (probeList t)).ok = true
    · simp only [hok, Bool.not_true, Bool.false_eq_true, if_false] at hm
      have := tryDevices_ok e (probeList t) _ hok
      rw [Except.ok.inj hm] at this
      exact this
    · simp [hok] at hm

/-- C15 (amended) at a concrete machine: no backend usable, `AUTO` requested. -/
theorem probe_without_hardware_witness :
    HardwareManager.new exNoHardware DeviceType.AUTO
      = Except.error "Failed to initialize hardware device" ∧
    isHardwareAvailable exNoHardware DeviceType.AUTO = false :=
  have h := probe_without_hardware exNoHardware DeviceType.AUTO (by decide)
  ⟨h.1, h.2.1⟩

/-- C16: with `DeviceType::AUTO`, `initializeDevice` tries CUDA, QSV, DRM in this
order, accepts the first whose creation succeeds and tries none after it (and
fails after trying all three when none succeeds); with a specific `DeviceType`
it attempts exactly the one backend `convertDeviceType` gives and succeeds
exactly when that one initialises. -/
theorem probe_order (env : HwEnv) (m : HardwareManager) :
    probeList DeviceType.AUTO = [AVHWDeviceType.CUDA, AVHWDeviceType.QSV, AVHWDeviceType.DRM] ∧
    (∀ (pre : List AVHWDeviceType) (d : AVHWDeviceType) (post : List AVHWDeviceType),
      [AVHWDeviceType.CUDA, AVHWDeviceType.QSV, AVHWDeviceType.DRM] = pre ++ d :: post →
      (∀ x ∈ pre, env.creates x = false) → env.creates d = true →
      m.initializeDevice env DeviceType.AUTO =
        { ok := true, manager := { hwContext := some d, hwType := d },
          attempted := pre ++ [d] }) ∧
    ((∀ x ∈ [AVHWDeviceType.CUDA, AVHWDeviceType.QSV, AVHWDeviceType.DRM],
        env.creates x = false) →
      (m.initializeDevice env DeviceType.AUTO).ok = false ∧
      (m.initializeDevice env DeviceType.AUTO).attempted =
        [AVHWDeviceType.CUDA, AVHWDeviceType.QSV, AVHWDeviceType.DRM]) ∧
    (∀ t : DeviceType, t ≠ DeviceType.AUTO →
      (m.initializeDevice env t).attempted = [convertDeviceType t] ∧
      (m.initializeDevice env t).ok = env.creates (convertDeviceType t) ∧
      (env.creates (convertDeviceType t) = true →
        (m.initializeDevice env t).manager =
          { hwContext := some (convertDeviceType t), hwType := convertDeviceType t })) := by
  have hauto : probeList DeviceType.AUTO
      = [AVHWDeviceType.CUDA, AVHWDeviceType.QSV, AVHWDeviceType.DRM] := by decide
  refine ⟨hauto, ?_, ?_, ?_⟩
  · intro pre d post hl hpre hd
    unfold HardwareManager.initializeDevice
    rw [hauto, hl]
    exact tryDevices_first env pre d post m hpre hd
  · intro hall
    unfold HardwareManager.initializeDevice
    rw [hauto]
    exact tryDevices_none env _ m hall
  · intro t ht
    have hl : probeList t = [convertDeviceType t] := by
      unfold probeList
      rw [if_neg ht]
    unfold HardwareManager.initializeDevice
    rw [hl]
    by_cases hc : env.creates (convertDeviceType t) = true
    · simp [HardwareManager.tryDevices, hc]
    · simp [HardwareManager.tryDevices, hc]

/-- What `getDeviceInfo` returns: for a manager whose `hwType_` is in the table,
the name, description and type of that entry with `available = true`; for a
manager with `hwType_ = AV_HWDEVICE_TYPE_NONE`, empty strings, no formats, and
whatever the two uninitialised members hold. -/
theorem getDeviceInfo_spec (m : HardwareManager) (uninitType : DeviceType)
    (uninitAvailable : Bool) (swFormats : Option (List AVPixelFormat)) :
    (∀ mp ∈ deviceMappings, m.hwType = mp.ffmpegType →
      m.getDeviceInfo uninitType uninitAvailable swFormats =
        { name := mp.name, description := mp.description, type := mp.type, available := true,
          supportedFormats := swFormats.getD [] }) ∧
    (m.hwType = AVHWDeviceType.NONE →
      m.getDeviceInfo uninitType uninitAvailable swFormats =
        { name := "", description := "", type := uninitType, available := uninitAvailable,
          supportedFormats := [] }) := by
  constructor
  · intro mp hmp ht
    unfold HardwareManager.getDeviceInfo
    rw [ht]
    simp only [deviceMappings, List.mem_cons, List.mem_singleton, List.not_mem_nil,
      or_false] at hmp
    rcases hmp with rfl | rfl | rfl <;> rfl
  · intro ht
    unfold HardwareManager.getDeviceInfo
    rw [ht]
    rfl

/-- C17 (the code at a failing input): a moved-from manager has
`hwType_ = AV_HWDEVICE_TYPE_NONE`; `getDeviceInfo` then returns empty strings and
no formats, but `available` is never assigned: it is true whenever the
uninitialised member happens to hold true. -/
theorem getDeviceInfo_unprobed_available :
    exCudaManager.moveConstruct.2 = { hwContext := none, hwType := AVHWDeviceType.NONE } ∧
    (exCudaManager.moveConstruct.2.getDeviceInfo DeviceType.AUTO true none).available = true ∧
    (exCudaManager.moveConstruct.2.getDeviceInfo DeviceType.AUTO true none).name = "" ∧
    (exCudaManager.moveConstruct.2.getDeviceInfo DeviceType.AUTO true none).description = "" ∧
    (exCudaManager.moveConstruct.2.getDeviceInfo DeviceType.AUTO true none).supportedFormats
      = [] ∧
    (exCudaManager.getDeviceInfo DeviceType.AUTO false (some [AV_PIX_FMT_NV12])) =
      { name := "NVIDIA CUDA", description := "NVIDIA GPU using CUDA",
        type := DeviceType.NVIDIA_CUDA, available := true,
        supportedFormats := [AV_PIX_FMT_NV12] } := by
  decide

end TurboVision

/-! ## Theorems: order, timestamps and counters of the transmission pipeline -/

namespace TurboVision

/-- The packet loop only adds the sizes of written packets to the byte count. -/
theorem transmitPackets_ge (packets : List (Int × Bool)) (h : ∀ p ∈ packets, 0 ≤ p.1) :
    ∀ (success : Bool) (bytes : Int), bytes ≤ (transmitPackets packets success bytes).2 := by
  induction packets with
  | nil => intro success bytes; exact le_refl _
  | cons p rest ih =>
    intro success bytes
    obtain ⟨size, writeOk⟩ := p
    have hs : 0 ≤ size := h (size, writeOk) (List.mem_cons_self _ _)
    have hr := ih (fun q hq => h q (List.mem_cons_of_mem _ hq))
    unfold transmitPackets
    cases writeOk with
    | true =>
      simp only [if_true]
      have := hr true (bytes + size)
      omega
    | false =>
      simp only [Bool.false_eq_true, if_false]
      exact hr success bytes

/-- The frame an iteration of the transmission loop hands on: the front of the
queue stamped with the current `pts`, when the server is running. -/
theorem serverLoopIter_dequeued (s : RTSPServer) (env : LoopEnv) :
    (s.serverLoopIter env).2 =
      if s.isRunning then s.frameQueue.head?.map (fun f => { f with pts := s.pts }) else none := by
  unfold RTSPServer.serverLoopIter
  cases hr : s.isRunning with
  | false => simp
  | true =>
    cases hq : s.frameQueue with
    | nil => simp [hq]
    | cons frame rest =>
      simp only [Bool.not_true, Bool.false_eq_true, if_false, if_true, List.head?_cons,
        Option.map_some']
      cases env.statsDue <;> rfl

/-- The members an iteration of the transmission loop leaves alone or steps:
`droppedFrames` is unchanged, `pts` grows by one exactly when a frame is
dequeued, and the running flag is unchanged. -/
theorem serverLoopIter_members (s : RTSPServer) (env : LoopEnv) :
    (s.serverLoopIter env).1.stats.droppedFrames = s.stats.droppedFrames ∧
    (s.serverLoopIter env).1.pts =
      (if s.isRunning = true ∧ s.frameQueue ≠ [] then s.pts + 1 else s.pts) ∧
    (s.serverLoopIter env).1.isRunning = s.isRunning := by
  unfold RTSPServer.serverLoopIter
  cases hr : s.isRunning with
  | false => simp [hr]
  | true =>
    cases hq : s.frameQueue with
    | nil => simp [hq, hr]
    | cons frame rest =>
      simp only [Bool.not_true, Bool.false_eq_true, if_false, if_true, true_and, ne_eq,
        reduceCtorEq, not_false_eq_true]
      cases env.statsDue <;> simp only [RTSPServer.updateStats] <;>
        split <;> simp [RTSPServer.encodeAndTransmit, hr] <;> split <;> simp [hr]

/-- An iteration of the transmission loop lowers neither `framesTransferred` nor
`bytesTransferred`, provided no packet has a negative size. -/
theorem serverLoopIter_counters (s : RTSPServer) (env : LoopEnv)
    (h : ∀ p ∈ env.encode.packets, 0 ≤ p.1) :
    s.stats.framesTransferred ≤ (s.serverLoopIter env).1.stats.framesTransferred ∧
    s.stats.bytesTransferred ≤ (s.serverLoopIter env).1.stats.bytesTransferred := by
  have hb := transmitPackets_ge env.encode.packets h false s.stats.bytesTransferred
  unfold RTSPServer.serverLoopIter
  cases hr : s.isRunning with
  | false => simp
  | true =>
    cases hq : s.frameQueue with
    | nil => simp [hq]
    | cons frame rest =>
      simp only [Bool.not_true, Bool.false_eq_true, if_false, if_true]
      cases env.statsDue <;> simp only [RTSPServer.updateStats] <;>
        split <;> simp [RTSPServer.encodeAndTransmit] <;> split <;> (try simp) <;>
        exact hb

/-- A recorded `pushFrame` call that is rejected changes neither the server nor
the record. -/
theorem flowStep_push_false (s : RTSPServer) (log : ServerLog) (i : PushInput)
    (h : (s.pushFrame i.frameData i.size i.allocOk).1 = false) :
    s.flowStep log (FlowOp.push i) = (s, log) := by
  simp only [RTSPServer.flowStep, h, Bool.false_eq_true, if_false]
  rw [pushFrame_false s _ _ _ h]

/-- A recorded `pushFrame` call that is accepted: the new queue, counter and
record. -/
theorem flowStep_push_true (s : RTSPServer) (log : ServerLog) (i : PushInput)
    (h : (s.pushFrame i.frameData i.size i.allocOk).1 = true) :
    ∃ f, PushInput.frame s.width s.height i = some f ∧
      (s.flowStep log (FlowOp.push i)).1.frameQueue =
        (s.frameQueue ++ [f]).drop ((s.frameQueue ++ [f]).length - 30) ∧
      (s.flowStep log (FlowOp.push i)).1.stats.droppedFrames =
        s.stats.droppedFrames + (((s.frameQueue ++ [f]).length - 30 : Nat) : Int) ∧
      (s.flowStep log (FlowOp.push i)).1.pts = s.pts ∧
      (s.flowStep log (FlowOp.push i)).2 =
        { log with
          pushed := log.pushed ++ [f]
          removed := log.removed ++
            ((s.frameQueue ++ [f]).take ((s.frameQueue ++ [f]).length - 30)).map
              (fun x => (x, false)) } := by
  obtain ⟨f, hf, _, hs⟩ := pushFrame_true s i h
  refine ⟨f, hf, ?_, ?_, ?_, ?_⟩ <;>
    simp only [RTSPServer.flowStep, h, if_true, hf] <;> rw [hs]

/-- A recorded loop iteration that dequeues nothing changes neither the queue,
the drop counter, `pts` nor the record. -/
theorem flowStep_loop_none (s : RTSPServer) (log : ServerLog) (env : LoopEnv)
    (h : (s.serverLoopIter env).2 = none) :
    (s.flowStep log (FlowOp.loopIter env)).1.frameQueue = s.frameQueue ∧
    (s.flowStep log (FlowOp.loopIter env)).1.stats.droppedFrames = s.stats.droppedFrames ∧
    (s.flowStep log (FlowOp.loopIter env)).1.pts = s.pts ∧
    (s.flowStep log (FlowOp.loopIter env)).2 = log := by
  have hq := serverLoopIter_frameQueue s env
  obtain ⟨hd, hp, _⟩ := serverLoopIter_members s env
  have hdq := serverLoopIter_dequeued s env
  rw [h] at hdq
  simp only [RTSPServer.flowStep, h]
  refine ⟨?_, hd, ?_, trivial⟩
  · rw [hq]
    cases hr : s.isRunning with
    | false => simp
    | true =>
      rw [hr] at hdq
      cases hl : s.frameQueue with
      | nil => simp
      | cons a l => rw [hl] at hdq; simp at hdq
  · rw [hp]
    cases hr : s.isRunning with
    | false => simp
    | true =>
      rw [hr] at hdq
      cases hl : s.frameQueue with
      | nil => simp
      | cons a l => rw [hl] at hdq; simp at hdq

/-- A recorded loop iteration that dequeues a frame: it is the front of the queue
stamped with the current `pts`; the queue loses its front, `pts` grows by one and
the drop counter stays. -/
theorem flowStep_loop_some (s : RTSPServer) (log : ServerLog) (env : LoopEnv)
    (stamped : AVFrame) (h : (s.serverLoopIter env).2 = some stamped) :
    ∃ frame rest, s.frameQueue = frame :: rest ∧ stamped = { frame with pts := s.pts } ∧
      (s.flowStep log (FlowOp.loopIter env)).1.frameQueue = rest ∧
      (s.flowStep log (FlowOp.loopIter env)).1.stats.droppedFrames = s.stats.droppedFrames ∧
      (s.flowStep log (FlowOp.loopIter env)).1.pts = s.pts + 1 ∧
      (s.flowStep log (FlowOp.loopIter env)).2 =
        { log with
          dequeued := log.dequeued ++ [stamped]
          removed := log.removed ++ [(frame, true)] } := by
  have hq := serverLoopIter_frameQueue s env
  obtain ⟨hd, hp, _⟩ := serverLoopIter_members s env
  have hdq := serverLoopIter_dequeued s env
  rw [h] at hdq
  cases hr : s.isRunning with
  | false => rw [hr] at hdq; simp at hdq
  | true =>
    rw [hr] at hdq hq
    cases hl : s.frameQueue with
    | nil => rw [hl] at hdq; simp at hdq
    | cons frame rest =>
      rw [hl] at hdq hq
      simp only [if_true, List.head?_cons, Option.map_some', Option.some.injEq] at hdq
      simp only [if_true, List.tail_cons] at hq
      refine ⟨frame, rest, rfl, hdq, ?_, ?_, ?_, ?_⟩
      · simp only [RTSPServer.flowStep, h]; exact hq
      · simp only [RTSPServer.flowStep, h]; exact hd
      · simp only [RTSPServer.flowStep, h]
        rw [hp, if_pos ⟨hr, by rw [hl]; simp⟩]
      · simp only [RTSPServer.flowStep, h, hl, List.take_succ_cons, List.take_zero,
          List.map_cons, List.map_nil]

/-- Splitting a list of marked entries by the mark loses nothing. -/
theorem filter_mark_length (l : List (AVFrame × Bool)) :
    (l.filter (fun x => x.2)).length + (l.filter (fun x => !x.2)).length = l.length := by
  induction l with
  | nil => rfl
  | cons a rest ih =>
    obtain ⟨f, b⟩ := a
    cases b <;> simp [List.filter_cons] <;> omega

/-- Among frames marked as evicted none is marked as transmitted. -/
theorem marked_evicted_filter_transmitted (l : List AVFrame) :
    (l.map (fun x => (x, false))).filter (fun x => x.2) = [] := by
  induction l with
  | nil => rfl
  | cons a rest ih => simp [List.filter_cons, ih]

/-- Frames marked as evicted all count as evicted. -/
theorem marked_evicted_filter_evicted (l : List AVFrame) :
    (l.map (fun x => (x, false))).filter (fun x => !x.2) = l.map (fun x => (x, false)) := by
  induction l with
  | nil => rfl
  | cons a rest ih => simp [List.filter_cons, ih]

/-- One recorded operation keeps the three facts that tie the record to the
server: the pushed frames are the removed ones followed by the queue, the
dequeued frames are the removed ones marked as transmitted, and the drop counter
counts the removed ones marked as evicted. -/
theorem flowStep_order (s : RTSPServer) (log : ServerLog) (op : FlowOp) (d0 : Int)
    (h1 : log.pushed = log.removed.map Prod.fst ++ s.frameQueue)
    (h2 : log.dequeued.map AVFrame.clearPts = log.transmitted.map AVFrame.clearPts)
    (h3 : s.stats.droppedFrames = d0 + (log.evicted.length : Int)) :
    (s.flowStep log op).2.pushed =
      (s.flowStep log op).2.removed.map Prod.fst ++ (s.flowStep log op).1.frameQueue ∧
    (s.flowStep log op).2.dequeued.map AVFrame.clearPts =
      (s.flowStep log op).2.transmitted.map AVFrame.clearPts ∧
    (s.flowStep log op).1.stats.droppedFrames =
      d0 + ((s.flowStep log op).2.evicted.length : Int) := by
  cases op with
  | push i =>
    cases hr : (s.pushFrame i.frameData i.size i.allocOk).1 with
    | false =>
      rw [flowStep_push_false s log i hr]
      exact ⟨h1, h2, h3⟩
    | true =>
      obtain ⟨f, _, hq, hd, _, hl⟩ := flowStep_push_true s log i hr
      rw [hq, hd, hl]
      have hT : ((s.frameQueue ++ [f]).take ((s.frameQueue ++ [f]).length - 30)).length
          = (s.frameQueue ++ [f]).length - 30 := by
        rw [List.length_take]; omega
      have hTD := List.take_append_drop ((s.frameQueue ++ [f]).length - 30) (s.frameQueue ++ [f])
      generalize (s.frameQueue ++ [f]).take ((s.frameQueue ++ [f]).length - 30) = T at hT hTD ⊢
      generalize (s.frameQueue ++ [f]).drop ((s.frameQueue ++ [f]).length - 30) = D at hTD ⊢
      refine ⟨?_, ?_, ?_⟩
      · simp only [List.map_append, List.map_map, List.append_assoc]
        have e : (Prod.fst ∘ fun x : AVFrame => (x, false)) = id := rfl
        rw [h1, e, List.map_id, hTD]
        simp
      · simp only [ServerLog.transmitted, List.filter_append, List.map_append,
          marked_evicted_filter_transmitted, List.map_nil, List.append_nil]
        exact h2
      · simp only [ServerLog.evicted, List.filter_append, List.map_append, List.length_append,
          List.length_map, marked_evicted_filter_evicted]
        rw [hT, h3]
        simp only [ServerLog.evicted, List.length_map, List.length_append]
        push_cast
        ring
  | loopIter env =>
    cases hr : (s.serverLoopIter env).2 with
    | none =>
      obtain ⟨hq, hd, _, hl⟩ := flowStep_loop_none s log env hr
      rw [hq, hd, hl]
      exact ⟨h1, h2, h3⟩
    | some stamped =>
      obtain ⟨frame, rest, hs, hst, hq, hd, _, hl⟩ := flowStep_loop_some s log env stamped hr
      rw [hq, hd, hl]
      refine ⟨?_, ?_, ?_⟩
      · simp only [List.map_append, List.map_cons, List.map_nil, List.append_assoc,
          List.singleton_append]
        rw [h1, hs]
      · simp only [ServerLog.transmitted, List.filter_append, List.map_append, List.filter_cons,
          List.filter_nil, if_true, List.map_cons, List.map_nil]
        have e : stamped.clearPts = frame.clearPts := by rw [hst]; rfl
        rw [e]
        simpa [ServerLog.transmitted] using h2
      · simp only [ServerLog.evicted, List.filter_append, List.filter_cons, List.filter_nil,
          Bool.not_true, Bool.false_eq_true, if_false, List.append_nil]
        exact h3

/-- The three facts of `flowStep_order` hold along every sequence of recorded
operations. -/
theorem flow_order (ops : List FlowOp) (d0 : Int) :
    ∀ (s : RTSPServer) (log : ServerLog),
      log.pushed = log.removed.map Prod.fst ++ s.frameQueue →
      log.dequeued.map AVFrame.clearPts = log.transmitted.map AVFrame.clearPts →
      s.stats.droppedFrames = d0 + (log.evicted.length : Int) →
      (s.flow log ops).2.pushed =
        (s.flow log ops).2.removed.map Prod.fst ++ (s.flow log ops).1.frameQueue ∧
      (s.flow log ops).2.dequeued.map AVFrame.clearPts =
        (s.flow log ops).2.transmitted.map AVFrame.clearPts ∧
      (s.flow log ops).1.stats.droppedFrames =
        d0 + ((s.flow log ops).2.evicted.length : Int) := by
  induction ops with
  | nil => intro s log h1 h2 h3; exact ⟨h1, h2, h3⟩
  | cons op rest ih =>
    intro s log h1 h2 h3
    obtain ⟨g1, g2, g3⟩ := flowStep_order s log op d0 h1 h2 h3
    exact ih _ _ g1 g2 g3

/-- C18: on a running server that starts with an empty queue, after any sequence
of `pushFrame` calls and transmission-loop iterations the frames accepted by
`pushFrame`, in call order, are the frames that left the front of the queue, in
that order, followed by the frames still queued; each frame that left was either
dequeued for transmission or evicted; the dequeued ones are, in order, what the
loop handed on (so they form a subsequence of the pushed frames), and the
evicted ones are as many as `droppedFrames` has grown by. -/
theorem transmission_order (s : RTSPServer) (ops : List FlowOp) (hrun : s.isRunning = true)
    (hq : s.frameQueue = []) :
    (s.flow ServerLog.empty ops).2.pushed =
      (s.flow ServerLog.empty ops).2.removed.map Prod.fst ++
        (s.flow ServerLog.empty ops).1.frameQueue ∧
    (s.flow ServerLog.empty ops).2.dequeued.map AVFrame.clearPts =
      (s.flow ServerLog.empty ops).2.transmitted.map AVFrame.clearPts ∧
    (s.flow ServerLog.empty ops).1.stats.droppedFrames =
      s.stats.droppedFrames + ((s.flow ServerLog.empty ops).2.evicted.length : Int) ∧
    List.Sublist ((s.flow ServerLog.empty ops).2.dequeued.map AVFrame.clearPts)
      ((s.flow ServerLog.empty ops).2.pushed.map AVFrame.clearPts) ∧
    (s.flow ServerLog.empty ops).2.pushed.length =
      (s.flow ServerLog.empty ops).2.dequeued.length +
        (s.flow ServerLog.empty ops).2.evicted.length +
        (s.flow ServerLog.empty ops).1.frameQueue.length := by
  have _ := hrun
  obtain ⟨g1, g2, g3⟩ := flow_order ops s.stats.droppedFrames s ServerLog.empty
    (by simp [ServerLog.empty, hq]) (by simp [ServerLog.empty, ServerLog.transmitted])
    (by simp [ServerLog.empty, ServerLog.evicted])
  refine ⟨g1, g2, g3, ?_, ?_⟩
  · rw [g2]
    apply List.Sublist.map
    rw [g1]
    unfold ServerLog.transmitted
    exact ((List.filter_sublist _).map Prod.fst).trans (List.sublist_append_left _ _)
  · have hlen := congrArg List.length g2
    simp only [List.length_map] at hlen
    have hsum := filter_mark_length (s.flow ServerLog.empty ops).2.removed
    have hp := congrArg List.length g1
    simp only [List.length_append, List.length_map] at hp
    simp only [ServerLog.transmitted, List.length_map] at hlen
    simp only [ServerLog.evicted, List.length_map]
    omega

set_option maxRecDepth 20000

/-- C18 at a concrete run: one push, a loop iteration, 32 more pushes, a loop
iteration, on the started 2x2 server. -/
theorem transmission_order_witness :
    (exStarted.flow ServerLog.empty exFlow).2.pushed.length =
      (exStarted.flow ServerLog.empty exFlow).2.dequeued.length +
        (exStarted.flow ServerLog.empty exFlow).2.evicted.length +
        (exStarted.flow ServerLog.empty exFlow).1.frameQueue.length ∧
    (exStarted.flow ServerLog.empty exFlow).2.dequeued.length = 2 ∧
    (exStarted.flow ServerLog.empty exFlow).1.stats.droppedFrames = 2 :=
  ⟨(transmission_order exStarted exFlow rfl rfl).2.2.2.2, by decide, by decide⟩

/-- One recorded operation keeps the timestamp count: the dequeued frames carry
`p0, p0 + 1, ...` and the loop's `pts` is `p0` plus their number. -/
theorem flowStep_pts (s : RTSPServer) (log : ServerLog) (op : FlowOp) (p0 : Int)
    (h4 : log.dequeued.map (fun f => f.pts) =
      (List.range log.dequeued.length).map (fun i : Nat => p0 + (i : Int)))
    (h5 : s.pts = p0 + (log.dequeued.length : Int)) :
    (s.flowStep log op).2.dequeued.map (fun f => f.pts) =
      (List.range (s.flowStep log op).2.dequeued.length).map (fun i : Nat => p0 + (i : Int)) ∧
    (s.flowStep log op).1.pts = p0 + ((s.flowStep log op).2.dequeued.length : Int) := by
  cases op with
  | push i =>
    cases hr : (s.pushFrame i.frameData i.size i.allocOk).1 with
    | false =>
      rw [flowStep_push_false s log i hr]
      exact ⟨h4, h5⟩
    | true =>
      obtain ⟨f, _, _, _, hp, hl⟩ := flowStep_push_true s log i hr
      rw [hp, hl]
      exact ⟨h4, h5⟩
  | loopIter env =>
    cases hr : (s.serverLoopIter env).2 with
    | none =>
      obtain ⟨_, _, hp, hl⟩ := flowStep_loop_none s log env hr
      rw [hp, hl]
      exact ⟨h4, h5⟩
    | some stamped =>
      obtain ⟨frame, rest, _, hst, _, _, hp, hl⟩ := flowStep_loop_some s log env stamped hr
      rw [hp, hl]
      have hsp : stamped.pts = s.pts := by rw [hst]
      constructor
      · simp only [List.map_append, List.map_cons, List.map_nil, List.length_append,
          List.length_cons, List.length_nil, List.range_succ]
        rw [h4, hsp, h5]
      · simp only [List.length_append, List.length_cons, List.length_nil]
        rw [h5]
        push_cast
        ring

/-- The timestamp count holds along every sequence of recorded operations. -/
theorem flow_pts (ops : List FlowOp) (p0 : Int) :
    ∀ (s : RTSPServer) (log : ServerLog),
      log.dequeued.map (fun f => f.pts) =
        (List.range log.dequeued.length).map (fun i : Nat => p0 + (i : Int)) →
      s.pts = p0 + (log.dequeued.length : Int) →
      (s.flow log ops).2.dequeued.map (fun f => f.pts) =
        (List.range (s.flow log ops).2.dequeued.length).map (fun i : Nat => p0 + (i : Int)) := by
  induction ops with
  | nil => intro s log h4 _; exact h4
  | cons op rest ih =>
    intro s log h4 h5
    obtain ⟨g4, g5⟩ := flowStep_pts s log op p0 h4 h5
    exact ih _ _ g4 g5

/-- C19: within one run of the transmission loop, that is after a successful
`start` and whatever `pushFrame` calls and loop iterations follow, with whatever
encoder and write outcomes, the i-th frame dequeued (i = 0, 1, 2, ...) carries
presentation timestamp i when it is handed to the encoder; the timestamps are
strictly increasing in dequeue order. -/
theorem dequeued_pts_count (s : RTSPServer) (ops : List FlowOp) (hidle : s.isRunning = false) :
    (s.start true).1 = true ∧
    ((s.start true).2.flow ServerLog.empty ops).2.dequeued.map (fun f => f.pts) =
      (List.range ((s.start true).2.flow ServerLog.empty ops).2.dequeued.length).map
        (fun i : Nat => (i : Int)) ∧
    List.Pairwise (fun a b : Int => a < b)
      (((s.start true).2.flow ServerLog.empty ops).2.dequeued.map (fun f => f.pts)) := by
  have hst : (s.start true).1 = true ∧ (s.start true).2.pts = 0 := by
    simp [RTSPServer.start, hidle]
  have h := flow_pts ops 0 (s.start true).2 ServerLog.empty (by simp [ServerLog.empty])
    (by simp [ServerLog.empty, hst.2])
  have h2 : ((s.start true).2.flow ServerLog.empty ops).2.dequeued.map (fun f => f.pts) =
      (List.range ((s.start true).2.flow ServerLog.empty ops).2.dequeued.length).map
        (fun i : Nat => (i : Int)) := by
    rw [h]
    simp
  refine ⟨hst.1, h2, ?_⟩
  rw [h2]
  exact (List.pairwise_lt_range _).map _ (fun a b hab => by exact_mod_cast hab)

/-- C19 at a concrete run: the first dequeued frame meets an encoder that
rejects it, the second still gets timestamp 1. -/
theorem dequeued_pts_count_witness :
    (((RTSPServer.new 2 2).start true).2.flow ServerLog.empty exFlow).2.dequeued.map
      (fun f => f.pts) = [0, 1] :=
  (dequeued_pts_count (RTSPServer.new 2 2) exFlow rfl).2.1.trans (by decide)

/-- C20: a `pushFrame` call, an iteration of the transmission loop (whose packets
have non-negative sizes), an `updateStats` call and a `stop()` call each leave
`framesTransferred`, `bytesTransferred` and `droppedFrames` at least as large as
they were. -/
theorem counters_never_decrease (s : RTSPServer) (i : PushInput) (env : LoopEnv) (now : Int)
    (henv : ∀ p ∈ env.encode.packets, 0 ≤ p.1) :
    s.stats.CountersLe (s.pushFrame i.frameData i.size i.allocOk).2.stats ∧
    s.stats.CountersLe (s.serverLoopIter env).1.stats ∧
    s.stats.CountersLe (s.updateStats now).stats ∧
    s.stats.CountersLe s.stop.stats := by
  refine ⟨?_, ?_, ?_, ?_⟩
  · cases hr : (s.pushFrame i.frameData i.size i.allocOk).1 with
    | false =>
      rw [pushFrame_false s _ _ _ hr]
      exact ⟨le_refl _, le_refl _, le_refl _⟩
    | true =>
      obtain ⟨f, _, _, hs⟩ := pushFrame_true s i hr
      rw [hs]
      refine ⟨le_refl _, le_refl _, ?_⟩
      show s.stats.droppedFrames ≤
        s.stats.droppedFrames + (((s.frameQueue ++ [f]).length - 30 : Nat) : Int)
      omega
  · obtain ⟨h1, h2⟩ := serverLoopIter_counters s env henv
    obtain ⟨h3, _, _⟩ := serverLoopIter_members s env
    exact ⟨h1, h2, le_of_eq h3.symm⟩
  · exact ⟨le_refl _, le_refl _, le_refl _⟩
  · exact ⟨le_refl _, le_refl _, le_refl _⟩

/-- C20 at a concrete state: the started server after one push, with an encoder
that writes one packet of 1200 bytes and fails to write another. -/
theorem counters_never_decrease_witness :
    (exStarted.pushFrame (some (List.replicate 12 9)) 12 true).2.stats.CountersLe
      ((exStarted.pushFrame (some (List.replicate 12 9)) 12 true).2.serverLoopIter
        { encode := exEncode, statsDue := some 5 }).1.stats :=
  (counters_never_decrease (exStarted.pushFrame (some (List.replicate 12 9)) 12 true).2
    { frameData := none, size := 0, allocOk := true }
    { encode := exEncode, statsDue := some 5 } 5 (by decide)).2.1

end TurboVision

/-! ## Theorems: decoding a packet -/

namespace TurboVision

/-- Counting the callback invocations of a trace made of one invocation per frame. -/
theorem callbackCalls_map (frames : List ReceivedFrame) :
    callbackCalls (frames.map (fun f => Action.frameCallback f.frame)) = frames.length := by
  induction frames with
  | nil => rfl
  | cons f rest ih => simp [callbackCalls, ih]

/-- The receive loop over host-memory frames whose buffers can be allocated,
ended by a need-more-input result: one callback invocation per frame, in order,
and the result true. -/
theorem receiveLoop_host (s : VideoSource) (hcb : s.frameCallback = true)
    (frames : List ReceivedFrame) (success : Bool)
    (hhost : ∀ f ∈ frames, f.frame.hw_frames_ctx = false)
    (hok : ∀ f ∈ frames, f.frameDataOk = true) :
    s.receiveLoop frames .eagain success =
      (true, frames.map (fun f => Action.frameCallback f.frame)) := by
  induction frames generalizing success with
  | nil => rfl
  | cons f rest ih =>
    have h1 : f.frame.hw_frames_ctx = false := hhost f (List.mem_cons_self _ _)
    have h2 : f.frameDataOk = true := hok f (List.mem_cons_self _ _)
    have hr := ih (s.processFrame f.frame f.frameDataOk).1
      (fun g hg => hhost g (List.mem_cons_of_mem _ hg))
      (fun g hg => hok g (List.mem_cons_of_mem _ hg))
    rw [VideoSource.receiveLoop, h1]
    simp only [Bool.false_eq_true, if_false]
    rw [hr]
    simp [VideoSource.processFrame, h2, hcb]

/-- The object built for a decoded frame carries the frame's width, height and
format, and its `pts` as timestamp. -/
theorem frameDataFor_fields (frame : AVFrame) (bufferSize : Int) (d : FrameData)
    (hd : VideoSource.frameDataFor frame bufferSize = some d) :
    d.width = frame.width ∧ d.height = frame.height ∧ d.format = frame.format ∧
      d.timestamp = frame.pts := by
  unfold VideoSource.frameDataFor at hd
  cases hn : FrameData.new frame.width frame.height frame.format bufferSize true with
  | none => rw [hn] at hd; exact absurd hd (by simp)
  | some d0 =>
    rw [hn] at hd
    have hf := FrameData.new_fields _ _ _ _ _ d0 hn
    simp only [Option.map_some', Option.some.injEq] at hd
    subst hd
    exact ⟨hf.1, hf.2.1, hf.2.2.1, rfl⟩

/-- C21: when the decoder accepts the packet and yields host-memory frames
f1..fn (each of which gets its buffer) followed by a need-more-input result,
`processPacket` returns true and invokes the registered callback exactly n
times, the i-th invocation for frame fi, in decode order; the object handed over
for fi has fi's width, height and format and fi's `pts` as timestamp. -/
theorem processPacket_delivers_each_frame (s : VideoSource) (env : DecodeEnv)
    (hcodec : s.codecContext = true) (hcb : s.frameCallback = true)
    (hsend : env.sendOk = true) (hfinal : env.final = .eagain)
    (hhost : ∀ f ∈ env.frames, f.frame.hw_frames_ctx = false)
    (hok : ∀ f ∈ env.frames, f.frameDataOk = true) :
    s.processPacket env = (true, env.frames.map (fun f => Action.frameCallback f.frame)) ∧
    callbackCalls (s.processPacket env).2 = env.frames.length ∧
    ∀ f ∈ env.frames, ∀ (bufferSize : Int) (d : FrameData),
      VideoSource.frameDataFor f.frame bufferSize = some d →
        d.width = f.frame.width ∧ d.height = f.frame.height ∧ d.format = f.frame.format ∧
          d.timestamp = f.frame.pts := by
  have hp : s.processPacket env =
      (true, env.frames.map (fun f => Action.frameCallback f.frame)) := by
    unfold VideoSource.processPacket
    rw [hcodec, hsend, hfinal]
    simp only [Bool.not_true, Bool.false_eq_true, if_false]
    exact receiveLoop_host s hcb env.frames false hhost hok
  refine ⟨hp, ?_, ?_⟩
  · rw [hp]
    exact callbackCalls_map env.frames
  · intro f _ bufferSize d hd
    exact frameDataFor_fields f.frame bufferSize d hd

/-- Witness for C21: the running RTSP source and a decoder that yields two
frames with timestamps 40 and 41. -/
theorem processPacket_delivers_each_frame_witness :
    exRtspRunning.processPacket exDecodeTwo =
        (true, [Action.frameCallback exFrame,
                Action.frameCallback { exFrame with pts := 41 }]) ∧
      callbackCalls (exRtspRunning.processPacket exDecodeTwo).2 = 2 ∧
      (VideoSource.frameDataFor { exFrame with pts := 41 } 6).map
        (fun d => (d.width, d.height, d.format, d.timestamp)) = some (2, 2, 0, 41) :=
  ⟨(processPacket_delivers_each_frame exRtspRunning exDecodeTwo (by decide) (by decide)
      (by decide) (by decide) (by decide) (by decide)).1,
   (processPacket_delivers_each_frame exRtspRunning exDecodeTwo (by decide) (by decide)
      (by decide) (by decide) (by decide) (by decide)).2.1,
   by decide⟩

/-- C22: a packet that the decoder accepts and for which the first receive call
reports need-more-input makes `processPacket` return true without a callback
invocation; the iteration of the capture loop that reads such a packet of the
video stream goes on to the next iteration, calls neither the callback nor
`reconnect()`, and leaves the reconnect counter no larger than it was. -/
theorem need_more_input_is_not_a_failure (s : VideoSource) (env : IterEnv) (size : Int)
    (decode : DecodeEnv) (hcodec : s.codecContext = true) (hrun : s.isRunning = true)
    (hpause : s.isPaused = false) (hattempts : 0 ≤ s.reconnectAttempts)
    (hread : env.read = .packet s.videoStreamIndex size decode)
    (hsend : decode.sendOk = true) (hframes : decode.frames = [])
    (hfinal : decode.final = .eagain) :
    s.processPacket decode = (true, []) ∧
    (s.captureIter env).continues = true ∧
    callbackCalls (s.captureIter env).trace = 0 ∧
    reconnectCalls (s.captureIter env).trace = 0 ∧
    (s.captureIter env).state.reconnectAttempts ≤ s.reconnectAttempts ∧
    (s.captureIter env).state.isRunning = true := by
  have hp : ∀ t : VideoSource, t.codecContext = true → t.processPacket decode = (true, []) := by
    intro t ht
    unfold VideoSource.processPacket
    rw [ht, hsend, hframes, hfinal]
    rfl
  refine ⟨hp s hcodec, ?_⟩
  unfold VideoSource.captureIter
  cases hk : s.kind with
  | camera =>
    simp [VideoSource.cameraCaptureIter, hrun, hpause, hread, hp, hcodec, callbackCalls,
      reconnectCalls]
  | rtsp =>
    simp only [VideoSource.rtspCaptureIter, hrun, hpause, hread]
    by_cases hdue : env.statusDue = true <;>
      simp [hp, hcodec, callbackCalls, reconnectCalls, hattempts, hdue]

/-- Witness for C22: the running RTSP source, two reconnects into its budget,
reads a video packet for which the decoder needs more input. -/
theorem need_more_input_is_not_a_failure_witness :
    ({ exRtspRunning with reconnectAttempts := 2 } : VideoSource).processPacket exDecodeAgain =
        (true, []) ∧
      (({ exRtspRunning with reconnectAttempts := 2 } : VideoSource).captureIter
        { read := .packet 1 100 exDecodeAgain, statusDue := false }).continues = true :=
  ⟨(need_more_input_is_not_a_failure { exRtspRunning with reconnectAttempts := 2 }
      { read := .packet 1 100 exDecodeAgain, statusDue := false } 100 exDecodeAgain
      (by decide) (by decide) (by decide) (by decide) (by decide) (by decide) (by decide)
      (by decide)).1,
   (need_more_input_is_not_a_failure { exRtspRunning with reconnectAttempts := 2 }
      { read := .packet 1 100 exDecodeAgain, statusDue := false } 100 exDecodeAgain
      (by decide) (by decide) (by decide) (by decide) (by decide) (by decide) (by decide)
      (by decide)).2.1⟩

end TurboVision

/-! ## Theorems: library initialisation -/

namespace TurboVision

/-- Once the library has been shut down after its initialisation, no sequence of
calls brings it back: `initialize()` keeps returning false. -/
theorem calls_after_shutdown (l : LibraryState) (cs : List LibraryCall)
    (hflag : l.initFlag = true) (hinit : l.isInitialized = false) :
    (l.calls cs).initFlag = true ∧ (l.calls cs).isInitialized = false := by
  induction cs generalizing l with
  | nil => exact ⟨hflag, hinit⟩
  | cons c rest ih =>
    have hstep : l.call c = l := by
      cases c
      · simp [LibraryState.call, LibraryState.initializeCall, hflag]
      · simp [LibraryState.call, LibraryState.shutdown, hinit]
    show ((l.call c).calls rest).initFlag = true ∧ ((l.call c).calls rest).isInitialized = false
    rw [hstep]
    exact ih l hflag hinit

/-- From an initialised library, the library is still initialised after a
sequence of calls exactly when the sequence holds no `shutdown()`. -/
theorem calls_from_initialised (l : LibraryState) (cs : List LibraryCall)
    (hflag : l.initFlag = true) (hinit : l.isInitialized = true) :
    (l.calls cs).initFlag = true ∧
      ((l.calls cs).isInitialized = true ↔ LibraryCall.shutdown ∉ cs) := by
  induction cs generalizing l with
  | nil => exact ⟨hflag, by simp [LibraryState.calls, hinit]⟩
  | cons c rest ih =>
    cases c with
    | initializeCall =>
      have hstep : l.call .initializeCall = l := by
        simp [LibraryState.call, LibraryState.initializeCall, hflag]
      show ((l.call .initializeCall).calls rest).initFlag = true ∧ _
      show _ ∧ (((l.call .initializeCall).calls rest).isInitialized = true ↔ _)
      rw [hstep]
      have h := ih l hflag hinit
      exact ⟨h.1, by simp [h.2]⟩
    | shutdown =>
      have h := calls_after_shutdown (l.call .shutdown) rest
        (by simp [LibraryState.call, LibraryState.shutdown, hinit, hflag])
        (by simp [LibraryState.call, LibraryState.shutdown, hinit])
      show ((l.call .shutdown).calls rest).initFlag = true ∧
        (((l.call .shutdown).calls rest).isInitialized = true ↔ _)
      exact ⟨h.1, by simp [h.2]⟩

/-- From a library that was never initialised: the once-flag and
`isInitialized` agree after every sequence of calls unless a `shutdown()` came
after the first `initialize()`. -/
theorem calls_from_fresh (l : LibraryState) (cs : List LibraryCall)
    (hflag : l.initFlag = false) (hinit : l.isInitialized = false) :
    ((l.calls cs).initFlag = false → (l.calls cs).isInitialized = false) ∧
    (((l.calls cs).initFlag = false ∨ (l.calls cs).isInitialized = true) ↔
      LibraryCall.shutdown ∉ cs.dropWhile (fun c => decide (c = LibraryCall.shutdown))) := by
  induction cs generalizing l with
  | nil => simp [LibraryState.calls, hflag, hinit]
  | cons c rest ih =>
    cases c with
    | initializeCall =>
      have h := calls_from_initialised (l.call .initializeCall) rest
        (by simp [LibraryState.call, LibraryState.initializeCall, hflag])
        (by simp [LibraryState.call, LibraryState.initializeCall, hflag,
              LibraryState.doInitialize])
      show (((l.call .initializeCall).calls rest).initFlag = false →
          ((l.call .initializeCall).calls rest).isInitialized = false) ∧
        ((((l.call .initializeCall).calls rest).initFlag = false ∨
          ((l.call .initializeCall).calls rest).isInitialized = true) ↔ _)
      refine ⟨fun hf => absurd hf (by simp [h.1]), ?_⟩
      simp [h.1, h.2]
    | shutdown =>
      have hstep : l.call .shutdown = l := by
        simp [LibraryState.call, LibraryState.shutdown, hinit]
      show (((l.call .shutdown).calls rest).initFlag = false →
          ((l.call .shutdown).calls rest).isInitialized = false) ∧
        ((((l.call .shutdown).calls rest).initFlag = false ∨
          ((l.call .shutdown).calls rest).isInitialized = true) ↔ _)
      rw [hstep]
      have h := ih l hflag hinit
      refine ⟨h.1, ?_⟩
      rw [h.2]
      simp

/-- What `initialize()` returns: true exactly when the once-flag has not fired
yet or the library is still initialised. -/
theorem initializeCall_result (l : LibraryState) :
    (l.initializeCall.1 = true ↔ (l.initFlag = false ∨ l.isInitialized = true)) ∧
    l.initializeCall.2.isInitialized = l.initializeCall.1 := by
  unfold LibraryState.initializeCall
  cases hf : l.initFlag <;> simp [LibraryState.doInitialize]

/-- C23, as the code has it: `initialize()` after `initialize()` and
`shutdown()` returns false, leaves the library uninitialised and does not run
the initialisation again. -/
theorem initialize_after_shutdown_fails :
    (LibraryState.fresh.calls [.initializeCall, .shutdown]).initializeCall =
      (false, { initFlag := true, isInitialized := false, networkUp := false, initRuns := 1 }) := by
  decide

/-- From a state in which the initialisation has run once, every sequence of
calls leads to one of two states: initialised with the network layer up, or shut
down with the network layer down; the initialisation has still run once. -/
theorem calls_after_initialize (cs : List LibraryCall) :
    ∀ l : LibraryState,
      (l = { initFlag := true, isInitialized := true, networkUp := true, initRuns := 1 } ∨
       l = { initFlag := true, isInitialized := false, networkUp := false, initRuns := 1 }) →
      (l.calls cs = { initFlag := true, isInitialized := true, networkUp := true, initRuns := 1 } ∨
       l.calls cs =
        { initFlag := true, isInitialized := false, networkUp := false, initRuns := 1 }) := by
  induction cs with
  | nil => intro l h; exact h
  | cons c rest ih =>
    intro l h
    show (l.call c).calls rest = _ ∨ (l.call c).calls rest = _
    apply ih
    rcases h with h | h <;> (subst h; cases c <;> decide)

/-- The states reached from program start: the start state while no
`initialize()` has been called, and afterwards one of the two states in which
the initialisation has run exactly once. -/
theorem calls_fresh_state (cs : List LibraryCall) :
    (LibraryCall.initializeCall ∉ cs ∧ LibraryState.fresh.calls cs = LibraryState.fresh) ∨
    (LibraryCall.initializeCall ∈ cs ∧
      (LibraryState.fresh.calls cs =
          { initFlag := true, isInitialized := true, networkUp := true, initRuns := 1 } ∨
       LibraryState.fresh.calls cs =
          { initFlag := true, isInitialized := false, networkUp := false, initRuns := 1 })) := by
  induction cs with
  | nil => left; exact ⟨by simp, rfl⟩
  | cons c rest ih =>
    cases c with
    | initializeCall =>
      right
      refine ⟨by simp, ?_⟩
      show (LibraryState.fresh.call .initializeCall).calls rest = _ ∨
        (LibraryState.fresh.call .initializeCall).calls rest = _
      exact calls_after_initialize rest _ (Or.inl (by decide))
    | shutdown =>
      have hstep : LibraryState.fresh.call .shutdown = LibraryState.fresh := by decide
      have hrun : LibraryState.fresh.calls (.shutdown :: rest) = LibraryState.fresh.calls rest := by
        show (LibraryState.fresh.call .shutdown).calls rest = _
        rw [hstep]
      rw [hrun]
      rcases ih with ⟨h1, h2⟩ | ⟨h1, h2⟩
      · left; exact ⟨by simp [h1], h2⟩
      · right; exact ⟨by simp [h1], h2⟩

/-- C23, amended: after every sequence of calls, a second `initialize()` in a
row changes nothing and returns what the first returned, and a second
`shutdown()` in a row changes nothing; `initialize()` returns whether the
library is initialised afterwards, and it returns true, leaving the library
initialised, exactly when no `shutdown()` has been called after the first
`initialize()` (otherwise it returns false and the library stays
uninitialised). The underlying initialisation runs at most once in the life of
the process: it has run once exactly when `initialize()` has been called, so a
later `initialize()`, also one after a `shutdown()`, does not run it again; and
the network layer is up exactly while the library is initialised. -/
theorem initialize_shutdown_contract (cs : List LibraryCall) :
    (LibraryState.fresh.calls cs).initializeCall.2.initializeCall =
      (LibraryState.fresh.calls cs).initializeCall ∧
    (LibraryState.fresh.calls cs).shutdown.shutdown = (LibraryState.fresh.calls cs).shutdown ∧
    (LibraryState.fresh.calls cs).initializeCall.2.isInitialized =
      (LibraryState.fresh.calls cs).initializeCall.1 ∧
    ((LibraryState.fresh.calls cs).initializeCall.1 = true ↔
      LibraryCall.shutdown ∉ cs.dropWhile (fun c => decide (c = LibraryCall.shutdown))) ∧
    (LibraryState.fresh.calls cs).initRuns =
      (if LibraryCall.initializeCall ∈ cs then 1 else 0) ∧
    (LibraryState.fresh.calls cs).initializeCall.2.initRuns = 1 ∧
    (LibraryState.fresh.calls cs).initializeCall.2.initializeCall.2.initRuns = 1 ∧
    (LibraryState.fresh.calls cs).shutdown.initializeCall.2.initRuns = 1 ∧
    (LibraryState.fresh.calls cs).networkUp = (LibraryState.fresh.calls cs).isInitialized ∧
    (LibraryState.fresh.calls cs).initializeCall.2.networkUp =
      (LibraryState.fresh.calls cs).initializeCall.1 := by
  have h := calls_from_fresh LibraryState.fresh cs rfl rfl
  have hr := initializeCall_result (LibraryState.fresh.calls cs)
  have hst := calls_fresh_state cs
  refine ⟨?_, ?_, hr.2, ?_, ?_, ?_, ?_, ?_, ?_, ?_⟩
  · generalize LibraryState.fresh.calls cs = l
    unfold LibraryState.initializeCall
    cases hf : l.initFlag <;> simp [hf, LibraryState.doInitialize]
  · generalize LibraryState.fresh.calls cs = l
    unfold LibraryState.shutdown
    cases hi : l.isInitialized <;> simp [hi]
  · rw [hr.1]
    exact h.2
  · rcases hst with ⟨h1, h2⟩ | ⟨h1, h2 | h2⟩
    · rw [h2, if_neg h1]; rfl
    · rw [h2, if_pos h1]
    · rw [h2, if_pos h1]
  · rcases hst with ⟨_, h2⟩ | ⟨_, h2 | h2⟩ <;> (rw [h2]; decide)
  · rcases hst with ⟨_, h2⟩ | ⟨_, h2 | h2⟩ <;> (rw [h2]; decide)
  · rcases hst with ⟨_, h2⟩ | ⟨_, h2 | h2⟩ <;> (rw [h2]; decide)
  · rcases hst with ⟨_, h2⟩ | ⟨_, h2 | h2⟩ <;> (rw [h2]; try decide)
  · rcases hst with ⟨_, h2⟩ | ⟨_, h2 | h2⟩ <;> (rw [h2]; decide)

end TurboVision

/-! ## Theorems: stop() while a callback runs -/

namespace TurboVision

/-- An iteration that finds `isRunning_` false leaves the loop at once. -/
theorem captureIter_stopped (s : VideoSource) (env : IterEnv) (h : s.isRunning = false) :
    s.captureIter env = { state := s, trace := [], continues := false } := by
  unfold VideoSource.captureIter
  cases s.kind with
  | camera => simp [VideoSource.cameraCaptureIter, h]
  | rtsp => simp [VideoSource.rtspCaptureIter, h]

/-- After `stop()` the thread member is not running a loop and the queue is
empty. -/
theorem stop_thread_queue (s : VideoSource) :
    s.stop.captureThread ≠ .looping ∧ s.stop.frameQueue = [] ∧ s.stop.isRunning = false ∧
      (s.captureThread = .exited → s.stop.captureThread = .notStarted) := by
  unfold VideoSource.stop VideoSource.clearFrameQueue VideoSource.cleanupSource
    VideoSource.disconnect
  cases hk : s.kind <;> cases ht : s.captureThread <;>
    simp [ThreadState.joinable, hk, ht]

/-- The two steps of `stop()` on an engine whose thread is not running its loop
are the function `VideoSource.stop`. -/
theorem stop_steps_sequential (x : StopSystem) (hstop : x.stop = .notCalled)
    (hthread : x.source.captureThread ≠ .looping) :
    (x.run [.stopStep, .stopStep]).source = x.source.stop ∧
      (x.run [.stopStep, .stopStep]).stop = .done := by
  have hc : x.source.clearRunFlags.captureThread ≠ .looping := hthread
  simp only [StopSystem.run, List.foldl, StopSystem.step, hstop, if_neg hc]
  exact ⟨rfl, trivial⟩

/-- The function `connect` does not touch the thread member. -/
theorem connect_captureThread (s : VideoSource) (o : OpenEnv) :
    (s.connect o).2.captureThread = s.captureThread := by
  unfold VideoSource.connect VideoSource.findVideoStream VideoSource.disconnect
  cases firstVideoStream o.streams 0 <;> simp only <;> split_ifs <;> rfl

/-- No iteration of a capture loop touches the thread member. -/
theorem captureIter_captureThread (s : VideoSource) (env : IterEnv) :
    (s.captureIter env).state.captureThread = s.captureThread := by
  have hrec : ∀ o, (s.disconnect.reconnect o).2.captureThread = s.captureThread := by
    intro o
    unfold VideoSource.reconnect
    rw [connect_captureThread]
    rfl
  unfold VideoSource.captureIter
  cases s.kind with
  | camera =>
    simp only
    unfold VideoSource.cameraCaptureIter
    by_cases h1 : (!s.isRunning) = true
    · rw [if_pos h1]
    · rw [if_neg h1]
      by_cases h2 : s.isPaused = true
      · rw [if_pos h2]
      · rw [if_neg h2]
        cases env.read <;> rfl
  | rtsp =>
    simp only
    unfold VideoSource.rtspCaptureIter
    by_cases h1 : (!s.isRunning) = true
    · rw [if_pos h1]
    · rw [if_neg h1]
      by_cases h2 : s.isPaused = true
      · rw [if_pos h2]
      · rw [if_neg h2]
        cases env.read with
        | packet streamIndex size decode =>
          simp only
          by_cases h3 : streamIndex = s.videoStreamIndex
          · rw [if_pos h3]
          · rw [if_neg h3]
        | failure reopen =>
          simp only
          by_cases h3 : (s.rtspConfig.reconnectOnError
              && decide (s.reconnectAttempts < s.rtspConfig.maxReconnectAttempts)) = true
          · rw [if_pos h3]
            by_cases h4 : (s.disconnect.reconnect reopen).1 = true
            · rw [if_pos h4]
              exact hrec reopen
            · rw [if_neg h4]
              exact hrec reopen
          · rw [if_neg h3]

/-- The capture thread, left alone inside an iteration, completes the pending
actions one per step and then goes on as `advance` says. -/
theorem worker_completes_pending (pending : List Action) (continues : Bool) (env : IterEnv) :
    ∀ x : StopSystem, x.source.captureThread = .looping →
      x.worker = .inIteration pending continues → pending ≠ [] →
      x.run (List.replicate pending.length (.workerStep env)) =
        ({ x with performed := x.performed ++ pending }).advance [] continues := by
  induction pending with
  | nil => intro x _ _ h; exact absurd rfl h
  | cons a rest ih =>
    intro x hx hw _
    have hstep : x.step (.workerStep env) =
        ({ x with performed := x.performed ++ [a] }).advance rest continues := by
      simp only [StopSystem.step, hx, if_true, hw]
    show (x.step (.workerStep env)).run (List.replicate rest.length (.workerStep env)) = _
    rw [hstep]
    cases rest with
    | nil => rfl
    | cons b r =>
      have h := ih ({ x with performed := x.performed ++ [a], worker := .inIteration (b :: r) continues })
        hx rfl (by simp)
      show StopSystem.run { x with performed := x.performed ++ [a], worker := .inIteration (b :: r) continues } _ = _
      rw [h]
      simp [StopSystem.advance, List.append_assoc]

/-- One iteration of `captureLoop` in terms of `captureIter`. -/
theorem captureLoop_single (s : VideoSource) (env : IterEnv) :
    (s.captureLoop [env]).state =
      (if (s.captureIter env).continues then (s.captureIter env).state
        else { (s.captureIter env).state with captureThread := .exited }) ∧
    (s.captureLoop [env]).trace = (s.captureIter env).trace := by
  cases h : (s.captureIter env).continues <;> simp [VideoSource.captureLoop, h]

/-- The capture thread, left alone for one iteration from the loop test, does
what one iteration of `VideoSource.captureLoop` does: the same engine state
(thread function returned when the loop is left) and the same actions, in
order. -/
theorem worker_iteration_is_captureLoop (x : StopSystem) (env : IterEnv)
    (hthread : x.source.captureThread = .looping) (hhead : x.worker = .loopHead) :
    (x.run (List.replicate ((x.source.captureIter env).trace.length + 1)
      (.workerStep env))).source = (x.source.captureLoop [env]).state ∧
    (x.run (List.replicate ((x.source.captureIter env).trace.length + 1)
      (.workerStep env))).performed = x.performed ++ (x.source.captureLoop [env]).trace ∧
    (x.run (List.replicate ((x.source.captureIter env).trace.length + 1)
      (.workerStep env))).worker = .loopHead := by
  have hstep : x.step (.workerStep env) =
      ({ x with source := (x.source.captureIter env).state }).advance
        (x.source.captureIter env).trace (x.source.captureIter env).continues := by
    simp only [StopSystem.step, hthread, if_true, hhead]
  have hrun : x.run (List.replicate ((x.source.captureIter env).trace.length + 1)
      (.workerStep env)) =
      (x.step (.workerStep env)).run
        (List.replicate (x.source.captureIter env).trace.length (.workerStep env)) := rfl
  rw [hrun, hstep, (captureLoop_single x.source env).1, (captureLoop_single x.source env).2]
  have hct := captureIter_captureThread x.source env
  generalize x.source.captureIter env = r at hct ⊢
  obtain ⟨st, tr, c⟩ := r
  simp only at hct ⊢
  cases tr with
  | nil =>
    cases c <;> simp [StopSystem.run, StopSystem.advance, hhead]
  | cons a rest =>
    have h := worker_completes_pending (a :: rest) c env
      { x with source := st, worker := .inIteration (a :: rest) c }
      (by rw [← hthread]; exact hct) rfl (by simp)
    show (StopSystem.run { x with source := st, worker := .inIteration (a :: rest) c } _).source = _ ∧
      (StopSystem.run { x with source := st, worker := .inIteration (a :: rest) c } _).performed = _ ∧
      (StopSystem.run { x with source := st, worker := .inIteration (a :: rest) c } _).worker = _
    rw [h]
    cases c <;> simp [StopSystem.advance]

/-- Every scheduling step keeps `Stopping`. -/
theorem StopSystem.stopping_step (m : StopSystem) (todo : List Action) (continues : Bool)
    (hthread : m.source.captureThread = .looping) (x : StopSystem) (e : StopEvent)
    (h : StopSystem.Stopping m todo continues x) :
    StopSystem.Stopping m todo continues (x.step e) := by
  have hloop : m.source.clearRunFlags.captureThread = .looping := hthread
  rcases h with ⟨hs, hsrc, pre, post, htodo, hne, hw, hp⟩ | ⟨hs, hsrc, hw, hp⟩ |
      ⟨hs, hsrc, hw, hp⟩ | ⟨hs, hsrc, hw, hp⟩
  · cases e with
    | workerStep env =>
      obtain ⟨a, rest, rfl⟩ := List.exists_cons_of_ne_nil hne
      have hx : x.source.captureThread = .looping := by rw [hsrc]; exact hloop
      have hstep : x.step (.workerStep env) =
          ({ x with performed := x.performed ++ [a] }).advance rest continues := by
        simp only [StopSystem.step, hx, if_true, hw]
      rw [hstep]
      cases rest with
      | nil =>
        cases continues with
        | true =>
          right; left
          refine ⟨hs, hsrc, rfl, ?_⟩
          show x.performed ++ [a] = _
          rw [hp, htodo, List.append_assoc]
        | false =>
          right; right; left
          refine ⟨hs, ?_, rfl, ?_⟩
          · show { x.source with captureThread := ThreadState.exited } = _
            rw [hsrc]
          · show x.performed ++ [a] = _
            rw [hp, htodo, List.append_assoc]
      | cons b r =>
        left
        refine ⟨hs, hsrc, pre ++ [a], b :: r, ?_, by simp, rfl, ?_⟩
        · rw [htodo]; simp
        · show x.performed ++ [a] = _
          rw [hp, List.append_assoc]
    | stopStep =>
      have hx : x.source.captureThread = .looping := by rw [hsrc]; exact hloop
      have hstep : x.step .stopStep = x := by
        simp only [StopSystem.step, hs, hx, if_true]
      rw [hstep]
      exact Or.inl ⟨hs, hsrc, pre, post, htodo, hne, hw, hp⟩
  · cases e with
    | workerStep env =>
      have hx : x.source.captureThread = .looping := by rw [hsrc]; exact hloop
      have hrun : x.source.isRunning = false := by rw [hsrc]; rfl
      have hstep : x.step (.workerStep env) =
          { x with source := { x.source with captureThread := .exited } } := by
        simp only [StopSystem.step, hx, if_true, hw, captureIter_stopped x.source env hrun,
          StopSystem.advance]
        simp [hw]
      rw [hstep]
      right; right; left
      refine ⟨hs, ?_, hw, hp⟩
      show { x.source with captureThread := ThreadState.exited } = _
      rw [hsrc]
    | stopStep =>
      have hx : x.source.captureThread = .looping := by rw [hsrc]; exact hloop
      have hstep : x.step .stopStep = x := by
        simp only [StopSystem.step, hs, hx, if_true]
      rw [hstep]
      exact Or.inr (Or.inl ⟨hs, hsrc, hw, hp⟩)
  · have hx : x.source.captureThread ≠ .looping := by rw [hsrc]; simp
    cases e with
    | workerStep env =>
      have hstep : x.step (.workerStep env) = x := by
        simp only [StopSystem.step, if_neg hx]
      rw [hstep]
      exact Or.inr (Or.inr (Or.inl ⟨hs, hsrc, hw, hp⟩))
    | stopStep =>
      have hstep : x.step .stopStep = { x with source := x.source.stop, stop := .done } := by
        simp only [StopSystem.step, hs, if_neg hx]
      rw [hstep]
      right; right; right
      refine ⟨rfl, ?_, hw, hp⟩
      show x.source.stop = _
      rw [hsrc]
      rfl
  · have hx : x.source.captureThread ≠ .looping := by
      rw [hsrc]
      exact (stop_thread_queue _).1
    cases e with
    | workerStep env =>
      have hstep : x.step (.workerStep env) = x := by
        simp only [StopSystem.step, if_neg hx]
      rw [hstep]
      exact Or.inr (Or.inr (Or.inr ⟨hs, hsrc, hw, hp⟩))
    | stopStep =>
      have hstep : x.step .stopStep = x := by
        simp only [StopSystem.step, hs]
      rw [hstep]
      exact Or.inr (Or.inr (Or.inr ⟨hs, hsrc, hw, hp⟩))

/-- Every schedule keeps `Stopping`. -/
theorem StopSystem.stopping_run (m : StopSystem) (todo : List Action) (continues : Bool)
    (hthread : m.source.captureThread = .looping) (events : List StopEvent) (x : StopSystem)
    (h : StopSystem.Stopping m todo continues x) :
    StopSystem.Stopping m todo continues (x.run events) := by
  induction events generalizing x with
  | nil => exact h
  | cons e rest ih =>
    exact ih (x.step e) (StopSystem.stopping_step m todo continues hthread x e h)

/-- C24: `stop()` is entered by another thread while the capture thread is
inside the frame callback for `f` (with `rest` still to do in that iteration).
Under every schedule of the two threads after that, when `stop()` has returned
the capture thread has completed that callback invocation and the rest of its
iteration and nothing more, its thread function has returned and has been
joined, and the engine is what `VideoSource.stop` makes of it: the frame queue
is empty and `isRunning` is false. -/
theorem stop_waits_for_running_callback (m : StopSystem) (f : AVFrame) (rest : List Action)
    (continues : Bool) (events : List StopEvent) (hstop : m.stop = .notCalled)
    (hthread : m.source.captureThread = .looping)
    (hcb : m.worker = .inIteration (Action.frameCallback f :: rest) continues)
    (hdone : (m.run (.stopStep :: events)).stop = .done) :
    (m.run (.stopStep :: events)).performed = m.performed ++ Action.frameCallback f :: rest ∧
    (m.run (.stopStep :: events)).worker = .loopHead ∧
    (m.run (.stopStep :: events)).source =
      VideoSource.stop { m.source with captureThread := .exited } ∧
    (m.run (.stopStep :: events)).source.captureThread = .notStarted ∧
    (m.run (.stopStep :: events)).source.frameQueue = [] ∧
    (m.run (.stopStep :: events)).source.isRunning = false := by
  have h0 : StopSystem.Stopping m (Action.frameCallback f :: rest) continues
      (m.step .stopStep) := by
    left
    refine ⟨?_, ?_, [], Action.frameCallback f :: rest, rfl, by simp, ?_, ?_⟩
    · simp only [StopSystem.step, hstop]
    · simp only [StopSystem.step, hstop]
    · simp only [StopSystem.step, hstop]
      exact hcb
    · simp only [StopSystem.step, hstop]
      simp
  have h := StopSystem.stopping_run m _ continues hthread events _ h0
  have hrun : m.run (.stopStep :: events) = (m.step .stopStep).run events := rfl
  rw [hrun] at hdone ⊢
  rcases h with ⟨hs, _⟩ | ⟨hs, _⟩ | ⟨hs, _⟩ | ⟨_, hsrc, hw, hp⟩
  · rw [hs] at hdone; exact absurd hdone (by decide)
  · rw [hs] at hdone; exact absurd hdone (by decide)
  · rw [hs] at hdone; exact absurd hdone (by decide)
  · have hq := stop_thread_queue { m.source with captureThread := .exited }
    refine ⟨hp, hw, hsrc, ?_, ?_, ?_⟩
    · rw [hsrc]; exact hq.2.2.2 rfl
    · rw [hsrc]; exact hq.2.1
    · rw [hsrc]; exact hq.2.2.1

/-- Witness for C24: the started RTSP source is inside the callback for
`exFrame` when `stop()` is entered; `stop()` has to wait in `join()` and returns
after the callback has completed. -/
theorem stop_waits_for_running_callback_witness :
    exInCallback.worker = .inIteration [Action.frameCallback exFrame] true ∧
      (exInCallback.run (.stopStep :: exStopSchedule)).stop = .done ∧
      (exInCallback.run (.stopStep :: exStopSchedule)).performed =
        [Action.readFrame, Action.frameCallback exFrame] ∧
      (exInCallback.run (.stopStep :: exStopSchedule)).source.frameQueue = [] :=
  ⟨by decide, by decide,
   (stop_waits_for_running_callback exInCallback exFrame [] true exStopSchedule (by decide)
      (by decide) (by decide) (by decide)).1,
   (stop_waits_for_running_callback exInCallback exFrame [] true exStopSchedule (by decide)
      (by decide) (by decide) (by decide)).2.2.2.2.1⟩

end TurboVision

/-! ## Theorems: classification of locators -/

namespace TurboVision

/-- The call `find` returns position 0 exactly when the text begins with the
searched string. -/
theorem stringFind_zero (sub l : List Char) :
    stringFind sub l = some 0 ↔ sub.isPrefixOf l = true := by
  cases l with
  | nil => cases sub <;> simp [stringFind]
  | cons c rest =>
    unfold stringFind
    by_cases h : sub.isPrefixOf (c :: rest) = true
    · simp [h]
    · simp [h]

/-- A text that begins with `rtsp://` is not a string of digits. -/
theorem matchesDigits_rtsp (rest : List Char) :
    matchesDigits ("rtsp://".data ++ rest) = false := by
  simp [matchesDigits, Char.isDigit]

/-- C25, as the code has it: a locator that begins with `rtsp://` and contains
`/dev/video` is classified both as an RTSP URL and as a camera path. -/
theorem rtsp_url_is_also_camera_path :
    isRTSPUrl "rtsp://host/dev/video0" = true ∧ isCameraPath "rtsp://host/dev/video0" = true := by
  decide

/-- C25, amended: `isRTSPUrl(p)` is true exactly when `p` begins with
`rtsp://`; and for such a `p`, `isCameraPath(p)` is true exactly when `p`
contains `/dev/video` somewhere, so the two are exclusive on every string that
does not contain `/dev/video`. -/
theorem locator_classification (p : String) :
    (isRTSPUrl p = true ↔ ∃ rest : List Char, p.data = "rtsp://".data ++ rest) ∧
    (isRTSPUrl p = true →
      isCameraPath p = (stringFind "/dev/video".data p.data).isSome) ∧
    (stringFind "/dev/video".data p.data = none →
      ¬ (isCameraPath p = true ∧ isRTSPUrl p = true)) := by
  have hiff : isRTSPUrl p = true ↔ ∃ rest : List Char, p.data = "rtsp://".data ++ rest := by
    unfold isRTSPUrl
    rw [decide_eq_true_iff, stringFind_zero, List.isPrefixOf_iff_prefix]
    constructor
    · rintro ⟨t, ht⟩
      exact ⟨t, ht.symm⟩
    · rintro ⟨t, ht⟩
      exact ⟨t, ht.symm⟩
  have hcam : isRTSPUrl p = true →
      isCameraPath p = (stringFind "/dev/video".data p.data).isSome := by
    intro h
    obtain ⟨rest, hrest⟩ := hiff.mp h
    unfold isCameraPath
    rw [hrest, matchesDigits_rtsp]
    simp
  refine ⟨hiff, hcam, ?_⟩
  intro hnone hboth
  have h := hcam hboth.2
  rw [hboth.1, hnone] at h
  simp at h

/-- Witness for C25: an RTSP URL without `/dev/video` is not a camera path. -/
theorem locator_classification_witness :
    isRTSPUrl "rtsp://host/stream" = true ∧
      ¬ (isCameraPath "rtsp://host/stream" = true ∧ isRTSPUrl "rtsp://host/stream" = true) :=
  ⟨by decide, (locator_classification "rtsp://host/stream").2.2 (by decide)⟩

end TurboVision

/-! ## Theorems: encoding, statistics and rejected pushes -/

namespace TurboVision

/-- The packet loop: the flag ends true when it was true or some write
succeeded, and every successfully written packet is counted, wherever a failed
write sits among them. -/
theorem transmitPackets_spec (packets : List (Int × Bool)) (success : Bool) (bytes : Int) :
    transmitPackets packets success bytes =
      (success || packets.any (fun p => p.2), bytes + (writtenSizes packets).sum) := by
  induction packets generalizing success bytes with
  | nil => simp [transmitPackets, writtenSizes]
  | cons p rest ih =>
    obtain ⟨size, writeOk⟩ := p
    cases writeOk
    · simp only [transmitPackets, Bool.false_eq_true, if_false]
      rw [ih]
      simp [writtenSizes]
    · simp only [transmitPackets, if_true]
      rw [ih]
      simp [writtenSizes, add_assoc]

/-- C26, as the code has it: when the encoder accepts the frame and yields no
packet, `encodeAndTransmit` returns false, the value it returns for a frame the
encoder refuses, and the server state is unchanged. -/
theorem encoder_buffering_returns_false :
    exEncodeBuffered.sendOk = true ∧ exEncodeBuffered.packets = [] ∧
      (exStarted.encodeAndTransmit exEncodeBuffered).1 = false ∧
      (exStarted.encodeAndTransmit exEncodeBuffered).2 = exStarted := by
  decide

/-- What `encodeAndTransmit` does with a frame the encoder accepts: it returns
true exactly when at least one packet is written successfully (so it returns
false when the encoder yields no packet); every packet of the submission is
drained, and every packet whose write succeeds is added to `bytesTransferred`,
also after a packet whose write failed. -/
theorem encodeAndTransmit_contract (s : RTSPServer) (env : EncodeEnv)
    (hsend : env.sendOk = true) :
    (s.encodeAndTransmit env).1 = env.packets.any (fun p => p.2) ∧
    (env.packets = [] → (s.encodeAndTransmit env).1 = false) ∧
    (s.encodeAndTransmit env).2.stats.bytesTransferred =
      s.stats.bytesTransferred + (writtenSizes env.packets).sum := by
  have h : s.encodeAndTransmit env =
      (env.packets.any (fun p => p.2),
       { s with stats := { s.stats with
          bytesTransferred := s.stats.bytesTransferred + (writtenSizes env.packets).sum } }) := by
    unfold RTSPServer.encodeAndTransmit
    rw [hsend, transmitPackets_spec]
    simp
  rw [h]
  refine ⟨rfl, ?_, rfl⟩
  intro hp
  rw [hp]
  rfl

/-- An instance: the first packet cannot be written, the two packets after it
are written and counted. -/
theorem encodeAndTransmit_contract_witness :
    (exStarted.encodeAndTransmit exEncodeWriteFail).1 = true ∧
      (exStarted.encodeAndTransmit exEncodeWriteFail).2.stats.bytesTransferred = 1600 :=
  ⟨(encodeAndTransmit_contract exStarted exEncodeWriteFail (by decide)).1.trans (by decide),
   (encodeAndTransmit_contract exStarted exEncodeWriteFail (by decide)).2.2.trans (by decide)⟩

/-- The value `updateStats` stores in `uptime` is the clock reading, whatever
the time of the start. -/
theorem updateStatsAfter_uptime (s : RTSPServer) (startClock elapsed : Int) :
    (s.updateStatsAfter startClock elapsed).stats.uptime = startClock + elapsed ∧
    (s.updateStatsAfter startClock elapsed).stats.currentBitrate =
      Int.tdiv (s.stats.bytesTransferred * 8) (startClock + elapsed) := by
  exact ⟨rfl, rfl⟩

/-- C27, as the code has it: a server started at clock reading 1000 that has
transmitted 1200 bytes and updates its statistics 5 seconds after the start
stores `uptime = 1005` (not 5) and `currentBitrate = 9600 / 1005 = 9` (not
`9600 / 5 = 1920`). -/
theorem uptime_counts_from_clock_epoch :
    (((exStarted.pushFrame (some (List.replicate 12 9)) 12 true).2.serverLoopIter
        { encode := exEncode, statsDue := none }).1.stats.bytesTransferred = 1200) ∧
    (((exStarted.pushFrame (some (List.replicate 12 9)) 12 true).2.serverLoopIter
        { encode := exEncode, statsDue := none }).1.updateStatsAfter 1000 5).stats.uptime
      = 1005 ∧
    (((exStarted.pushFrame (some (List.replicate 12 9)) 12 true).2.serverLoopIter
        { encode := exEncode, statsDue := none }).1.updateStatsAfter 1000 5).stats.currentBitrate
      = 9 := by
  decide

/-- C28: when the server is not running, or the data pointer is null, or the
size is not positive, `pushFrame` returns false and leaves the whole server
state (frame queue and every counter, `droppedFrames` included) unchanged; and
`pushFrame(FramePtr)` with a null pointer returns false with no state change. -/
theorem pushFrame_rejects_without_side_effects (s : RTSPServer)
    (frameData : Option (List Nat)) (size : Int) (allocOk : Bool)
    (h : s.isRunning = false ∨ frameData = none ∨ size ≤ 0) :
    s.pushFrame frameData size allocOk = (false, s) ∧
    s.pushFramePtr none allocOk = (false, s) := by
  refine ⟨?_, rfl⟩
  unfold RTSPServer.pushFrame
  by_cases hc : (!s.isRunning || frameData.isNone) = true
  · rw [if_pos hc]
  · rw [if_neg hc]
    have hrun : s.isRunning = true := by
      cases hr : s.isRunning
      · simp [hr] at hc
      · rfl
    cases frameData with
    | none => simp at hc
    | some bytes =>
      have hsize : size ≤ 0 := by
        rcases h with h | h | h
        · rw [hrun] at h
          exact absurd h (by decide)
        · exact absurd h (by simp)
        · exact h
      cases createVideoFrame allocOk s.width s.height AV_PIX_FMT_YUV420P with
      | none => rfl
      | some frame => simp [convertFrame, hsize]

/-- Witness for C28: a running server and a non-null buffer pushed with size 0. -/
theorem pushFrame_rejects_without_side_effects_witness :
    exStarted.pushFrame (some [1, 2, 3]) 0 true = (false, exStarted) ∧
      exStarted.pushFramePtr none true = (false, exStarted) :=
  pushFrame_rejects_without_side_effects exStarted (some [1, 2, 3]) 0 true
    (Or.inr (Or.inr (by decide)))

end TurboVision

/-! ## Theorems: pixel conversion -/

namespace TurboVision

/-- Every input index that `convertFrame` reads lies below `width * height * 3`. -/
theorem convertFrameReads_bound (W H : Nat) (i : Int) (hi : i ∈ convertFrameReads W H) :
    0 ≤ i ∧ i < (W : Int) * H * 3 := by
  unfold convertFrameReads at hi
  simp only [List.mem_append, List.mem_flatMap, List.mem_range, Int.toNat_ofNat,
    List.mem_cons, List.mem_singleton, List.not_mem_nil, or_false] at hi
  rcases hi with ⟨y, hy, x, hx, hi⟩ | ⟨y, hy, x, hx, dy, hdy, dx, hdx, hi⟩
  · have h1 : (y : Int) * ((W : Int) * 3) + (x : Int) * 3 + 2 < (W : Int) * H * 3 := by
      have : ((y : Int) + 1) * (W : Int) ≤ (H : Int) * W :=
        Int.mul_le_mul_of_nonneg_right (by omega) (by omega)
      nlinarith
    have h0 : 0 ≤ (y : Int) * ((W : Int) * 3) := by positivity
    rcases hi with hi | hi | hi <;> subst hi <;> constructor <;> omega
  · have hyy : y * 2 + dy < H := by omega
    have hxx : x * 2 + dx < W := by omega
    have h1 : ((y * 2 + dy : Nat) : Int) * ((W : Int) * 3) + ((x * 2 + dx : Nat) : Int) * 3 + 2
        < (W : Int) * H * 3 := by
      have : (((y * 2 + dy : Nat) : Int) + 1) * (W : Int) ≤ (H : Int) * W :=
        Int.mul_le_mul_of_nonneg_right (by omega) (by omega)
      have hx2 : ((x * 2 + dx : Nat) : Int) < W := by exact_mod_cast hxx
      nlinarith
    have h0 : 0 ≤ ((y * 2 + dy : Nat) : Int) * ((W : Int) * 3) := by positivity
    rcases hi with hi | hi | hi <;> subst hi <;> constructor <;> omega

/-- The last byte of the image, index `width * height * 3 - 1`, is among the
bytes that `convertFrame` reads. -/
theorem convertFrameReads_last (W H : Nat) :
    ((W + 1 : Nat) : Int) * (H + 1 : Nat) * 3 - 1 ∈
      convertFrameReads ((W + 1 : Nat) : Int) ((H + 1 : Nat) : Int) := by
  unfold convertFrameReads
  simp only [List.mem_append, List.mem_flatMap, List.mem_range, Int.toNat_ofNat,
    List.mem_cons, List.mem_singleton]
  refine Or.inl ⟨H, by omega, W, by omega, Or.inr (Or.inr (Or.inl ?_))⟩
  push_cast
  ring

/-- For a frame with positive width and height, `convertFrame` accepts every
non-null input with a positive `size`, however small, and reads the byte at
index `width * height * 3 - 1`. -/
theorem convertFrame_accepts_short_input (bytes : List Nat) (size : Int) (frame : AVFrame)
    (W H : Nat) (hw : frame.width = ((W + 1 : Nat) : Int))
    (hh : frame.height = ((H + 1 : Nat) : Int)) (hsize : 0 < size) :
    (convertFrame (some bytes) size frame).isSome = true ∧
    frame.width * frame.height * 3 - 1 ∈ convertFrameReads frame.width frame.height := by
  constructor
  · unfold convertFrame
    simp [not_le.mpr hsize]
  · rw [hw, hh]
    exact convertFrameReads_last W H

/-- C29, as the code has it: for a 2x2 frame `convertFrame` returns true on a
one-byte input with `size = 1` although it reads the indices up to 11; and
`pushFrame(FramePtr)` passes the 6-byte buffer of a 2x2 YUV420P `FrameData`,
which is accepted as well. -/
theorem convertFrame_reads_beyond_size :
    (convertFrame (some [1]) 1 exBlankFrame).isSome = true ∧
      (11 : Int) ∈ convertFrameReads exBlankFrame.width exBlankFrame.height ∧
      exYuv420.dataSize = 6 ∧
      (exStarted.pushFramePtr (some exYuv420) true).1 = true ∧
      (11 : Int) ∈ convertFrameReads exStarted.width exStarted.height := by
  decide

/-- The shift `>> 8` on an `int`, arithmetic as in the source's compilers, is
the division by 256 rounded down. -/
theorem shiftRight_eight (m : Int) : m >>> 8 = m / 256 := by
  cases m with
  | ofNat k =>
    show (k : Int) >>> ((8 : Nat) : Int) = (k : Int) / 256
    rw [Int.shiftRight_coe_nat, Nat.shiftRight_eq_div_pow]
    norm_num
  | negSucc k =>
    show Int.negSucc k >>> ((8 : Nat) : Int) = Int.negSucc k / 256
    rw [Int.shiftRight_negSucc, Nat.shiftRight_eq_div_pow, Int.negSucc_eq, Int.negSucc_eq]
    norm_num
    omega

/-- C30: for all r, g, b in 0..255 the weighted sums fit a 32-bit `int`, the
shifted luma and the shifted-and-offset chroma values lie in 0..255, so the
cast to a byte changes none of them; and a grey pixel r = g = b = v gives
Y = v and U = V = 128. -/
theorem bgr_to_yuv_never_wraps (r g b : Int) (hr : 0 ≤ r ∧ r ≤ 255) (hg : 0 ≤ g ∧ g ≤ 255)
    (hb : 0 ≤ b ∧ b ≤ 255) :
    (wrapInt32 (77 * r + 150 * g + 29 * b + 128) = 77 * r + 150 * g + 29 * b + 128 ∧
     wrapInt32 (-43 * r + -84 * g + 127 * b + 128) = -43 * r + -84 * g + 127 * b + 128 ∧
     wrapInt32 (127 * r + -106 * g + -21 * b + 128) = 127 * r + -106 * g + -21 * b + 128) ∧
    (0 ≤ lumaOf r g b ∧ lumaOf r g b ≤ 255 ∧
     lumaOf r g b = (77 * r + 150 * g + 29 * b + 128) >>> 8) ∧
    (0 ≤ chromaUOf r g b ∧ chromaUOf r g b ≤ 255 ∧
     chromaUOf r g b = ((-43 * r + -84 * g + 127 * b + 128) >>> 8) + 128) ∧
    (0 ≤ chromaVOf r g b ∧ chromaVOf r g b ≤ 255 ∧
     chromaVOf r g b = ((127 * r + -106 * g + -21 * b + 128) >>> 8) + 128) ∧
    (lumaOf r r r = r ∧ chromaUOf r r r = 128 ∧ chromaVOf r r r = 128) := by
  obtain ⟨hr0, hr1⟩ := hr
  obtain ⟨hg0, hg1⟩ := hg
  obtain ⟨hb0, hb1⟩ := hb
  refine ⟨⟨?_, ?_, ?_⟩, ?_, ?_, ?_, ?_⟩
  · exact wrapInt32_of_range _ (by omega) (by omega)
  · exact wrapInt32_of_range _ (by omega) (by omega)
  · exact wrapInt32_of_range _ (by omega) (by omega)
  · unfold lumaOf toUInt8
    rw [shiftRight_eight]
    omega
  · unfold chromaUOf toUInt8
    rw [shiftRight_eight]
    omega
  · unfold chromaVOf toUInt8
    rw [shiftRight_eight]
    omega
  · unfold lumaOf chromaUOf chromaVOf toUInt8
    rw [shiftRight_eight, shiftRight_eight, shiftRight_eight]
    omega

/-- Witness for C30: the pixel r = 255, g = 0, b = 0 (pure red). -/
theorem bgr_to_yuv_never_wraps_witness :
    lumaOf 255 0 0 = (77 * 255 + 150 * 0 + 29 * 0 + 128) >>> 8 ∧ lumaOf 255 255 255 = 255 :=
  ⟨(bgr_to_yuv_never_wraps 255 0 0 (by decide) (by decide) (by decide)).2.1.2.2,
   (bgr_to_yuv_never_wraps 255 0 0 (by decide) (by decide) (by decide)).2.2.2.2.1⟩

end TurboVision
